import Mathlib

/-!
# Visitor Management System front-end: access control and session core

A shallow embedding of the access-control and workflow core of
`vms-frontend/src/App.js`: the `PERMISSIONS` table and `checkPermission`,
the sidebar of `Dashboard`, the lock / unlock controls of `ViewUsers` with
their step-up modals, the session restore effect of `App`, `handleLogout`,
the `Login` form, the activity watchdog and unload handling of `Dashboard`,
the `CreateVisitorEntry` form with its patterns, and the actions of
`ApproveVisitor` and `CheckoutVisitor`.

React state is explicit state passing: every handler is a function from the
component state (and the browser storage it touches) to the next state and
the list of requests it issues.
-/

deriving instance DecidableEq for Except

namespace VMS

/-! ## JavaScript values used by the permission resolver -/

/-- The values `checkPermission` can return: a boolean, or `undefined`
(the result of an optional chain `?.` applied to a nullish value). -/
inductive JSValue where
  | bool (b : Bool)
  | undefined
  deriving DecidableEq, Repr

/-- Runtime errors raised by the modelled expressions. -/
inductive JSError where
  | typeError
  deriving DecidableEq, Repr

/-- JavaScript truthiness of a `JSValue` (`ToBoolean`). -/
def JSValue.truthy : JSValue → Bool
  | .bool b => b
  | .undefined => false

/-- Truthiness of a string: only the empty string is falsy. -/
def strTruthy (s : String) : Bool := s != ""

/-- Truthiness of a possibly absent (null / undefined) string. -/
def optTruthy : Option String → Bool
  | none => false
  | some s => strTruthy s

/-! ## The permission table -/

/-- The own properties of the object literal `PERMISSIONS` (App.js 7-37),
in source order. -/
def PERMISSIONS : List (String × List String) :=
  [ ("ADMIN",
      [ "CREATE_USER", "VIEW_USERS", "UNLOCK_USER", "APPROVE_VISITOR",
        "VIEW_ALL_VISITORS", "CHECKOUT_VISITOR", "VIEW_REPORTS",
        "CREATE_VISITOR_ENTRY", "MANAGE_MASTER_DATA", "LOCK_USER" ]),
    ("HR",
      [ "CREATE_USER", "VIEW_USERS", "UNLOCK_USER", "LOCK_USER",
        "UNACTIVE_USER", "APPROVE_VISITOR", "VIEW_MY_ENTRIES" ]),
    ("SECURITY",
      [ "CREATE_VISITOR_ENTRY", "VIEW_ALL_VISITORS", "CHECKOUT_VISITOR",
        "VIEW_PENDING_APPROVALS", "VIEW_REPORTS" ]),
    ("USER", [ "APPROVE_VISITOR", "VIEW_MY_ENTRIES" ]) ]

/-- The four roles of the declared Role enumeration. -/
def declaredRoles : List String := ["ADMIN", "HR", "SECURITY", "USER"]

/-- Property names every object literal inherits from `Object.prototype`;
reading one of them from `PERMISSIONS` yields a function or object that is
not an array. -/
def objectPrototypeKeys : List String :=
  [ "constructor", "hasOwnProperty", "isPrototypeOf", "propertyIsEnumerable",
    "toLocaleString", "toString", "valueOf", "__proto__",
    "__defineGetter__", "__defineSetter__", "__lookupGetter__",
    "__lookupSetter__" ]

/-- What the property read `PERMISSIONS[key]` evaluates to. -/
inductive PropValue where
  | array (xs : List String)
  | inherited
  | undefined
  deriving DecidableEq, Repr

/-- The property read `PERMISSIONS[key]`: an own entry of the table, else a
member inherited from `Object.prototype`, else `undefined`. -/
def permissionsGet (key : String) : PropValue :=
  match PERMISSIONS.lookup key with
  | some xs => .array xs
  | none => if key ∈ objectPrototypeKeys then .inherited else .undefined

/-- The identity object (`auth.user`, the `user_info` of the login
response); `user_role` is `none` when the field is missing or null. -/
structure User where
  empid : String
  empname : String
  user_role : Option String
  deriving DecidableEq, Repr

/-- The function `checkPermission(user, permission)` (App.js 1585-1588):
`if (!user || !user.user_role) return false;` then
`PERMISSIONS[user.user_role]?.includes(permission)`. -/
def checkPermission (user : Option User) (permission : String) :
    Except JSError JSValue :=
  match user with
  | none => .ok (.bool false)
  | some u =>
    match u.user_role with
    | none => .ok (.bool false)
    | some role =>
      if !strTruthy role then .ok (.bool false)
      else
        match permissionsGet role with
        | .array xs => .ok (.bool (xs.contains permission))
        | .undefined => .ok .undefined
        | .inherited => .error .typeError

/-- Whether a JSX guard `checkPermission(user, p) && (...)` renders its
right operand; an exception aborts the render. -/
def permitted (user : Option User) (permission : String) : Except JSError Bool :=
  (checkPermission user permission).map JSValue.truthy

/-! ## The sidebar of `Dashboard` -/

/-- The capabilities that are actions inside another component
(App.js 1718-1723). -/
def hiddenPermissions : List String :=
  ["LOCK_USER", "UNLOCK_USER", "UNACTIVE_USER", "MANAGE_MASTER_DATA"]

/-- The value `PERMISSIONS[auth.user.user_role] || []` (App.js 1639); a
missing role reads the key "undefined". -/
def userPermissions (user : User) : Except JSError (List String) :=
  match permissionsGet (user.user_role.getD "undefined") with
  | .array xs => .ok xs
  | .undefined => .ok []
  | .inherited => .error .typeError

/-- The list `sidebarPermissions` (App.js 1716-1724). -/
def sidebarPermissions (user : User) : Except JSError (List String) :=
  (userPermissions user).map (fun ps => ps.filter (fun p => !hiddenPermissions.contains p))

/-- The table `labels` of `getButtonLabel` (App.js 1698-1713), applied to
capability names of the permission table. -/
def getButtonLabel (perm : String) : Option String :=
  [ ("CREATE_USER", "Create User"), ("VIEW_USERS", "View Users"),
    ("CREATE_VISITOR_ENTRY", "New Visitor"), ("VIEW_ALL_VISITORS", "All Visitors"),
    ("VIEW_MY_ENTRIES", "My Visitors"), ("APPROVE_VISITOR", "Approve Visitors"),
    ("VIEW_PENDING_APPROVALS", "Pending Approvals"),
    ("CHECKOUT_VISITOR", "Checkout Visitor"), ("VIEW_REPORTS", "View Reports"),
    ("LOCK_USER", "Lock User"), ("UNLOCK_USER", "Unlock User") ].lookup perm

/-- The navigation buttons rendered after the fixed Dashboard button
(App.js 1765-1779): one per sidebar permission that has a label. -/
def sidebarButtons (user : User) : Except JSError (List String) :=
  (sidebarPermissions user).map (fun ps => ps.filter (fun p => (getButtonLabel p).isSome))

/-- The component selected by `renderView` for an active view
(App.js 1654-1696). -/
inductive View where
  | CreateUser
  | ViewUsers
  | CreateVisitorEntry
  | ViewVisitors
  | ApproveVisitor
  | CheckoutVisitor
  | ViewReports
  | Welcome
  deriving DecidableEq, Repr

/-- The switch of `renderView` on `activeView`. -/
def renderView (activeView : String) : View :=
  if activeView = "CREATE_USER" then .CreateUser
  else if activeView = "VIEW_USERS" then .ViewUsers
  else if activeView = "CREATE_VISITOR_ENTRY" then .CreateVisitorEntry
  else if activeView = "VIEW_ALL_VISITORS" then .ViewVisitors
  else if activeView = "VIEW_MY_ENTRIES" then .ViewVisitors
  else if activeView = "APPROVE_VISITOR" then .ApproveVisitor
  else if activeView = "VIEW_PENDING_APPROVALS" then .ApproveVisitor
  else if activeView = "CHECKOUT_VISITOR" then .CheckoutVisitor
  else if activeView = "VIEW_REPORTS" then .ViewReports
  else .Welcome

/-! ## Browser storage and the session -/

/-- A Web Storage area (`localStorage`): the stored key / value pairs. -/
abbrev Storage := List (String × String)

/-- The call `storage.getItem(key)`; `none` is JavaScript `null`. -/
def Storage.getItem (st : Storage) (key : String) : Option String :=
  st.lookup key

/-- The call `storage.removeItem(key)`. -/
def Storage.removeItem (st : Storage) (key : String) : Storage :=
  st.filter (fun kv => kv.1 != key)

/-- The call `storage.setItem(key, value)`. -/
def Storage.setItem (st : Storage) (key value : String) : Storage :=
  if (st.lookup key).isSome then
    st.map (fun kv => if kv.1 == key then (key, value) else kv)
  else st ++ [(key, value)]

/-- The call `storage.clear()`. -/
def Storage.clear (_st : Storage) : Storage := []

/-- The React state `auth` of `App`: `{ token, user }`, `none` standing for
`null`.  `J` is the type of the non-null values an identity can be. -/
structure Auth (J : Type) where
  token : Option String
  user : Option J

/-- The initial value `{ token: null, user: null }` (App.js 1805). -/
def Auth.empty {J : Type} : Auth J := { token := none, user := none }

/-- The state touched by session handling: `localStorage`, the `auth`
state and the `loading` flag of `App`. -/
structure AppState (J : Type) where
  localStorage : Storage
  auth : Auth J
  loading : Bool

/-- The state of `App` at mount, over a given `localStorage`
(App.js 1805-1806). -/
def AppState.init {J : Type} (ls : Storage) : AppState J :=
  { localStorage := ls, auth := Auth.empty, loading := true }

/-- The mount effect of `App` (App.js 1808-1820).  `parse` is `JSON.parse`:
`none` when it throws, `some none` when the text denotes `null`, and
`some (some v)` otherwise. -/
def restore {J : Type} (parse : String → Option (Option J)) (s : AppState J) :
    AppState J :=
  let token := s.localStorage.getItem "vms_token"
  let user := s.localStorage.getItem "vms_user"
  let s1 :=
    if optTruthy token && optTruthy user then
      match parse (user.getD "") with
      | some v => { s with auth := { token := token, user := v } }
      | none => { s with localStorage := s.localStorage.clear }
    else s
  { s1 with loading := false }

/-- The handler `handleLogout` of `Dashboard` (App.js 1644-1648). -/
def handleLogout {J : Type} (s : AppState J) : AppState J :=
  { s with
    localStorage := (s.localStorage.removeItem "vms_token").removeItem "vms_user"
    auth := { token := none, user := none } }

/-- The values `JSON.parse` gives on the three texts used in the examples:
the text `null`, the serialised identity of employee E7, and the text
`not json`, which is rejected. -/
def sampleParse (text : String) : Option (Option User) :=
  if text = "null" then some none
  else if text = "\x7b\"empid\":\"E7\",\"empname\":\"Asha\",\"user_role\":\"HR\"\x7d" then
    some (some ⟨"E7", "Asha", some "HR"⟩)
  else none

/-! ## Requests to the API collaborator -/

/-- A call `apiRequest(endpoint, method, body, token)`; the body is the
list of fields of the JSON object sent, `none` when no body is passed. -/
structure Request where
  endpoint : String
  method : String
  body : Option (List (String × String))
  token : Option String
  deriving DecidableEq, Repr

/-! ## The `Login` component -/

/-- The React state of `Login` (App.js 285-290). -/
structure LoginState where
  empid : String
  password : String
  error : String
  loading : Bool
  attemptsLeft : Int
  failedAttempts : Nat
  deriving DecidableEq, Repr

/-- The initial state of `Login`. -/
def LoginState.init : LoginState :=
  { empid := "", password := "", error := "", loading := false,
    attemptsLeft := 5, failedAttempts := 0 }

/-- The payload of a successful login response; a missing `access_token`
or `user_info` is `none`. -/
structure LoginData (J : Type) where
  access_token : Option String
  user_info : Option J

/-- The text `localStorage.setItem` stores for a possibly missing string. -/
def storedText : Option String → String
  | none => "undefined"
  | some s => s

/-- First half of `Login.handleSubmit` (App.js 292-300), up to the `await`:
clears the error, sets `loading` and issues the login request. -/
def Login.handleSubmitStart (s : LoginState) : LoginState × List Request :=
  ({ s with error := "", loading := true },
   [{ endpoint := "/api/auth/login", method := "POST",
      body := some [("empid", s.empid), ("password", s.password)], token := none }])

/-- Second half of `Login.handleSubmit` (App.js 301-310), once `apiRequest`
has settled: `.ok data` when the `try` block runs through with the response
`data`, `.error msg` when the `catch` block receives an error with message
`msg`.  `stringify` is `JSON.stringify` followed by the string conversion of
`setItem`. -/
def Login.handleSubmitSettle {J : Type} (stringify : Option J → String)
    (s : LoginState) (app : AppState J) (outcome : Except String (LoginData J)) :
    LoginState × AppState J :=
  match outcome with
  | .ok data =>
    ({ s with loading := false },
     { app with
       auth := { token := data.access_token, user := data.user_info }
       localStorage :=
         (app.localStorage.setItem "vms_token" (storedText data.access_token)).setItem
           "vms_user" (stringify data.user_info) })
  | .error msg =>
    ({ s with error := msg, failedAttempts := s.failedAttempts + 1,
              attemptsLeft := s.attemptsLeft - 1, loading := false }, app)

/-- One whole run of `Login.handleSubmit`. -/
def Login.handleSubmit {J : Type} (stringify : Option J → String)
    (s : LoginState) (app : AppState J) (outcome : Except String (LoginData J)) :
    (LoginState × AppState J) × List Request :=
  let started := Login.handleSubmitStart s
  (Login.handleSubmitSettle stringify started.1 app outcome, started.2)

/-- The `disabled` attribute of the submit button (App.js 351). -/
def Login.submitDisabled (s : LoginState) : Bool := s.loading

/-- Whether the browser delivers a submit event of the form: the submit
button is enabled and the two `required` inputs (App.js 155, 170) are
filled in. -/
def Login.submitAvailable (s : LoginState) : Bool :=
  !Login.submitDisabled s && strTruthy s.empid && strTruthy s.password

/-- What `Alert` displays for `message` (App.js 125-142): nothing for a
falsy message. -/
def Alert (message : String) : Option String :=
  if strTruthy message then some message else none

/-- Whether the notice "Too many failed attempts. Login is temporarily
disabled." is rendered (App.js 320-331). -/
def Login.lockoutNotice (s : LoginState) : Bool :=
  strTruthy s.error && decide (s.attemptsLeft ≤ 0)

/-- Whether the notice "You have n attempts left." is rendered
(App.js 322-326). -/
def Login.attemptsNotice (s : LoginState) : Bool :=
  strTruthy s.error && decide (s.failedAttempts ≥ 2) && decide (s.attemptsLeft > 0)

/-- The interactions with the `Login` form: edits of the two fields (the
employee id event carries the text after `toUpperCase()`), the alert's
close button, a form submission, and the settling of the pending login
request. -/
inductive LoginEvent (J : Type) where
  | setEmpid (value : String)
  | setPassword (value : String)
  | closeAlert
  | submit
  | settle (outcome : Except String (LoginData J))

/-- One interaction with `Login`: the field handlers (App.js 340, 347), the
alert's close button (App.js 319), a form submission, which the browser
delivers only while it is available, or the continuation of
`handleSubmit` after its `await`, which runs only while a request is
pending.  Returns the new state and the requests issued; `none` when the
interaction is not available. -/
def Login.step {J : Type} (stringify : Option J → String)
    (st : LoginState × AppState J) (e : LoginEvent J) :
    Option ((LoginState × AppState J) × List Request) :=
  match e with
  | .setEmpid v => some (({ st.1 with empid := v }, st.2), [])
  | .setPassword v => some (({ st.1 with password := v }, st.2), [])
  | .closeAlert => some (({ st.1 with error := "" }, st.2), [])
  | .submit =>
    if Login.submitAvailable st.1 then
      some (((Login.handleSubmitStart st.1).1, st.2), (Login.handleSubmitStart st.1).2)
    else none
  | .settle outcome =>
    if st.1.loading then some (Login.handleSubmitSettle stringify st.1 st.2 outcome, [])
    else none

/-- Runs a sequence of interactions, collecting the requests issued. -/
def Login.run {J : Type} (stringify : Option J → String)
    (st : LoginState × AppState J) :
    List (LoginEvent J) → Option ((LoginState × AppState J) × List Request)
  | [] => some (st, [])
  | e :: es =>
    match Login.step stringify st e with
    | none => none
    | some (st1, reqs) =>
      match Login.run stringify st1 es with
      | none => none
      | some (st2, reqs2) => some (st2, reqs ++ reqs2)

/-- The login request settled with a failure. -/
def LoginEvent.isFailure {J : Type} : LoginEvent J → Bool
  | .settle (.error _) => true
  | _ => false

/-- The login request settled with a success. -/
def LoginEvent.isSuccess {J : Type} : LoginEvent J → Bool
  | .settle (.ok _) => true
  | _ => false

/-- The interaction of `n` consecutive failed submissions: `n` times, the
form is submitted and the login request fails with message `msg`. -/
def Login.failedSubmissions {J : Type} (msg : String) : Nat → List (LoginEvent J)
  | 0 => []
  | n + 1 => .submit :: .settle (.error msg) :: Login.failedSubmissions msg n

/-! ## The `ViewUsers` component and its step-up modals -/

/-- A row of the account listing (`response.data` of `/api/users`). -/
structure ManagedUser where
  empid : String
  empname : String
  user_role : String
  status : String
  deriving DecidableEq, Repr

/-- The React state of `LockUserModal` / `UnlockUserModal`
(App.js 186-187, 238-239). -/
structure ModalState where
  masterPassword : String
  error : String
  deriving DecidableEq, Repr

/-- The state of a freshly mounted modal. -/
def ModalState.init : ModalState := { masterPassword := "", error := "" }

/-- The handler `handleSubmit` of `LockUserModal` (App.js 189-197): the new
modal state and the argument `onConfirm` is called with, `none` when it is
not called. -/
def LockUserModal.handleSubmit (m : ModalState) : ModalState × Option String :=
  if !strTruthy m.masterPassword then
    ({ m with error := "Please enter the master password." }, none)
  else ({ masterPassword := "", error := "" }, some m.masterPassword)

/-- The handler `handleSubmit` of `UnlockUserModal` (App.js 241-249). -/
def UnlockUserModal.handleSubmit (m : ModalState) : ModalState × Option String :=
  if !strTruthy m.masterPassword then
    ({ m with error := "Please enter the master password." }, none)
  else ({ masterPassword := "", error := "" }, some m.masterPassword)

/-- The React state of `ViewUsers` (App.js 497-504) together with the state
of its two mounted modals. -/
structure ViewUsersState where
  users : List ManagedUser
  loading : Bool
  error : String
  actionError : String
  actionSuccess : String
  showUnlockModal : Bool
  showLockModal : Bool
  selectedUser : Option ManagedUser
  lockModal : ModalState
  unlockModal : ModalState
  deriving DecidableEq, Repr

/-- The state of `ViewUsers` at mount. -/
def ViewUsersState.init : ViewUsersState :=
  { users := [], loading := true, error := "", actionError := "",
    actionSuccess := "", showUnlockModal := false, showLockModal := false,
    selectedUser := none, lockModal := ModalState.init,
    unlockModal := ModalState.init }

/-- The props `auth` of `ViewUsers`: the requester identity and the token. -/
structure AuthCtx where
  user : Option User
  token : Option String
  deriving DecidableEq, Repr

/-- The test `["ADMIN", "HR"].includes(user.user_role)` (App.js 609, 632). -/
def elevated (user : ManagedUser) : Bool :=
  ["ADMIN", "HR"].contains user.user_role

/-- First half of `fetchUsers` (App.js 506-509): sets `loading`, which
replaces the table and the modals by the spinner (the modals are unmounted
and lose their state), and issues the listing request. -/
def ViewUsers.fetchUsersStart (auth : AuthCtx) (s : ViewUsersState) :
    ViewUsersState × List Request :=
  ({ s with loading := true, lockModal := ModalState.init,
            unlockModal := ModalState.init },
   [{ endpoint := "/api/users", method := "GET", body := none, token := auth.token }])

/-- Second half of `fetchUsers` (App.js 510-515): `response.data || []`
on success (`none` for a missing `data`), the error message on failure. -/
def ViewUsers.fetchUsersSettle (s : ViewUsersState)
    (outcome : Except String (Option (List ManagedUser))) : ViewUsersState :=
  match outcome with
  | .ok data => { s with users := data.getD [], loading := false }
  | .error msg => { s with error := msg, loading := false }

/-- The object `payload` built by `handleAction` (App.js 526-529). -/
def ViewUsers.payload (empid : String) (masterPassword : Option String) :
    List (String × String) :=
  if optTruthy masterPassword then
    [("empid", empid), ("master_password", masterPassword.getD "")]
  else [("empid", empid)]

/-- First half of `handleAction(endpoint, empid, masterPassword = null)`
(App.js 522-530), up to the `await`. -/
def ViewUsers.handleAction (auth : AuthCtx) (s : ViewUsersState)
    (endpoint empid : String) (masterPassword : Option String) :
    ViewUsersState × List Request :=
  ({ s with actionError := "", actionSuccess := "" },
   [{ endpoint := endpoint, method := "POST",
      body := some (ViewUsers.payload empid masterPassword), token := auth.token }])

/-- Second half of `handleAction` (App.js 531-535): on success the message
is shown and `fetchUsers()` is called, on failure the error is shown. -/
def ViewUsers.handleActionSettle (auth : AuthCtx) (s : ViewUsersState)
    (outcome : Except String String) : ViewUsersState × List Request :=
  match outcome with
  | .ok message => ViewUsers.fetchUsersStart auth { s with actionSuccess := message }
  | .error msg => ({ s with actionError := msg }, [])

/-- The guard of the Unlock button (App.js 605-606):
`user.status === "L" && checkPermission(auth.user, "UNLOCK_USER")`. -/
def ViewUsers.unlockOffered (auth : AuthCtx) (user : ManagedUser) : Except JSError Bool :=
  if user.status = "L" then permitted auth.user "UNLOCK_USER" else .ok false

/-- The guard of the Lock button (App.js 628-629):
`user.status === "A" && checkPermission(auth.user, "LOCK_USER")`. -/
def ViewUsers.lockOffered (auth : AuthCtx) (user : ManagedUser) : Except JSError Bool :=
  if user.status = "A" then permitted auth.user "LOCK_USER" else .ok false

/-- Whether the table and the modals are on screen: not while loading, not
after a listing error (App.js 538-539), and only if no row guard threw. -/
def ViewUsers.rendered (auth : AuthCtx) (s : ViewUsersState) : Bool :=
  !s.loading && !strTruthy s.error &&
    s.users.all (fun u =>
      (ViewUsers.unlockOffered auth u).isOk && (ViewUsers.lockOffered auth u).isOk)

/-- The `onClick` of the Unlock button of a row (App.js 608-621);
`confirmed` is the answer `window.confirm` gives if it is asked. -/
def ViewUsers.clickUnlock (auth : AuthCtx) (s : ViewUsersState)
    (user : ManagedUser) (confirmed : Bool) : ViewUsersState × List Request :=
  if elevated user then
    ({ s with selectedUser := some user, showUnlockModal := true }, [])
  else if confirmed then
    ViewUsers.handleAction auth s "/api/users/unlock" user.empid none
  else (s, [])

/-- The `onClick` of the Lock button of a row (App.js 631-644). -/
def ViewUsers.clickLock (auth : AuthCtx) (s : ViewUsersState)
    (user : ManagedUser) (confirmed : Bool) : ViewUsersState × List Request :=
  if elevated user then
    ({ s with selectedUser := some user, showLockModal := true }, [])
  else if confirmed then
    ViewUsers.handleAction auth s "/api/users/lock" user.empid none
  else (s, [])

/-- The Confirm Lock button: `LockUserModal.handleSubmit`, whose `onConfirm`
is the callback of App.js 661-664. -/
def ViewUsers.lockModalSubmit (auth : AuthCtx) (s : ViewUsersState)
    (target : ManagedUser) : ViewUsersState × List Request :=
  match LockUserModal.handleSubmit s.lockModal with
  | (m, none) => ({ s with lockModal := m }, [])
  | (m, some masterPassword) =>
    let r := ViewUsers.handleAction auth s "/api/users/lock" target.empid
      (some masterPassword)
    ({ r.1 with showLockModal := false, lockModal := m }, r.2)

/-- The Confirm Unlock button: `UnlockUserModal.handleSubmit`, whose
`onConfirm` is the callback of App.js 671-674. -/
def ViewUsers.unlockModalSubmit (auth : AuthCtx) (s : ViewUsersState)
    (target : ManagedUser) : ViewUsersState × List Request :=
  match UnlockUserModal.handleSubmit s.unlockModal with
  | (m, none) => ({ s with unlockModal := m }, [])
  | (m, some masterPassword) =>
    let r := ViewUsers.handleAction auth s "/api/users/unlock" target.empid
      (some masterPassword)
    ({ r.1 with showUnlockModal := false, unlockModal := m }, r.2)

/-- The interactions with `ViewUsers` and the settling of its requests. -/
inductive ViewUsersEvent where
  | clickUnlock (user : ManagedUser) (confirmed : Bool)
  | clickLock (user : ManagedUser) (confirmed : Bool)
  | lockModalInput (value : String)
  | lockModalSubmit
  | lockModalClose
  | unlockModalInput (value : String)
  | unlockModalSubmit
  | unlockModalClose
  | closeActionError
  | closeActionSuccess
  | usersSettled (outcome : Except String (Option (List ManagedUser)))
  | actionSettled (outcome : Except String String)
  deriving DecidableEq, Repr

/-- One step of `ViewUsers`.  A control can be used only while it is on
screen: a row button when the table is rendered and the row's guard holds,
a modal's controls when the modal is shown for a selected user.  The
settling of a request is accepted at any time.  Returns the new state and
the requests issued; `none` when the interaction is not available. -/
def ViewUsers.step (auth : AuthCtx) (s : ViewUsersState) (e : ViewUsersEvent) :
    Option (ViewUsersState × List Request) :=
  let lockModalShown : Option ManagedUser :=
    if ViewUsers.rendered auth s && s.showLockModal then s.selectedUser else none
  let unlockModalShown : Option ManagedUser :=
    if ViewUsers.rendered auth s && s.showUnlockModal then s.selectedUser else none
  match e with
  | .clickUnlock user confirmed =>
    if ViewUsers.rendered auth s && decide (user ∈ s.users) &&
        decide (ViewUsers.unlockOffered auth user = .ok true) then
      some (ViewUsers.clickUnlock auth s user confirmed)
    else none
  | .clickLock user confirmed =>
    if ViewUsers.rendered auth s && decide (user ∈ s.users) &&
        decide (ViewUsers.lockOffered auth user = .ok true) then
      some (ViewUsers.clickLock auth s user confirmed)
    else none
  | .lockModalInput v =>
    lockModalShown.map (fun _ =>
      ({ s with lockModal := { s.lockModal with masterPassword := v } }, []))
  | .lockModalSubmit =>
    lockModalShown.map (fun target => ViewUsers.lockModalSubmit auth s target)
  | .lockModalClose =>
    lockModalShown.map (fun _ => ({ s with showLockModal := false }, []))
  | .unlockModalInput v =>
    unlockModalShown.map (fun _ =>
      ({ s with unlockModal := { s.unlockModal with masterPassword := v } }, []))
  | .unlockModalSubmit =>
    unlockModalShown.map (fun target => ViewUsers.unlockModalSubmit auth s target)
  | .unlockModalClose =>
    unlockModalShown.map (fun _ => ({ s with showUnlockModal := false }, []))
  | .closeActionError =>
    if ViewUsers.rendered auth s && strTruthy s.actionError then
      some ({ s with actionError := "" }, [])
    else none
  | .closeActionSuccess =>
    if ViewUsers.rendered auth s && strTruthy s.actionSuccess then
      some ({ s with actionSuccess := "" }, [])
    else none
  | .usersSettled outcome => some (ViewUsers.fetchUsersSettle s outcome, [])
  | .actionSettled outcome => some (ViewUsers.handleActionSettle auth s outcome)

/-- Runs `ViewUsers` through a sequence of events, collecting the requests
issued; `none` if some event is not available when its turn comes. -/
def ViewUsers.run (auth : AuthCtx) (s : ViewUsersState) :
    List ViewUsersEvent → Option (ViewUsersState × List Request)
  | [] => some (s, [])
  | e :: es =>
    match ViewUsers.step auth s e with
    | none => none
    | some (s1, reqs) =>
      match ViewUsers.run auth s1 es with
      | none => none
      | some (s2, reqs2) => some (s2, reqs ++ reqs2)

/-- The component from mount on: the mount effect calls `fetchUsers()`
(App.js 518-520), then the events are processed. -/
def ViewUsers.mountAndRun (auth : AuthCtx) (es : List ViewUsersEvent) :
    Option (ViewUsersState × List Request) :=
  let m := ViewUsers.fetchUsersStart auth ViewUsersState.init
  (ViewUsers.run auth m.1 es).map (fun r => (r.1, m.2 ++ r.2))

/-! ## The activity watchdog of `Dashboard` -/

/-- The constant `INACTIVITY_LIMIT` (App.js 1583), in milliseconds. -/
def INACTIVITY_LIMIT : Nat := 15 * 60 * 1000

/-- The text of the `alert` raised by the timer callback (App.js 1599). -/
def inactivityNotice : String := "You\x27ve been logged out due to inactivity."

/-- The callback passed to `setTimeout` (App.js 1598-1603): the new state
of storage and session, and the notice it alerts. -/
def Dashboard.timerCallback {J : Type} (s : AppState J) : AppState J × String :=
  ({ s with
     localStorage := (s.localStorage.removeItem "vms_token").removeItem "vms_user"
     auth := { token := none, user := none } },
   inactivityNotice)

/-- An active timer of the browser: the handle `setTimeout` returned and the
time, in milliseconds, before which its callback is not run. -/
structure Timer where
  id : Nat
  deadline : Nat
  deriving DecidableEq, Repr

/-- The call `clearTimeout(handle)` on the browser's list of active timers;
an `undefined` handle (`none`) cancels nothing. -/
def clearTimeout (timers : List Timer) (handle : Option Nat) : List Timer :=
  timers.filter (fun tm => some tm.id != handle)

/-- The state of the activity effect of `Dashboard` (App.js 1593-1636):
storage and session, whether the listeners are registered, the browser's
active timers, the variable `timeout`, the next timer handle, the current
time and the alerts raised so far. -/
structure WatchdogState (J : Type) where
  app : AppState J
  mounted : Bool
  timers : List Timer
  timeout : Option Nat
  nextId : Nat
  now : Nat
  alerts : List String

/-- The function `resetTimer` (App.js 1596-1604) called at time `t`:
`clearTimeout(timeout)`, then `timeout = setTimeout(..., INACTIVITY_LIMIT)`. -/
def Dashboard.resetTimer {J : Type} (s : WatchdogState J) (t : Nat) : WatchdogState J :=
  { s with
    timers := clearTimeout s.timers s.timeout ++
      [{ id := s.nextId, deadline := t + INACTIVITY_LIMIT }]
    timeout := some s.nextId
    nextId := s.nextId + 1 }

/-- The cleanup of the effect (App.js 1630-1635): the listeners are removed
and `clearTimeout(timeout)` is called. -/
def Dashboard.cleanup {J : Type} (s : WatchdogState J) : WatchdogState J :=
  { s with mounted := false, timers := clearTimeout s.timers s.timeout }

/-- The effect body run when `Dashboard` mounts at time `t0`
(App.js 1593-1628): `let timeout;`, the listeners are registered and
`resetTimer()` is called. -/
def Dashboard.mount {J : Type} (app : AppState J) (t0 : Nat) : WatchdogState J :=
  Dashboard.resetTimer
    { app := app, mounted := true, timers := [], timeout := none, nextId := 1,
      now := t0, alerts := [] } t0

/-- The array `events` of tracked interactions (App.js 1623). -/
def trackedEvents : List String := ["mousemove", "keydown", "click", "scroll"]

/-- What happens to a mounted `Dashboard`, each with the time at which it
happens: an event dispatched on `window`, the browser running the callback
of an active timer, and a click on Logout. -/
inductive WatchdogEvent where
  | windowEvent (name : String) (t : Nat)
  | timerFires (id : Nat) (t : Nat)
  | logout (t : Nat)
  deriving DecidableEq, Repr

/-- One step of the watchdog; time does not go backwards.  A tracked window
event calls `resetTimer` while the listeners are registered.  The browser
runs the callback of an active timer no earlier than its deadline and drops
the timer; the callback empties the session, so `App` replaces `Dashboard`
by `Login` and the cleanup runs.  Logout does the same through
`handleLogout`.  Returns `none` when the step cannot happen. -/
def Dashboard.watchdogStep {J : Type} (s : WatchdogState J) (e : WatchdogEvent) :
    Option (WatchdogState J) :=
  match e with
  | .windowEvent name t =>
    if s.now ≤ t then
      if s.mounted && trackedEvents.contains name then
        some (Dashboard.resetTimer { s with now := t } t)
      else some { s with now := t }
    else none
  | .timerFires id t =>
    if s.now ≤ t then
      match s.timers.find? (fun tm => tm.id == id) with
      | some tm =>
        if tm.deadline ≤ t then
          some (Dashboard.cleanup
            { s with
              now := t
              timers := s.timers.filter (fun x => x.id != id)
              app := (Dashboard.timerCallback s.app).1
              alerts := s.alerts ++ [(Dashboard.timerCallback s.app).2] })
        else none
      | none => none
    else none
  | .logout t =>
    if s.now ≤ t && s.mounted then
      some (Dashboard.cleanup { s with now := t, app := handleLogout s.app })
    else none

/-- Runs the watchdog through a sequence of events; `none` if some step
cannot happen. -/
def Dashboard.watchdogRun {J : Type} (s : WatchdogState J) :
    List WatchdogEvent → Option (WatchdogState J)
  | [] => some s
  | e :: es =>
    match Dashboard.watchdogStep s e with
    | none => none
    | some s1 => Dashboard.watchdogRun s1 es

/-- The event is the browser running a timer callback. -/
def WatchdogEvent.isTimerFires : WatchdogEvent → Bool
  | .timerFires _ _ => true
  | _ => false

/-- The listener `markReload` (App.js 1607-1609), on `sessionStorage`. -/
def Dashboard.markReload (sessionStorage : Storage) : Storage :=
  sessionStorage.setItem "reloading" "true"

/-- The listener `handleUnload` (App.js 1611-1620): the new
`sessionStorage` and `localStorage`. -/
def Dashboard.handleUnload (sessionStorage localStorage : Storage) : Storage × Storage :=
  let isReloading := sessionStorage.getItem "reloading"
  let sessionStorage1 := sessionStorage.removeItem "reloading"
  if !optTruthy isReloading then
    (sessionStorage1, (localStorage.removeItem "vms_token").removeItem "vms_user")
  else (sessionStorage1, localStorage)

/-! ## Regular expressions -/

/-- Regular expressions over characters; a character class is a predicate
on characters. -/
inductive Regex where
  | empty
  | eps
  | cls (p : Char → Bool)
  | seq (r s : Regex)
  | alt (r s : Regex)
  | star (r : Regex)

/-- The strings a regular expression matches as a whole. -/
inductive Regex.Matches : Regex → List Char → Prop where
  | eps : Regex.Matches .eps []
  | cls (p : Char → Bool) (c : Char) : p c = true → Regex.Matches (.cls p) [c]
  | seq {r s : Regex} {a b : List Char} :
      Regex.Matches r a → Regex.Matches s b → Regex.Matches (.seq r s) (a ++ b)
  | altL {r s : Regex} {a : List Char} : Regex.Matches r a → Regex.Matches (.alt r s) a
  | altR {r s : Regex} {a : List Char} : Regex.Matches s a → Regex.Matches (.alt r s) a
  | starNil {r : Regex} : Regex.Matches (.star r) []
  | starCons {r : Regex} {a b : List Char} :
      Regex.Matches r a → Regex.Matches (.star r) b → Regex.Matches (.star r) (a ++ b)

/-- Whether the expression matches the empty string. -/
def Regex.nullable : Regex → Bool
  | .empty => false
  | .eps => true
  | .cls _ => false
  | .seq r s => r.nullable && s.nullable
  | .alt r s => r.nullable || s.nullable
  | .star _ => true

/-- The derivative of an expression by a character: what remains to be
matched after reading `c`. -/
def Regex.deriv (c : Char) : Regex → Regex
  | .empty => .empty
  | .eps => .empty
  | .cls p => if p c then .eps else .empty
  | .seq r s =>
    if r.nullable then .alt (.seq (r.deriv c) s) (s.deriv c) else .seq (r.deriv c) s
  | .alt r s => .alt (r.deriv c) (s.deriv c)
  | .star r => .seq (r.deriv c) (.star r)

/-- Whole-string matching by derivatives. -/
def Regex.matchList (r : Regex) : List Char → Bool
  | [] => r.nullable
  | c :: cs => (r.deriv c).matchList cs

/-- The call `/^r$/.test(s)` for an anchored pattern, and the check of an
input's `pattern` attribute, which is anchored too. -/
def Regex.test (r : Regex) (s : String) : Bool := r.matchList s.toList

/-- The quantifier `r+`. -/
def Regex.plus (r : Regex) : Regex := .seq r (.star r)

/-- The quantifier `r{n}`. -/
def Regex.rep (r : Regex) : Nat → Regex
  | 0 => .eps
  | n + 1 => .seq r (Regex.rep r n)

/-- The class `\d`: the ten ASCII digits. -/
def reDigit (c : Char) : Bool := c.isDigit

/-- The class `\w`: ASCII letters, digits and the underscore. -/
def reWord (c : Char) : Bool := c.isAlphanum || c == '_'

/-- The class `\s`: the white space and line terminator characters of
ECMAScript. -/
def reSpace (c : Char) : Bool :=
  [0x09, 0x0A, 0x0B, 0x0C, 0x0D, 0x20, 0xA0, 0x1680, 0x2000, 0x2001, 0x2002, 0x2003,
    0x2004, 0x2005, 0x2006, 0x2007, 0x2008, 0x2009, 0x200A, 0x2028, 0x2029, 0x202F,
    0x205F, 0x3000, 0xFEFF].contains c.toNat

/-- The pattern `^\d{10}$` (App.js 779, 789) and the `pattern` attribute
`\d{10}` (App.js 844, 873, 1016). -/
def tenDigitsPattern : Regex := Regex.rep (.cls reDigit) 10

/-- The pattern `^[^\s@]+@[^\s@]+\.[^\s@]+$` (App.js 784). -/
def emailPattern : Regex :=
  .seq (Regex.plus (.cls (fun c => !(reSpace c || c == '@'))))
    (.seq (.cls (fun c => c == '@'))
      (.seq (Regex.plus (.cls (fun c => !(reSpace c || c == '@'))))
        (.seq (.cls (fun c => c == '.'))
          (Regex.plus (.cls (fun c => !(reSpace c || c == '@')))))))

/-- The `pattern` attribute `^[^\d][\w\s]*$` of the name inputs
(App.js 864, 1009). -/
def namePattern : Regex :=
  .seq (.cls (fun c => !reDigit c)) (.star (.cls (fun c => reWord c || reSpace c)))

/-! ## The `CreateVisitorEntry` form -/

/-- A call `apiRequest(endpoint, method, body, token)` whose JSON body, when
there is one, is a value of type `β`. -/
structure ApiCall (β : Type) where
  endpoint : String
  method : String
  body : Option β
  token : Option String
  deriving DecidableEq, Repr

/-- The numbers the field `fellow_visitors` can hold: a non-negative integer
or `Infinity`. -/
inductive JSCount where
  | fin (n : Nat)
  | infinity
  deriving DecidableEq, Repr

/-- The numbers `parseInt` can return: `NaN`, an integer, or an infinity
(for a digit string beyond the range of a double). -/
inductive ParseIntResult where
  | nan
  | int (n : Int)
  | posInfinity
  | negInfinity
  deriving DecidableEq, Repr

/-- The expression `Math.max(0, parseInt(e.target.value) || 0)`
(App.js 972), as a function of what `parseInt` returned. -/
def fellowCount : ParseIntResult → JSCount
  | .nan => .fin 0
  | .int n => .fin n.toNat
  | .posInfinity => .infinity
  | .negInfinity => .fin 0

/-- The call `details.slice(0, value)`. -/
def JSCount.slice {α : Type} (value : JSCount) (details : List α) : List α :=
  match value with
  | .fin n => details.take n
  | .infinity => details

/-- The comparison `n <= count` of a length with a count. -/
def JSCount.geNat (count : JSCount) (n : Nat) : Prop :=
  match count with
  | .fin m => n ≤ m
  | .infinity => True

/-- The number of blocks `Array.from({ length: Number(count) || 0 })`
renders (App.js 986); `none` when the length is not a valid array length and
`Array.from` throws a `RangeError`. -/
def fellowBlocks : JSCount → Option Nat
  | .fin n => if n < 2 ^ 32 then some n else none
  | .infinity => none

/-- An element of `fellow_visitors_details`; a property that was never
written is `none`. -/
structure FellowVisitor where
  name : Option String
  mobile : Option String
  deriving DecidableEq, Repr

/-- The state `formData` (App.js 681-693).  An element of
`fellow_visitors_details` is `none` where the array has a hole. -/
structure VisitorForm where
  name : String
  mobile : String
  email : String
  id_type : String
  id_number : String
  representing : String
  purpose : String
  emp_mobile_no : String
  visitor_category : String
  fellow_visitors : JSCount
  fellow_visitors_details : List (Option FellowVisitor)
  deriving DecidableEq, Repr

/-- The initial `formData`. -/
def VisitorForm.init : VisitorForm :=
  { name := "", mobile := "", email := "", id_type := "", id_number := "",
    representing := "", purpose := "", emp_mobile_no := "", visitor_category := "",
    fellow_visitors := .fin 0, fellow_visitors_details := [] }

/-- The state `masterData` (App.js 694-698). -/
structure MasterData where
  categories : List String
  purposes : List String
  idTypes : List String
  deriving DecidableEq, Repr

/-- The React state of `CreateVisitorEntry` (App.js 681-703); `pending` is
the `masterData` captured by a run of `handleSubmit` that awaits its
response. -/
structure CreateVisitorState where
  formData : VisitorForm
  masterData : MasterData
  loading : Bool
  error : String
  success : String
  hostName : String
  hostFound : Option Bool
  pending : Option MasterData
  deriving DecidableEq, Repr

/-- The state of `CreateVisitorEntry` at mount. -/
def CreateVisitorState.init : CreateVisitorState :=
  { formData := VisitorForm.init,
    masterData := { categories := [], purposes := [], idTypes := [] },
    loading := false, error := "", success := "", hostName := "", hostFound := none,
    pending := none }

/-- The inputs and selects wired to `handleChange`, by their `name`. -/
inductive FormField where
  | emp_mobile_no
  | name
  | mobile
  | email
  | representing
  | id_type
  | id_number
  | purpose
  | visitor_category
  deriving DecidableEq, Repr

/-- The handler `handleChange` (App.js 742-744):
`setFormData({ ...formData, [e.target.name]: e.target.value })`. -/
def CreateVisitorEntry.handleChange (s : CreateVisitorState) (field : FormField)
    (value : String) : CreateVisitorState :=
  match field with
  | .emp_mobile_no => { s with formData := { s.formData with emp_mobile_no := value } }
  | .name => { s with formData := { s.formData with name := value } }
  | .mobile => { s with formData := { s.formData with mobile := value } }
  | .email => { s with formData := { s.formData with email := value } }
  | .representing => { s with formData := { s.formData with representing := value } }
  | .id_type => { s with formData := { s.formData with id_type := value } }
  | .id_number => { s with formData := { s.formData with id_number := value } }
  | .purpose => { s with formData := { s.formData with purpose := value } }
  | .visitor_category => { s with formData := { s.formData with visitor_category := value } }

/-- The property `length` of a JavaScript string: its number of UTF-16 code
units. -/
def utf16Length (s : String) : Nat :=
  s.toList.foldl (fun n c => n + (if c.toNat < 0x10000 then 1 else 2)) 0

/-- First half of `lookupHost(number)` (App.js 746-759), up to the `await`. -/
def CreateVisitorEntry.lookupHost (auth : AuthCtx) (s : CreateVisitorState)
    (number : String) : CreateVisitorState × List (ApiCall VisitorForm) :=
  if !strTruthy number || utf16Length number != 10 then
    ({ s with hostFound := none, hostName := "" }, [])
  else
    (s, [{ endpoint := "/api/users/host_lookup?number=" ++ number, method := "GET",
           body := none, token := auth.token }])

/-- Second half of `lookupHost` (App.js 760-770): `.ok (found, empname)` for
a response whose `found` is truthy or not, `.error` when the request
failed. -/
def CreateVisitorEntry.lookupHostSettle (s : CreateVisitorState)
    (outcome : Except String (Bool × String)) : CreateVisitorState :=
  match outcome with
  | .ok (true, empname) => { s with hostFound := some true, hostName := empname }
  | .ok (false, _) => { s with hostFound := some false, hostName := "" }
  | .error _ => { s with hostFound := some false, hostName := "" }

/-- First half of `handleSubmit` (App.js 773-801): the three local checks,
then the create-entry request. -/
def CreateVisitorEntry.handleSubmit (auth : AuthCtx) (s : CreateVisitorState) :
    CreateVisitorState × List (ApiCall VisitorForm) :=
  if !tenDigitsPattern.test s.formData.mobile then
    ({ s with success := "", loading := false,
              error := "Visitor\x27s mobile number must be 10 digits." }, [])
  else if strTruthy s.formData.email && !emailPattern.test s.formData.email then
    ({ s with success := "", loading := false, error := "Invalid email format." }, [])
  else if !tenDigitsPattern.test s.formData.emp_mobile_no then
    ({ s with success := "", loading := false,
              error := "Host employee\x27s mobile number must be 10 digits." }, [])
  else
    ({ s with error := "", success := "", loading := true, pending := some s.masterData },
     [{ endpoint := "/api/visitors", method := "POST", body := some s.formData,
        token := auth.token }])

/-- Second half of `handleSubmit` (App.js 802-822), run with the
`masterData` the handler captured: on success the message is shown and the
form is reset, on failure the error message is shown. -/
def CreateVisitorEntry.handleSubmitSettle (s : CreateVisitorState) (captured : MasterData)
    (outcome : Except String String) : CreateVisitorState :=
  match outcome with
  | .ok message =>
    { s with
      success := message
      formData :=
        { name := "", mobile := "", email := "", id_type := captured.idTypes.headD "",
          id_number := "", representing := "", purpose := captured.purposes.headD "",
          emp_mobile_no := "", visitor_category := captured.categories.headD "",
          fellow_visitors := .fin 0, fellow_visitors_details := [] }
      loading := false, pending := none }
  | .error msg => { s with error := msg, loading := false, pending := none }

/-- The requests of the mount effect `fetchMasterData` (App.js 705-722). -/
def CreateVisitorEntry.fetchMasterData (auth : AuthCtx) : List (ApiCall VisitorForm) :=
  [{ endpoint := "/api/master-data/visitor_category_master", method := "GET",
     body := none, token := auth.token },
   { endpoint := "/api/master-data/purpose_master", method := "GET", body := none,
     token := auth.token },
   { endpoint := "/api/master-data/id_master", method := "GET", body := none,
     token := auth.token }]

/-- The continuation of `fetchMasterData` (App.js 723-737): `.ok` with the
`data` of the three responses (`none` when a response has no `data`),
`.error` when a request failed.  Reading `length` of a missing `data` throws
and lands in the `catch`. -/
def CreateVisitorEntry.fetchMasterDataSettle (s : CreateVisitorState)
    (outcome : Except String
      (Option (List String) × Option (List String) × Option (List String))) :
    CreateVisitorState :=
  match outcome with
  | .error _ => { s with error := "Failed to load master data. Please try again." }
  | .ok (cat, purp, id) =>
    let s1 := { s with masterData :=
      { categories := cat.getD [], purposes := purp.getD [], idTypes := id.getD [] } }
    match cat with
    | none => { s1 with error := "Failed to load master data. Please try again." }
    | some c =>
      let s2 := if c.length > 0 then
        { s1 with formData := { s1.formData with visitor_category := c.headD "" } } else s1
      match purp with
      | none => { s2 with error := "Failed to load master data. Please try again." }
      | some p =>
        let s3 := if p.length > 0 then
          { s2 with formData := { s2.formData with purpose := p.headD "" } } else s2
        match id with
        | none => { s3 with error := "Failed to load master data. Please try again." }
        | some i =>
          if i.length > 0 then
            { s3 with formData := { s3.formData with id_type := i.headD "" } }
          else s3

/-- The `onChange` of the fellow-visitors count (App.js 971-982), as a
function of what `parseInt(e.target.value)` returned. -/
def CreateVisitorEntry.setFellowVisitors (s : CreateVisitorState)
    (parsed : ParseIntResult) : CreateVisitorState :=
  { s with formData :=
    { s.formData with
      fellow_visitors := fellowCount parsed
      fellow_visitors_details :=
        (fellowCount parsed).slice s.formData.fellow_visitors_details } }

/-- The assignment `updated[index] = { ...updated[index], ... }` on
a copy of the details (App.js 999-1003, 1020-1024): `update` writes the
edited property into the old element, or into a fresh object when there is
none; an index past the end extends the array, leaving holes. -/
def setFellowAt (details : List (Option FellowVisitor)) (index : Nat)
    (update : FellowVisitor → FellowVisitor) : List (Option FellowVisitor) :=
  let old : FellowVisitor := (details.getD index none).getD { name := none, mobile := none }
  if index < details.length then details.set index (some (update old))
  else details ++ List.replicate (index - details.length) none ++ [some (update old)]

/-- The `onChange` of the name input of fellow visitor `index`
(App.js 998-1008). -/
def CreateVisitorEntry.setFellowName (s : CreateVisitorState) (index : Nat)
    (value : String) : CreateVisitorState :=
  { s with formData :=
    { s.formData with
      fellow_visitors_details :=
        setFellowAt s.formData.fellow_visitors_details index
          (fun old => { old with name := some value }) } }

/-- The `onChange` of the mobile input of fellow visitor `index`
(App.js 1019-1029). -/
def CreateVisitorEntry.setFellowMobile (s : CreateVisitorState) (index : Nat)
    (value : String) : CreateVisitorState :=
  { s with formData :=
    { s.formData with
      fellow_visitors_details :=
        setFellowAt s.formData.fellow_visitors_details index
          (fun old => { old with mobile := some value }) } }

/-- The value shown in the name input of fellow visitor `index`:
`details[index]?.name || ""` (App.js 997). -/
def fellowNameValue (details : List (Option FellowVisitor)) (index : Nat) : String :=
  ((details.getD index none).bind (fun f => f.name)).getD ""

/-- The value shown in the mobile input of fellow visitor `index`
(App.js 1018). -/
def fellowMobileValue (details : List (Option FellowVisitor)) (index : Nat) : String :=
  ((details.getD index none).bind (fun f => f.mobile)).getD ""

/-- Constraint validation of an input that is `required` and has a
`pattern`: the value is not empty and matches the pattern. -/
def requiredPattern (pattern : Regex) (value : String) : Bool :=
  strTruthy value && pattern.test value

/-- Whether the browser delivers a submit event of the form
(App.js 830-1044): the form is on screen, the submit button is enabled and
every input passes constraint validation.  `emailTypeValid` is the
browser's check of an `email` input. -/
def CreateVisitorEntry.submitAvailable (emailTypeValid : String → Bool)
    (s : CreateVisitorState) : Bool :=
  match fellowBlocks s.formData.fellow_visitors with
  | none => false
  | some n =>
    !s.loading &&
    requiredPattern tenDigitsPattern s.formData.emp_mobile_no &&
    requiredPattern namePattern s.formData.name &&
    requiredPattern tenDigitsPattern s.formData.mobile &&
    (!strTruthy s.formData.email || emailTypeValid s.formData.email) &&
    strTruthy s.formData.id_number &&
    (List.range n).all (fun i =>
      requiredPattern namePattern (fellowNameValue s.formData.fellow_visitors_details i) &&
      requiredPattern tenDigitsPattern
        (fellowMobileValue s.formData.fellow_visitors_details i))

/-- The interactions with `CreateVisitorEntry` and the settling of its
requests. -/
inductive CreateVisitorEvent where
  | change (field : FormField) (value : String)
  | setFellowVisitors (parsed : ParseIntResult)
  | setFellowName (index : Nat) (value : String)
  | setFellowMobile (index : Nat) (value : String)
  | submit
  | submitSettled (outcome : Except String String)
  | lookupSettled (outcome : Except String (Bool × String))
  | masterDataSettled (outcome : Except String
      (Option (List String) × Option (List String) × Option (List String)))
  | closeError
  | closeSuccess

/-- One step of `CreateVisitorEntry`.  The inputs can be used while the form
is on screen, a fellow-visitor input only for a rendered index; a change of
the host mobile also calls `lookupHost` (App.js 840-843); a submit event is
delivered when `submitAvailable` holds; the continuation of `handleSubmit`
runs while its request is pending; the other responses are accepted at any
time.  Returns the new state and the requests issued; `none` when the step
cannot happen. -/
def CreateVisitorEntry.step (emailTypeValid : String → Bool) (auth : AuthCtx)
    (s : CreateVisitorState) (e : CreateVisitorEvent) :
    Option (CreateVisitorState × List (ApiCall VisitorForm)) :=
  match e with
  | .change field value =>
    if (fellowBlocks s.formData.fellow_visitors).isSome then
      if field = .emp_mobile_no then
        some (CreateVisitorEntry.lookupHost auth
          (CreateVisitorEntry.handleChange s field value) value)
      else some (CreateVisitorEntry.handleChange s field value, [])
    else none
  | .setFellowVisitors parsed =>
    if (fellowBlocks s.formData.fellow_visitors).isSome then
      some (CreateVisitorEntry.setFellowVisitors s parsed, [])
    else none
  | .setFellowName index value =>
    match fellowBlocks s.formData.fellow_visitors with
    | some n =>
      if index < n then some (CreateVisitorEntry.setFellowName s index value, []) else none
    | none => none
  | .setFellowMobile index value =>
    match fellowBlocks s.formData.fellow_visitors with
    | some n =>
      if index < n then some (CreateVisitorEntry.setFellowMobile s index value, [])
      else none
    | none => none
  | .submit =>
    if CreateVisitorEntry.submitAvailable emailTypeValid s then
      some (CreateVisitorEntry.handleSubmit auth s)
    else none
  | .submitSettled outcome =>
    match s.pending with
    | some captured => some (CreateVisitorEntry.handleSubmitSettle s captured outcome, [])
    | none => none
  | .lookupSettled outcome => some (CreateVisitorEntry.lookupHostSettle s outcome, [])
  | .masterDataSettled outcome =>
    some (CreateVisitorEntry.fetchMasterDataSettle s outcome, [])
  | .closeError =>
    if (fellowBlocks s.formData.fellow_visitors).isSome && strTruthy s.error then
      some ({ s with error := "" }, [])
    else none
  | .closeSuccess =>
    if (fellowBlocks s.formData.fellow_visitors).isSome && strTruthy s.success then
      some ({ s with success := "" }, [])
    else none

/-- Runs `CreateVisitorEntry` through a sequence of events, collecting the
requests issued. -/
def CreateVisitorEntry.run (emailTypeValid : String → Bool) (auth : AuthCtx)
    (s : CreateVisitorState) :
    List CreateVisitorEvent → Option (CreateVisitorState × List (ApiCall VisitorForm))
  | [] => some (s, [])
  | e :: es =>
    match CreateVisitorEntry.step emailTypeValid auth s e with
    | none => none
    | some (s1, reqs) =>
      match CreateVisitorEntry.run emailTypeValid auth s1 es with
      | none => none
      | some (s2, reqs2) => some (s2, reqs ++ reqs2)

/-- The component from mount on: the mount effect issues the master data
requests, then the events are processed. -/
def CreateVisitorEntry.mountAndRun (emailTypeValid : String → Bool) (auth : AuthCtx)
    (es : List CreateVisitorEvent) :
    Option (CreateVisitorState × List (ApiCall VisitorForm)) :=
  (CreateVisitorEntry.run emailTypeValid auth CreateVisitorState.init es).map
    (fun r => (r.1, CreateVisitorEntry.fetchMasterData auth ++ r.2))

/-! ## Conversion of a string to a number -/

/-- The value `StringToNumber` denotes before rounding: not a number, an
infinity, or the decimal `mantissa * 10 ^ exponent` with a sign. -/
inductive StrNumber where
  | nan
  | infinity (negative : Bool)
  | decimal (negative : Bool) (mantissa : Nat) (exponent : Int)
  deriving DecidableEq, Repr

/-- The text without its leading and trailing white space and line
terminators. -/
def trimSpace (cs : List Char) : List Char :=
  ((cs.dropWhile reSpace).reverse.dropWhile reSpace).reverse

/-- The value of a string of digits in a radix; `none` if a character is
not a digit of the radix or the string is empty. -/
def digitsValue (radix : Nat) (cs : List Char) : Option Nat :=
  let digit (c : Char) : Option Nat :=
    if c.isDigit then some (c.toNat - 48)
    else if 97 ≤ c.toNat ∧ c.toNat ≤ 102 then some (c.toNat - 87)
    else if 65 ≤ c.toNat ∧ c.toNat ≤ 70 then some (c.toNat - 55)
    else none
  if cs.isEmpty then none
  else cs.foldl (fun acc c =>
    match acc, digit c with
    | some n, some d => if d < radix then some (radix * n + d) else none
    | _, _ => none) (some 0)

/-- The production `StrUnsignedDecimalLiteral`: `Infinity`, or digits with
an optional fraction and an optional exponent, at least one digit before or
after the point. -/
def parseUnsignedDecimal (negative : Bool) (cs : List Char) : StrNumber :=
  if cs = "Infinity".toList then .infinity negative
  else
    let intPart := cs.takeWhile Char.isDigit
    let rest1 := cs.dropWhile Char.isDigit
    let fracPart := match rest1 with
      | '.' :: r => r.takeWhile Char.isDigit
      | _ => []
    let rest2 := match rest1 with
      | '.' :: r => r.dropWhile Char.isDigit
      | _ => rest1
    if intPart.isEmpty && fracPart.isEmpty then .nan
    else
      let mantissa := (digitsValue 10 (intPart ++ fracPart)).getD 0
      match rest2 with
      | [] => .decimal negative mantissa (-(fracPart.length : Int))
      | c :: rest3 =>
        if c = 'e' ∨ c = 'E' then
          let expNegative := match rest3 with
            | '-' :: _ => true
            | _ => false
          let expDigits := match rest3 with
            | '-' :: r => r
            | '+' :: r => r
            | _ => rest3
          if expDigits.all Char.isDigit then
            match digitsValue 10 expDigits with
            | some x =>
              .decimal negative mantissa
                ((if expNegative then -(x : Int) else (x : Int)) - (fracPart.length : Int))
            | none => .nan
          else .nan
        else .nan

/-- The abstract operation `StringToNumber` before rounding: the empty or
blank text is 0; a `0x`, `0o` or `0b` literal is its integer; otherwise an
optionally signed decimal literal; anything else is `NaN`. -/
def stringToNumber (s : String) : StrNumber :=
  match trimSpace s.toList with
  | [] => .decimal false 0 0
  | '0' :: 'x' :: r => ((digitsValue 16 r).map (fun n => StrNumber.decimal false n 0)).getD .nan
  | '0' :: 'X' :: r => ((digitsValue 16 r).map (fun n => StrNumber.decimal false n 0)).getD .nan
  | '0' :: 'o' :: r => ((digitsValue 8 r).map (fun n => StrNumber.decimal false n 0)).getD .nan
  | '0' :: 'O' :: r => ((digitsValue 8 r).map (fun n => StrNumber.decimal false n 0)).getD .nan
  | '0' :: 'b' :: r => ((digitsValue 2 r).map (fun n => StrNumber.decimal false n 0)).getD .nan
  | '0' :: 'B' :: r => ((digitsValue 2 r).map (fun n => StrNumber.decimal false n 0)).getD .nan
  | '+' :: r => parseUnsignedDecimal false r
  | '-' :: r => parseUnsignedDecimal true r
  | cs => parseUnsignedDecimal false cs

/-- Whether the number, rounded to the nearest double (ties to even), is
greater than 300: the doubles next to 300 are 2 ^ -44 apart and 300 is the
even one, so the value has to exceed `300 + 2 ^ -45`. -/
def StrNumber.gt300 : StrNumber → Bool
  | .nan => false
  | .infinity negative => !negative
  | .decimal negative mantissa exponent =>
    !negative &&
      (if 0 ≤ exponent then
        decide (300 * 2 ^ 45 + 1 < mantissa * 10 ^ exponent.toNat * 2 ^ 45)
      else decide ((300 * 2 ^ 45 + 1) * 10 ^ (-exponent).toNat < mantissa * 2 ^ 45))

/-- The comparison `text > 300` of a string with the number 300
(App.js 1212): the string is converted to a number. -/
def jsStringGt300 (text : String) : Bool := (stringToNumber text).gt300

/-! ## The `ApproveVisitor` component -/

/-- A row of the pending list (`response.data` of `/api/visitors/pending`). -/
structure PendingVisitor where
  card_no : String
  name : String
  representing : String
  purpose : String
  emp_name : String
  deriving DecidableEq, Repr

/-- The React state of `ApproveVisitor` (App.js 1180-1186). -/
structure ApproveVisitorState where
  pending : List PendingVisitor
  loading : Bool
  error : String
  actionError : String
  actionSuccess : String
  selectedVisitor : Option PendingVisitor
  rejectionReason : String
  deriving DecidableEq, Repr

/-- The state of `ApproveVisitor` at mount. -/
def ApproveVisitorState.init : ApproveVisitorState :=
  { pending := [], loading := true, error := "", actionError := "", actionSuccess := "",
    selectedVisitor := none, rejectionReason := "" }

/-- The object `payload` of `ApproveVisitor.handleAction` (App.js 1217-1221);
`rejection_reason` is `none` for `null`. -/
structure ApprovePayload where
  card_no : String
  action : String
  rejection_reason : Option String
  deriving DecidableEq, Repr

/-- The guard of the Approve and Reject buttons (App.js 1274):
`auth.user.user_role !== "SECURITY"`. -/
def ApproveVisitor.controlsOffered (user : User) : Bool :=
  user.user_role != some "SECURITY"

/-- First half of `ApproveVisitor.handleAction(card_no, action)`
(App.js 1209-1227), up to the `await`. -/
def ApproveVisitor.handleAction (auth : AuthCtx) (s : ApproveVisitorState)
    (card_no action : String) : ApproveVisitorState × List (ApiCall ApprovePayload) :=
  if action = "R" ∧ jsStringGt300 s.rejectionReason = true then
    ({ s with actionSuccess := "", actionError := "Rejection reason is too long." }, [])
  else
    ({ s with actionError := "", actionSuccess := "" },
     [{ endpoint := "/api/visitors/approve", method := "POST",
        body := some { card_no := card_no, action := action,
                       rejection_reason :=
                         if action = "R" then some s.rejectionReason else none },
        token := auth.token }])

/-! ## The `CheckoutVisitor` component -/

/-- A row of the active list (`response.data` of `/api/visitors/active`). -/
structure ActiveVisitor where
  card_no : String
  name : String
  approve_dt : String
  deriving DecidableEq, Repr

/-- The React state of `CheckoutVisitor` (App.js 1337-1341). -/
structure CheckoutVisitorState where
  activeVisitors : List ActiveVisitor
  loading : Bool
  error : String
  actionError : String
  actionSuccess : String
  deriving DecidableEq, Repr

/-- The state of `CheckoutVisitor` at mount. -/
def CheckoutVisitorState.init : CheckoutVisitorState :=
  { activeVisitors := [], loading := true, error := "", actionError := "",
    actionSuccess := "" }

/-- First half of `fetchActiveVisitors` (App.js 1343-1351). -/
def CheckoutVisitor.fetchActiveVisitorsStart (auth : AuthCtx) (s : CheckoutVisitorState) :
    CheckoutVisitorState × List Request :=
  ({ s with loading := true },
   [{ endpoint := "/api/visitors/active", method := "GET", body := none,
      token := auth.token }])

/-- Second half of `fetchActiveVisitors` (App.js 1352-1357). -/
def CheckoutVisitor.fetchActiveVisitorsSettle (s : CheckoutVisitorState)
    (outcome : Except String (Option (List ActiveVisitor))) : CheckoutVisitorState :=
  match outcome with
  | .ok data => { s with activeVisitors := data.getD [], loading := false }
  | .error msg => { s with error := msg, loading := false }

/-- First half of `handleCheckout(card_no)` (App.js 1364-1373), up to the
`await`. -/
def CheckoutVisitor.handleCheckout (auth : AuthCtx) (s : CheckoutVisitorState)
    (card_no : String) : CheckoutVisitorState × List Request :=
  ({ s with actionError := "", actionSuccess := "" },
   [{ endpoint := "/api/visitors/" ++ card_no ++ "/checkout", method := "POST",
      body := none, token := auth.token }])

/-- Second half of `handleCheckout` (App.js 1374-1379): on success the
message is shown and `fetchActiveVisitors()` is called, on failure the error
is shown. -/
def CheckoutVisitor.handleCheckoutSettle (auth : AuthCtx) (s : CheckoutVisitorState)
    (outcome : Except String String) : CheckoutVisitorState × List Request :=
  match outcome with
  | .ok message =>
    CheckoutVisitor.fetchActiveVisitorsStart auth { s with actionSuccess := message }
  | .error msg => ({ s with actionError := msg }, [])

/-! ## The visitor workflow behind the API -/

/-- Modelled from the spec: the `approvalStatus` of a `VisitorEntry` (§3);
the repository's source holds only the client of the visitor API. -/
inductive ApprovalStatus where
  | Pending
  | Approved
  | Rejected
  deriving DecidableEq, Repr

/-- Modelled from the spec: the fields of a `VisitorEntry` (§3) the checkout
transition reads and writes; `checkoutTimestamp` is present iff the entry is
checked out. -/
structure VisitorEntry where
  cardNo : String
  approvalStatus : ApprovalStatus
  rejectionReason : Option String
  checkoutTimestamp : Option Nat
  deriving DecidableEq, Repr

/-- Modelled from the spec: the transition `checkout(cardNo,
requesterIdentity)` of the VisitorWorkflowMachine (§4.5), served behind
`/api/visitors/<card_no>/checkout`, which is not in the source: Approved to
CheckedOut, requires `CHECKOUT_VISITOR`, and an error that leaves the entry
as it is when the entry is not currently Approved-and-not-yet-checked-out.
The spec does not give the texts of the errors. -/
def VisitorWorkflow.checkout (entry : VisitorEntry) (requester : Option User) (now : Nat) :
    Except String VisitorEntry :=
  if permitted requester "CHECKOUT_VISITOR" = .ok true then
    if entry.approvalStatus = .Approved ∧ entry.checkoutTimestamp = none then
      .ok { entry with checkoutTimestamp := some now }
    else .error "Visitor is not approved or is already checked out."
  else .error "Permission denied."

/-- Modelled from the spec: the checkout operation on the server's entries,
keyed by card number (§3, §6 `checkoutVisitor(cardNo)`); the response is the
success message or the error, and the entries after the call. -/
def VisitorWorkflow.checkoutVisitor (entries : List VisitorEntry) (cardNo : String)
    (requester : Option User) (now : Nat) : Except String String × List VisitorEntry :=
  match entries.find? (fun e => e.cardNo == cardNo) with
  | none => (.error "Visitor not found.", entries)
  | some entry =>
    match VisitorWorkflow.checkout entry requester now with
    | .ok checkedOut =>
      (.ok "Visitor checked out.",
       entries.map (fun e => if e.cardNo == cardNo then checkedOut else e))
    | .error msg => (.error msg, entries)

/-- One click on Checkout followed through: `handleCheckout` issues its
request, the modelled server answers it at time `now`, and the continuation
of `handleCheckout` runs with the answer.  Returns the client state, the
server's entries and the requests issued. -/
def CheckoutVisitor.checkoutExchange (auth : AuthCtx)
    (st : CheckoutVisitorState × List VisitorEntry) (card_no : String) (now : Nat) :
    (CheckoutVisitorState × List VisitorEntry) × List Request :=
  let started := CheckoutVisitor.handleCheckout auth st.1 card_no
  let answered := VisitorWorkflow.checkoutVisitor st.2 card_no auth.user now
  let settled := CheckoutVisitor.handleCheckoutSettle auth started.1 answered.1
  ((settled.1, answered.2), started.2 ++ settled.2)

/-! ## The API helper `apiRequest` -/

/-- The body of a non-success response as `response.json()` reads it: not
JSON, or an object with a string `detail` or none. -/
inductive ErrorBody where
  | notJson
  | object (detail : Option String)
  deriving DecidableEq, Repr

/-- What `fetch` and the reading of the response give inside `apiRequest`
(App.js 59-77): `fetch` rejects with an error, the response is not `ok`, the
response is `ok` and its body parses to `data`, or it is `ok` and
`response.json()` rejects with an error. -/
inductive FetchResult (α : Type) where
  | rejected (message : String)
  | notOk (status : Nat) (body : ErrorBody)
  | ok (data : α)
  | okNotJson (message : String)

/-- The function `apiRequest` (App.js 40-82) once `fetch` has settled: the
parsed payload, or the message of the error it throws. -/
def apiRequest {α : Type} : FetchResult α → Except String α
  | .rejected message => .error message
  | .notOk _ .notJson => .error "An unknown error occurred."
  | .notOk status (.object detail) =>
    .error (if optTruthy detail then detail.getD ""
            else "HTTP error! status: " ++ toString status)
  | .ok data => .ok data
  | .okNotJson message => .error message

/-- The message of the `TypeError` raised when `includes` is called on a
value that has no such method; the text is the engine's. -/
def typeErrorMessage : String := "PERMISSIONS[user.user_role]?.includes is not a function"

/-! ## The `App` component -/

/-- What `App` renders (App.js 1822-1830). -/
inductive AppView where
  | Spinner
  | Login
  | Dashboard
  deriving DecidableEq, Repr

/-- The render of `App` (App.js 1822-1830); `truthy` is the truthiness of a
non-null identity value. -/
def App.render {J : Type} (truthy : J → Bool) (s : AppState J) : AppView :=
  if s.loading then .Spinner
  else if !optTruthy s.auth.token || !(s.auth.user.map truthy).getD false then .Login
  else .Dashboard

/-! ## Navigation in `Dashboard` -/

/-- The clicks that change `activeView`: the Dashboard button
(App.js 1757-1764) and a sidebar button (App.js 1769-1777). -/
inductive DashboardEvent where
  | clickDashboard
  | clickSidebar (perm : String)
  deriving DecidableEq, Repr

/-- One navigation step: the new `activeView`; `none` when the button is not
on screen. -/
def Dashboard.navStep (user : User) (_activeView : String) (e : DashboardEvent) :
    Option String :=
  match sidebarButtons user with
  | .error _ => none
  | .ok buttons =>
    match e with
    | .clickDashboard => some ""
    | .clickSidebar perm => if buttons.contains perm then some perm else none

/-- The `activeView` after a sequence of clicks. -/
def Dashboard.navRun (user : User) (activeView : String) :
    List DashboardEvent → Option String
  | [] => some activeView
  | e :: es =>
    match Dashboard.navStep user activeView e with
    | none => none
    | some v => Dashboard.navRun user v es

/-! ## The status badge of `ViewUsers` -/

/-- The text of the status badge of a row (App.js 597-601). -/
def ViewUsers.statusLabel (user : ManagedUser) : String :=
  if user.status = "A" then "Active"
  else if user.status = "L" then "Locked"
  else "Inactive"

/-- The condition of the credential-clearing branch of `handleUnload`
(App.js 1612-1615): `!isReloading`. -/
def Dashboard.clearsCredentials (sessionStorage : Storage) : Bool :=
  !optTruthy (sessionStorage.getItem "reloading")

/-! ## The `CreateUser` form -/

/-- The state `formData` of `CreateUser` (App.js 363-369). -/
structure CreateUserForm where
  empid : String
  empname : String
  emp_mobile_no : String
  password : String
  user_role : String
  deriving DecidableEq, Repr

/-- The React state of `CreateUser` (App.js 363-372). -/
structure CreateUserState where
  formData : CreateUserForm
  error : String
  success : String
  loading : Bool
  deriving DecidableEq, Repr

/-- The initial `formData` of `CreateUser`, also set after a success. -/
def CreateUserForm.init : CreateUserForm :=
  { empid := "", empname := "", emp_mobile_no := "", password := "", user_role := "USER" }

/-- The state of `CreateUser` at mount. -/
def CreateUserState.init : CreateUserState :=
  { formData := CreateUserForm.init, error := "", success := "", loading := false }

/-- Whether `sub` occurs in the list of characters. -/
def listIncludes (sub : List Char) : List Char → Bool
  | [] => sub.isEmpty
  | c :: cs => sub.isPrefixOf (c :: cs) || listIncludes sub cs

/-- The method `text.includes(sub)`. -/
def jsIncludes (text sub : String) : Bool := listIncludes sub.toList text.toList

/-- First half of `CreateUser.handleSubmit` (App.js 378-400): the two local
checks, then the create-user request. -/
def CreateUser.handleSubmit (auth : AuthCtx) (s : CreateUserState) :
    CreateUserState × List (ApiCall CreateUserForm) :=
  if !tenDigitsPattern.test s.formData.emp_mobile_no then
    ({ s with success := "", loading := false, error := "Mobile number must be 10 digits." },
     [])
  else if utf16Length s.formData.password < 6 then
    ({ s with success := "", loading := false,
              error := "Password must be at least 6 characters long." }, [])
  else
    ({ s with error := "", success := "", loading := true },
     [{ endpoint := "/api/users", method := "POST", body := some s.formData,
        token := auth.token }])

/-- Second half of `CreateUser.handleSubmit` (App.js 401-423). -/
def CreateUser.handleSubmitSettle (s : CreateUserState) (outcome : Except String String) :
    CreateUserState :=
  match outcome with
  | .ok message =>
    { s with success := message, formData := CreateUserForm.init, loading := false }
  | .error msg =>
    { s with
      error :=
        if jsIncludes msg "Mobile number already exists" then
          "This mobile number is already registered."
        else if jsIncludes msg "Employee ID already exists" then
          "This employee ID is already registered."
        else "Failed to create user. Please try again."
      loading := false }

/-! ## The list and report fetches -/

/-- The React state of `ViewVisitors` that its fetch touches
(App.js 1050-1052); `ρ` is the type of a row. -/
structure ViewVisitorsState (ρ : Type) where
  visitors : List ρ
  loading : Bool
  error : String

/-- First half of `fetchVisitors` (App.js 1057-1063); the call of
`checkPermission` is inside the `try`, so an exception it raises lands in
the `catch`. -/
def ViewVisitors.fetchVisitorsStart {ρ : Type} (auth : AuthCtx) (s : ViewVisitorsState ρ) :
    ViewVisitorsState ρ × List Request :=
  match checkPermission auth.user "VIEW_ALL_VISITORS" with
  | .error _ => ({ s with error := typeErrorMessage, loading := false }, [])
  | .ok _ =>
    ({ s with loading := true },
     [{ endpoint := "/api/visitors", method := "GET", body := none, token := auth.token }])

/-- Second half of `fetchVisitors` (App.js 1064-1069). -/
def ViewVisitors.fetchVisitorsSettle {ρ : Type} (s : ViewVisitorsState ρ)
    (outcome : Except String (Option (List ρ))) : ViewVisitorsState ρ :=
  match outcome with
  | .ok data => { s with visitors := data.getD [], loading := false }
  | .error msg => { s with error := msg, loading := false }

/-- First half of `fetchPending` of `ApproveVisitor` (App.js 1188-1196). -/
def ApproveVisitor.fetchPendingStart (auth : AuthCtx) (s : ApproveVisitorState) :
    ApproveVisitorState × List (ApiCall ApprovePayload) :=
  ({ s with loading := true },
   [{ endpoint := "/api/visitors/pending", method := "GET", body := none,
      token := auth.token }])

/-- Second half of `fetchPending` (App.js 1197-1202). -/
def ApproveVisitor.fetchPendingSettle (s : ApproveVisitorState)
    (outcome : Except String (Option (List PendingVisitor))) : ApproveVisitorState :=
  match outcome with
  | .ok data => { s with pending := data.getD [], loading := false }
  | .error msg => { s with error := msg, loading := false }

/-- Second half of `ApproveVisitor.handleAction` (App.js 1228-1235): on
success the message is shown, `fetchPending()` is called, the selection and
the reason are cleared; on failure the error is shown. -/
def ApproveVisitor.handleActionSettle (auth : AuthCtx) (s : ApproveVisitorState)
    (outcome : Except String String) :
    ApproveVisitorState × List (ApiCall ApprovePayload) :=
  match outcome with
  | .ok message =>
    let fetched := ApproveVisitor.fetchPendingStart auth { s with actionSuccess := message }
    ({ fetched.1 with selectedVisitor := none, rejectionReason := "" }, fetched.2)
  | .error msg => ({ s with actionError := msg }, [])

/-- The React state of `ViewReports` (App.js 1435-1439); `δ` is the type of
the report data. -/
structure ViewReportsState (δ : Type) where
  reportType : String
  date : String
  reportData : Option δ
  loading : Bool
  error : String

/-- First half of `fetchReport` (App.js 1441-1450). -/
def ViewReports.fetchReportStart {δ : Type} (auth : AuthCtx) (s : ViewReportsState δ) :
    ViewReportsState δ × List Request :=
  ({ s with loading := true, error := "", reportData := none },
   [{ endpoint :=
        if s.reportType = "daily" ∧ strTruthy s.date = true then
          "/api/reports/" ++ s.reportType ++ "?date=" ++ s.date
        else "/api/reports/" ++ s.reportType,
      method := "GET", body := none, token := auth.token }])

/-- Second half of `fetchReport` (App.js 1451-1457). -/
def ViewReports.fetchReportSettle {δ : Type} (s : ViewReportsState δ)
    (outcome : Except String (Option δ)) : ViewReportsState δ :=
  match outcome with
  | .ok data => { s with reportData := data, loading := false }
  | .error msg => { s with error := msg, loading := false }

/-! ## Shared lemmas -/

/-- Each declared role has exactly one entry in `PERMISSIONS`, and the
property read returns it. -/
theorem permissionsGet_declared (role : String) (h : role ∈ declaredRoles) :
    ∃ caps, (role, caps) ∈ PERMISSIONS ∧ permissionsGet role = .array caps ∧
      ∀ caps2, (role, caps2) ∈ PERMISSIONS → caps2 = caps := by
  simp only [declaredRoles, List.mem_cons, List.mem_singleton, List.not_mem_nil, or_false] at h
  rcases h with rfl | rfl | rfl | rfl <;>
    refine ⟨_, ?_, rfl, ?_⟩ <;> simp [PERMISSIONS]

/-- The declared role names are truthy strings. -/
theorem strTruthy_declared (role : String) (h : role ∈ declaredRoles) :
    strTruthy role = true := by
  simp only [declaredRoles, List.mem_cons, List.mem_singleton, List.not_mem_nil, or_false] at h
  rcases h with rfl | rfl | rfl | rfl <;> decide

/-- A guard on `checkPermission` passes exactly when it returned `true`. -/
theorem permitted_eq_true_iff (user : Option User) (c : String) :
    permitted user c = .ok true ↔ checkPermission user c = .ok (.bool true) := by
  unfold permitted
  cases h : checkPermission user c with
  | error e => simp [Except.map]
  | ok v => cases v <;> simp [Except.map, JSValue.truthy]

/-- The elevated roles are ADMIN and HR. -/
theorem elevated_iff (user : ManagedUser) :
    elevated user = true ↔ (user.user_role = "ADMIN" ∨ user.user_role = "HR") := by
  simp [elevated, List.contains, List.elem]
  constructor
  · intro h
    split at h
    · rename_i h1; left; simpa using h1
    · split at h
      · rename_i h1; right; simpa using h1
      · simp at h
  · rintro (h | h) <;> simp [h]

/-- The Lock button is rendered exactly for an active account and a
requester holding LOCK_USER. -/
theorem lockOffered_eq_true_iff (auth : AuthCtx) (user : ManagedUser) :
    ViewUsers.lockOffered auth user = .ok true ↔
      user.status = "A" ∧ checkPermission auth.user "LOCK_USER" = .ok (.bool true) := by
  unfold ViewUsers.lockOffered
  by_cases h : user.status = "A"
  · simp [h, permitted_eq_true_iff]
  · simp [h]

/-- The Unlock button is rendered exactly for a locked account and a
requester holding UNLOCK_USER. -/
theorem unlockOffered_eq_true_iff (auth : AuthCtx) (user : ManagedUser) :
    ViewUsers.unlockOffered auth user = .ok true ↔
      user.status = "L" ∧ checkPermission auth.user "UNLOCK_USER" = .ok (.bool true) := by
  unfold ViewUsers.unlockOffered
  by_cases h : user.status = "L"
  · simp [h, permitted_eq_true_iff]
  · simp [h]

/-- Without LOCK_USER, a step keeps the lock modal closed and issues no lock
request. -/
theorem step_no_lock (auth : AuthCtx)
    (hno : checkPermission auth.user "LOCK_USER" ≠ .ok (.bool true))
    (s s1 : ViewUsersState) (e : ViewUsersEvent) (reqs : List Request)
    (hs : s.showLockModal = false) (h : ViewUsers.step auth s e = some (s1, reqs)) :
    s1.showLockModal = false ∧ ∀ r ∈ reqs, r.endpoint ≠ "/api/users/lock" := by
  have hoff : ∀ u, ViewUsers.lockOffered auth u ≠ .ok true := fun u hu =>
    hno ((lockOffered_eq_true_iff auth u).1 hu).2
  cases e with
  | clickUnlock user confirmed =>
    simp only [ViewUsers.step] at h
    split at h
    · simp only [Option.some.injEq] at h
      unfold ViewUsers.clickUnlock at h
      split at h
      · cases h; simp [hs]
      · split at h
        · cases h
          simp [ViewUsers.handleAction, hs]
        · cases h; simp [hs]
    · cases h
  | clickLock user confirmed =>
    simp only [ViewUsers.step] at h
    split at h
    · rename_i hc
      simp only [Bool.and_eq_true, decide_eq_true_eq] at hc
      exact absurd hc.2 (hoff user)
    · cases h
  | lockModalInput v => simp [ViewUsers.step, hs] at h
  | lockModalSubmit => simp [ViewUsers.step, hs] at h
  | lockModalClose => simp [ViewUsers.step, hs] at h
  | unlockModalInput v =>
    simp only [ViewUsers.step, Option.map_eq_some'] at h
    obtain ⟨_, _, h⟩ := h
    cases h; simp [hs]
  | unlockModalSubmit =>
    simp only [ViewUsers.step, Option.map_eq_some'] at h
    obtain ⟨t, _, h⟩ := h
    unfold ViewUsers.unlockModalSubmit at h
    split at h
    · cases h; simp [hs]
    · cases h; simp [ViewUsers.handleAction, hs]
  | unlockModalClose =>
    simp only [ViewUsers.step, Option.map_eq_some'] at h
    obtain ⟨_, _, h⟩ := h
    cases h; simp [hs]
  | closeActionError =>
    simp only [ViewUsers.step] at h
    split at h
    · cases h; simp [hs]
    · cases h
  | closeActionSuccess =>
    simp only [ViewUsers.step] at h
    split at h
    · cases h; simp [hs]
    · cases h
  | usersSettled outcome =>
    simp only [ViewUsers.step, Option.some.injEq] at h
    cases h
    cases outcome <;> simp [ViewUsers.fetchUsersSettle, hs]
  | actionSettled outcome =>
    simp only [ViewUsers.step, Option.some.injEq] at h
    cases outcome with
    | error msg => simp only [ViewUsers.handleActionSettle] at h; cases h; simp [hs]
    | ok message =>
      simp only [ViewUsers.handleActionSettle, ViewUsers.fetchUsersStart] at h
      cases h; simp [hs]

/-- Without LOCK_USER, a run keeps the lock modal closed and issues no lock
request. -/
theorem run_no_lock (auth : AuthCtx)
    (hno : checkPermission auth.user "LOCK_USER" ≠ .ok (.bool true))
    (es : List ViewUsersEvent) :
    ∀ (s s1 : ViewUsersState) (reqs : List Request), s.showLockModal = false →
      ViewUsers.run auth s es = some (s1, reqs) →
      s1.showLockModal = false ∧ ∀ r ∈ reqs, r.endpoint ≠ "/api/users/lock" := by
  induction es with
  | nil =>
    intro s s1 reqs hs h
    simp only [ViewUsers.run, Option.some.injEq, Prod.mk.injEq] at h
    obtain ⟨rfl, rfl⟩ := h
    exact ⟨hs, by simp⟩
  | cons e es ih =>
    intro s s1 reqs hs h
    simp only [ViewUsers.run] at h
    cases hstep : ViewUsers.step auth s e with
    | none => simp [hstep] at h
    | some p =>
      obtain ⟨sm, r1⟩ := p
      simp only [hstep] at h
      cases hrun : ViewUsers.run auth sm es with
      | none => simp [hrun] at h
      | some q =>
        obtain ⟨s2, r2⟩ := q
        simp only [hrun, Option.some.injEq, Prod.mk.injEq] at h
        obtain ⟨rfl, rfl⟩ := h
        have h1 := step_no_lock auth hno s sm e r1 hs hstep
        have h2 := ih sm s2 r2 h1.1 hrun
        refine ⟨h2.1, ?_⟩
        intro r hr
        rcases List.mem_append.1 hr with hr | hr
        · exact h1.2 r hr
        · exact h2.2 r hr

/-- Without UNLOCK_USER, a step keeps the unlock modal closed and issues no
unlock request. -/
theorem step_no_unlock (auth : AuthCtx)
    (hno : checkPermission auth.user "UNLOCK_USER" ≠ .ok (.bool true))
    (s s1 : ViewUsersState) (e : ViewUsersEvent) (reqs : List Request)
    (hs : s.showUnlockModal = false) (h : ViewUsers.step auth s e = some (s1, reqs)) :
    s1.showUnlockModal = false ∧ ∀ r ∈ reqs, r.endpoint ≠ "/api/users/unlock" := by
  have hoff : ∀ u, ViewUsers.unlockOffered auth u ≠ .ok true := fun u hu =>
    hno ((unlockOffered_eq_true_iff auth u).1 hu).2
  cases e with
  | clickLock user confirmed =>
    simp only [ViewUsers.step] at h
    split at h
    · simp only [Option.some.injEq] at h
      unfold ViewUsers.clickLock at h
      split at h
      · cases h; simp [hs]
      · split at h
        · cases h
          simp [ViewUsers.handleAction, hs]
        · cases h; simp [hs]
    · cases h
  | clickUnlock user confirmed =>
    simp only [ViewUsers.step] at h
    split at h
    · rename_i hc
      simp only [Bool.and_eq_true, decide_eq_true_eq] at hc
      exact absurd hc.2 (hoff user)
    · cases h
  | unlockModalInput v => simp [ViewUsers.step, hs] at h
  | unlockModalSubmit => simp [ViewUsers.step, hs] at h
  | unlockModalClose => simp [ViewUsers.step, hs] at h
  | lockModalInput v =>
    simp only [ViewUsers.step, Option.map_eq_some'] at h
    obtain ⟨_, _, h⟩ := h
    cases h; simp [hs]
  | lockModalSubmit =>
    simp only [ViewUsers.step, Option.map_eq_some'] at h
    obtain ⟨t, _, h⟩ := h
    unfold ViewUsers.lockModalSubmit at h
    split at h
    · cases h; simp [hs]
    · cases h; simp [ViewUsers.handleAction, hs]
  | lockModalClose =>
    simp only [ViewUsers.step, Option.map_eq_some'] at h
    obtain ⟨_, _, h⟩ := h
    cases h; simp [hs]
  | closeActionError =>
    simp only [ViewUsers.step] at h
    split at h
    · cases h; simp [hs]
    · cases h
  | closeActionSuccess =>
    simp only [ViewUsers.step] at h
    split at h
    · cases h; simp [hs]
    · cases h
  | usersSettled outcome =>
    simp only [ViewUsers.step, Option.some.injEq] at h
    cases h
    cases outcome <;> simp [ViewUsers.fetchUsersSettle, hs]
  | actionSettled outcome =>
    simp only [ViewUsers.step, Option.some.injEq] at h
    cases outcome with
    | error msg => simp only [ViewUsers.handleActionSettle] at h; cases h; simp [hs]
    | ok message =>
      simp only [ViewUsers.handleActionSettle, ViewUsers.fetchUsersStart] at h
      cases h; simp [hs]

/-- Without UNLOCK_USER, a run keeps the unlock modal closed and issues no
unlock request. -/
theorem run_no_unlock (auth : AuthCtx)
    (hno : checkPermission auth.user "UNLOCK_USER" ≠ .ok (.bool true))
    (es : List ViewUsersEvent) :
    ∀ (s s1 : ViewUsersState) (reqs : List Request), s.showUnlockModal = false →
      ViewUsers.run auth s es = some (s1, reqs) →
      s1.showUnlockModal = false ∧ ∀ r ∈ reqs, r.endpoint ≠ "/api/users/unlock" := by
  induction es with
  | nil =>
    intro s s1 reqs hs h
    simp only [ViewUsers.run, Option.some.injEq, Prod.mk.injEq] at h
    obtain ⟨rfl, rfl⟩ := h
    exact ⟨hs, by simp⟩
  | cons e es ih =>
    intro s s1 reqs hs h
    simp only [ViewUsers.run] at h
    cases hstep : ViewUsers.step auth s e with
    | none => simp [hstep] at h
    | some p =>
      obtain ⟨sm, r1⟩ := p
      simp only [hstep] at h
      cases hrun : ViewUsers.run auth sm es with
      | none => simp [hrun] at h
      | some q =>
        obtain ⟨s2, r2⟩ := q
        simp only [hrun, Option.some.injEq, Prod.mk.injEq] at h
        obtain ⟨rfl, rfl⟩ := h
        have h1 := step_no_unlock auth hno s sm e r1 hs hstep
        have h2 := ih sm s2 r2 h1.1 hrun
        refine ⟨h2.1, ?_⟩
        intro r hr
        rcases List.mem_append.1 hr with hr | hr
        · exact h1.2 r hr
        · exact h2.2 r hr

/-- The model does issue lock requests: an HR requester who clicks Lock on
the active USER account E2 and confirms sends one POST to `/api/users/lock`
after the listing request of the mount. -/
theorem ViewUsers.run_lock_example :
    (ViewUsers.mountAndRun ⟨some ⟨"E7", "Asha", some "HR"⟩, some "tok"⟩
      [.usersSettled (.ok (some [⟨"E2", "Bina", "USER", "A"⟩])),
       .clickLock ⟨"E2", "Bina", "USER", "A"⟩ true]).map Prod.snd =
      some [⟨"/api/users", "GET", none, some "tok"⟩,
            ⟨"/api/users/lock", "POST", some [("empid", "E2")], some "tok"⟩] := by
  decide

/-- A removed key reads as `null`. -/
theorem getItem_removeItem_self (st : Storage) (key : String) :
    (st.removeItem key).getItem key = none := by
  induction st with
  | nil => rfl
  | cons kv rest ih =>
    obtain ⟨k, v⟩ := kv
    simp only [Storage.removeItem, Storage.getItem] at ih ⊢
    rw [List.filter_cons]
    by_cases hk : k = key
    · have hb : (k != key) = false := by simp [hk]
      simp only [hb, Bool.false_eq_true, if_false]
      exact ih
    · have hb : (k != key) = true := by simp [hk]
      have hk2 : (key == k) = false := by simpa using fun h => hk h.symm
      simp only [hb, if_true, List.lookup_cons, hk2]
      exact ih

/-- Removing a key leaves every other key as it was. -/
theorem getItem_removeItem_other (st : Storage) (key other : String) (h : other ≠ key) :
    (st.removeItem key).getItem other = st.getItem other := by
  induction st with
  | nil => rfl
  | cons kv rest ih =>
    obtain ⟨k, v⟩ := kv
    simp only [Storage.removeItem, Storage.getItem] at ih ⊢
    rw [List.filter_cons]
    by_cases hk : k = key
    · have hb : (k != key) = false := by simp [hk]
      have hk2 : (other == k) = false := by simpa [hk] using h
      simp only [hb, Bool.false_eq_true, if_false, List.lookup_cons, hk2]
      exact ih
    · have hb : (k != key) = true := by simp [hk]
      simp only [hb, if_true, List.lookup_cons]
      cases hok : (other == k) with
      | true => rfl
      | false => exact ih

/-- Removing a key twice is removing it once. -/
theorem removeItem_idem (st : Storage) (key : String) :
    (st.removeItem key).removeItem key = st.removeItem key := by
  simp [Storage.removeItem, List.filter_filter]

/-- Removals of two keys commute. -/
theorem removeItem_comm (st : Storage) (a b : String) :
    (st.removeItem a).removeItem b = (st.removeItem b).removeItem a := by
  simp [Storage.removeItem, List.filter_filter, Bool.and_comm]

/-- A step other than a successful login moves the counters by one exactly
when it is a failed login, and installs no session. -/
theorem Login.step_counts {J : Type} (stringify : Option J → String)
    (st st1 : LoginState × AppState J) (e : LoginEvent J) (reqs : List Request)
    (h : Login.step stringify st e = some (st1, reqs)) (hs : e.isSuccess = false) :
    st1.1.failedAttempts = st.1.failedAttempts + (if e.isFailure then 1 else 0) ∧
    st1.1.attemptsLeft = st.1.attemptsLeft - (if e.isFailure then 1 else 0) ∧
    st1.2 = st.2 := by
  cases e with
  | setEmpid v => simp only [Login.step, Option.some.injEq, Prod.mk.injEq] at h
                  obtain ⟨rfl, _⟩ := h
                  simp [LoginEvent.isFailure]
  | setPassword v => simp only [Login.step, Option.some.injEq, Prod.mk.injEq] at h
                     obtain ⟨rfl, _⟩ := h
                     simp [LoginEvent.isFailure]
  | closeAlert => simp only [Login.step, Option.some.injEq, Prod.mk.injEq] at h
                  obtain ⟨rfl, _⟩ := h
                  simp [LoginEvent.isFailure]
  | submit =>
    simp only [Login.step] at h
    split at h
    · simp only [Option.some.injEq, Prod.mk.injEq] at h
      obtain ⟨rfl, _⟩ := h
      simp [LoginEvent.isFailure, Login.handleSubmitStart]
    · cases h
  | settle outcome =>
    cases outcome with
    | ok data => simp [LoginEvent.isSuccess] at hs
    | error msg =>
      simp only [Login.step] at h
      split at h
      · simp only [Option.some.injEq, Prod.mk.injEq] at h
        obtain ⟨rfl, _⟩ := h
        simp [LoginEvent.isFailure, Login.handleSubmitSettle]
      · cases h

/-- Over a run without a successful login the counters move by the number
of failed logins. -/
theorem Login.run_counts {J : Type} (stringify : Option J → String)
    (es : List (LoginEvent J)) :
    ∀ (st st1 : LoginState × AppState J) (reqs : List Request),
      Login.run stringify st es = some (st1, reqs) →
      (∀ e ∈ es, e.isSuccess = false) →
      st1.1.failedAttempts = st.1.failedAttempts + es.countP LoginEvent.isFailure ∧
      st1.1.attemptsLeft = st.1.attemptsLeft - (es.countP LoginEvent.isFailure : Nat) ∧
      st1.2 = st.2 := by
  induction es with
  | nil =>
    intro st st1 reqs h _
    simp only [Login.run, Option.some.injEq, Prod.mk.injEq] at h
    obtain ⟨rfl, _⟩ := h
    simp
  | cons e es ih =>
    intro st st1 reqs h hs
    simp only [Login.run] at h
    cases hstep : Login.step stringify st e with
    | none => simp [hstep] at h
    | some p =>
      obtain ⟨sm, r1⟩ := p
      simp only [hstep] at h
      cases hrun : Login.run stringify sm es with
      | none => simp [hrun] at h
      | some q =>
        obtain ⟨s2, r2⟩ := q
        simp only [hrun, Option.some.injEq, Prod.mk.injEq] at h
        obtain ⟨rfl, _⟩ := h
        have h1 := Login.step_counts stringify st sm e r1 hstep (hs e (List.mem_cons_self _ _))
        have h2 := ih sm s2 r2 hrun (fun x hx => hs x (List.mem_cons_of_mem _ hx))
        rw [List.countP_cons]
        refine ⟨?_, ?_, h2.2.2.trans h1.2.2⟩
        · rw [h2.1, h1.1]; omega
        · rw [h2.2.1, h1.2.1]
          split <;> simp
          omega

/-- No login succeeds in a sequence of failed submissions. -/
theorem Login.failedSubmissions_no_success {J : Type} (msg : String) (n : Nat) :
    ∀ e ∈ (Login.failedSubmissions msg n : List (LoginEvent J)), e.isSuccess = false := by
  induction n with
  | zero => simp [Login.failedSubmissions]
  | succ n ih =>
    intro e he
    simp only [Login.failedSubmissions, List.mem_cons] at he
    rcases he with rfl | rfl | he
    · rfl
    · rfl
    · exact ih e he

/-- A sequence of `n` failed submissions has `n` failed logins. -/
theorem Login.failedSubmissions_count {J : Type} (msg : String) (n : Nat) :
    (Login.failedSubmissions msg n : List (LoginEvent J)).countP LoginEvent.isFailure = n := by
  induction n with
  | zero => simp [Login.failedSubmissions]
  | succ n ih =>
    simp only [Login.failedSubmissions, List.countP_cons, ih, LoginEvent.isFailure]
    simp

/-- A filled-in, idle form can go through `n` failed submissions, issuing
`n` login requests. -/
theorem Login.run_failedSubmissions {J : Type} (stringify : Option J → String)
    (app : AppState J) (msg : String) (n : Nat) :
    ∀ s : LoginState, s.loading = false → s.empid ≠ "" → s.password ≠ "" →
      ∃ s1 reqs, Login.run stringify (s, app) (Login.failedSubmissions msg n) =
          some ((s1, app), reqs) ∧
        reqs = List.replicate n
          { endpoint := "/api/auth/login", method := "POST",
            body := some [("empid", s.empid), ("password", s.password)], token := none } ∧
        s1.loading = false ∧ s1.empid = s.empid ∧ s1.password = s.password ∧
        s1.error = (if n = 0 then s.error else msg) := by
  induction n with
  | zero =>
    intro s hl _ _
    exact ⟨s, [], rfl, rfl, hl, rfl, rfl, rfl⟩
  | succ n ih =>
    intro s hl he hp
    have hav : Login.submitAvailable s = true := by
      simp [Login.submitAvailable, Login.submitDisabled, hl, strTruthy, he, hp]
    obtain ⟨s1, reqs, hrun, hreqs, hl1, he1, hp1, herr⟩ :=
      ih { s with error := msg, failedAttempts := s.failedAttempts + 1,
                  attemptsLeft := s.attemptsLeft - 1, loading := false } rfl he hp
    dsimp only at hreqs he1 hp1 herr
    refine ⟨s1, { endpoint := "/api/auth/login", method := "POST",
                  body := some [("empid", s.empid), ("password", s.password)],
                  token := none } :: reqs, ?_, ?_, hl1, he1, hp1, ?_⟩
    · simp only [Login.failedSubmissions, Login.run, Login.step, hav, if_true,
        Login.handleSubmitStart, Login.handleSubmitSettle]
      simp only [hrun, List.singleton_append, List.nil_append]
    · rw [hreqs, List.replicate_succ]
    · rw [herr]
      by_cases hn : n = 0 <;> simp [hn]

/-- Clearing the handle of the only active timer empties the list. -/
theorem clearTimeout_single (id d : Nat) : clearTimeout [⟨id, d⟩] (some id) = [] := by
  simp [clearTimeout]

/-- The state of a freshly mounted watchdog. -/
theorem Dashboard.mount_eq {J : Type} (app : AppState J) (t0 : Nat) :
    Dashboard.mount app t0 =
      { app := app, mounted := true, timers := [⟨1, t0 + INACTIVITY_LIMIT⟩],
        timeout := some 1, nextId := 2, now := t0, alerts := [] } := by
  simp [Dashboard.mount, Dashboard.resetTimer, clearTimeout]

/-- One step of the watchdog keeps its shape: while mounted there is exactly
one active timer, the one `timeout` names, and nothing has been alerted;
once unmounted there is no timer and at most one alert.  Time only advances,
every lower bound on the pending deadlines is kept, the alerts grow by one
exactly on a timer callback, and a callback runs at or after the deadline of
an active timer. -/
theorem Dashboard.watchdogStep_inv {J : Type} (s s1 : WatchdogState J) (e : WatchdogEvent)
    (hinv : (s.mounted = true ∧ ∃ id d, s.timers = [⟨id, d⟩] ∧ s.timeout = some id ∧
        s.alerts = []) ∨ (s.mounted = false ∧ s.timers = [] ∧ s.alerts.length ≤ 1))
    (h : Dashboard.watchdogStep s e = some s1) :
    ((s1.mounted = true ∧ ∃ id d, s1.timers = [⟨id, d⟩] ∧ s1.timeout = some id ∧
        s1.alerts = []) ∨ (s1.mounted = false ∧ s1.timers = [] ∧ s1.alerts.length ≤ 1)) ∧
    s.now ≤ s1.now ∧
    (∀ L, (L ≤ s.now + INACTIVITY_LIMIT ∧ ∀ tm ∈ s.timers, L ≤ tm.deadline) →
      (L ≤ s1.now + INACTIVITY_LIMIT ∧ ∀ tm ∈ s1.timers, L ≤ tm.deadline)) ∧
    s1.alerts.length = s.alerts.length + (if e.isTimerFires then 1 else 0) ∧
    (∀ id t, e = .timerFires id t → s1.now = t ∧ ∃ tm ∈ s.timers, tm.deadline ≤ t) ∧
    (∀ name t, e = .windowEvent name t → name ∈ trackedEvents →
      s1.now = t ∧ ∀ tm ∈ s1.timers, tm.deadline = t + INACTIVITY_LIMIT) := by
  cases e with
  | windowEvent name t =>
    simp only [Dashboard.watchdogStep] at h
    split at h
    · rename_i hnow
      split at h
      · rename_i hc
        simp only [Bool.and_eq_true] at hc
        simp only [Option.some.injEq] at h
        subst h
        rcases hinv with ⟨_, id, d, ht, hto, hal⟩ | ⟨hm, _, _⟩
        · have hcl : clearTimeout s.timers s.timeout = [] := by
            rw [ht, hto]; exact clearTimeout_single id d
          refine ⟨Or.inl ⟨hc.1, s.nextId, t + INACTIVITY_LIMIT, ?_, rfl, hal⟩, hnow, ?_, ?_, ?_, ?_⟩
          · simp [Dashboard.resetTimer, hcl]
          · rintro L ⟨hL, _⟩
            refine ⟨by simp only [Dashboard.resetTimer]; omega, ?_⟩
            intro tm htm
            simp only [Dashboard.resetTimer, hcl, List.nil_append, List.mem_singleton] at htm
            subst htm
            simp only
            omega
          · simp [Dashboard.resetTimer, WatchdogEvent.isTimerFires]
          · intro id t h; cases h
          · intro name2 t2 h _
            cases h
            refine ⟨rfl, ?_⟩
            intro tm htm
            simp only [Dashboard.resetTimer, hcl, List.nil_append, List.mem_singleton] at htm
            subst htm
            rfl
        · rw [hm] at hc
          exact absurd hc.1 (by simp)
      · rename_i hc
        simp only [Option.some.injEq] at h
        subst h
        refine ⟨hinv, hnow, ?_, ?_, ?_, ?_⟩
        · rintro L ⟨hL, hall⟩
          exact ⟨by simp only; omega, hall⟩
        · simp [WatchdogEvent.isTimerFires]
        · intro id t h; cases h
        · intro name2 t2 h hmem
          cases h
          refine ⟨rfl, ?_⟩
          have hm : s.mounted = false := by
            cases hmo : s.mounted with
            | false => rfl
            | true =>
              exfalso
              apply hc
              simp only [hmo, Bool.true_and]
              simpa using hmem
          rcases hinv with ⟨hm2, _⟩ | ⟨_, ht, _⟩
          · rw [hm] at hm2; cases hm2
          · intro tm htm
            simp only [ht] at htm
            cases htm
    · cases h
  | timerFires id t =>
    simp only [Dashboard.watchdogStep] at h
    split at h
    · rename_i hnow
      split at h
      · rename_i tm hfind
        split at h
        · rename_i hdl
          simp only [Option.some.injEq] at h
          subst h
          have hmem : tm ∈ s.timers := List.mem_of_find?_eq_some hfind
          rcases hinv with ⟨_, id2, d, ht, hto, hal⟩ | ⟨_, ht, _⟩
          · rw [ht] at hmem
            simp only [List.mem_singleton] at hmem
            subst hmem
            have hid : id2 = id := by
              rw [ht] at hfind
              simp only [List.find?_cons] at hfind
              split at hfind
              · rename_i hb; simpa using hb
              · simp at hfind
            subst hid
            have hf : List.filter (fun x : Timer => x.id != id2) s.timers = [] := by
              rw [ht]; simp
            refine ⟨Or.inr ⟨rfl, ?_, ?_⟩, hnow, ?_, ?_, ?_, ?_⟩
            · simp [Dashboard.cleanup, hf, clearTimeout]
            · simp [Dashboard.cleanup, hal]
            · rintro L ⟨hL, _⟩
              refine ⟨by simp only [Dashboard.cleanup]; omega, ?_⟩
              intro tm2 htm2
              simp [Dashboard.cleanup, hf, clearTimeout] at htm2
            · simp [Dashboard.cleanup, WatchdogEvent.isTimerFires]
            · intro id3 t3 h
              cases h
              refine ⟨rfl, ⟨id2, d⟩, ?_, hdl⟩
              rw [ht]; exact List.mem_singleton.2 rfl
            · intro name t2 h; cases h
          · rw [ht] at hmem; cases hmem
        · cases h
      · cases h
    · cases h
  | logout t =>
    simp only [Dashboard.watchdogStep] at h
    split at h
    · rename_i hc
      simp only [Bool.and_eq_true, decide_eq_true_eq] at hc
      simp only [Option.some.injEq] at h
      subst h
      rcases hinv with ⟨_, id, d, ht, hto, hal⟩ | ⟨hm, _, _⟩
      · have hcl : clearTimeout s.timers s.timeout = [] := by
          rw [ht, hto]; exact clearTimeout_single id d
        refine ⟨Or.inr ⟨rfl, ?_, ?_⟩, hc.1, ?_, ?_, ?_, ?_⟩
        · simp [Dashboard.cleanup, hcl]
        · simp [Dashboard.cleanup, hal]
        · rintro L ⟨hL, _⟩
          refine ⟨by simp only [Dashboard.cleanup]; omega, ?_⟩
          intro tm htm
          simp [Dashboard.cleanup, hcl] at htm
        · simp [Dashboard.cleanup, WatchdogEvent.isTimerFires]
        · intro id t h; cases h
        · intro name t2 h; cases h
      · rw [hm] at hc
        exact absurd hc.2 (by simp)
    · cases h

/-- Running a concatenation is running the parts in turn. -/
theorem Dashboard.watchdogRun_append {J : Type} (es1 es2 : List WatchdogEvent) :
    ∀ s : WatchdogState J, Dashboard.watchdogRun s (es1 ++ es2) =
      (Dashboard.watchdogRun s es1).bind (fun m => Dashboard.watchdogRun m es2) := by
  induction es1 with
  | nil => intro s; rfl
  | cons e es ih =>
    intro s
    simp only [List.cons_append, Dashboard.watchdogRun]
    cases Dashboard.watchdogStep s e with
    | none => rfl
    | some s1 => exact ih s1

/-- The shape of the watchdog state, the lower bounds on pending deadlines
and the count of alerts are kept along a run. -/
theorem Dashboard.watchdogRun_inv {J : Type} (es : List WatchdogEvent) :
    ∀ (s s1 : WatchdogState J),
      ((s.mounted = true ∧ ∃ id d, s.timers = [⟨id, d⟩] ∧ s.timeout = some id ∧
        s.alerts = []) ∨ (s.mounted = false ∧ s.timers = [] ∧ s.alerts.length ≤ 1)) →
      Dashboard.watchdogRun s es = some s1 →
      ((s1.mounted = true ∧ ∃ id d, s1.timers = [⟨id, d⟩] ∧ s1.timeout = some id ∧
        s1.alerts = []) ∨ (s1.mounted = false ∧ s1.timers = [] ∧ s1.alerts.length ≤ 1)) ∧
      s.now ≤ s1.now ∧
      (∀ L, (L ≤ s.now + INACTIVITY_LIMIT ∧ ∀ tm ∈ s.timers, L ≤ tm.deadline) →
        (L ≤ s1.now + INACTIVITY_LIMIT ∧ ∀ tm ∈ s1.timers, L ≤ tm.deadline)) ∧
      s1.alerts.length = s.alerts.length + es.countP WatchdogEvent.isTimerFires := by
  induction es with
  | nil =>
    intro s s1 hinv h
    simp only [Dashboard.watchdogRun, Option.some.injEq] at h
    subst h
    exact ⟨hinv, le_refl _, fun _ hq => hq, by simp⟩
  | cons e es ih =>
    intro s s1 hinv h
    simp only [Dashboard.watchdogRun] at h
    cases hstep : Dashboard.watchdogStep s e with
    | none => simp [hstep] at h
    | some sm =>
      simp only [hstep] at h
      obtain ⟨hi, hn, hq, ha, _, _⟩ := Dashboard.watchdogStep_inv s sm e hinv hstep
      obtain ⟨hi2, hn2, hq2, ha2⟩ := ih sm s1 hi h
      refine ⟨hi2, le_trans hn hn2, fun L hL => hq2 L (hq L hL), ?_⟩
      rw [ha2, ha, List.countP_cons]
      omega

/-- A mounted watchdog satisfies the shape invariant. -/
theorem Dashboard.mount_inv {J : Type} (app : AppState J) (t0 : Nat) :
    ((Dashboard.mount app t0).mounted = true ∧
      ∃ id d, (Dashboard.mount app t0).timers = [⟨id, d⟩] ∧
        (Dashboard.mount app t0).timeout = some id ∧ (Dashboard.mount app t0).alerts = []) ∨
    ((Dashboard.mount app t0).mounted = false ∧ (Dashboard.mount app t0).timers = [] ∧
      (Dashboard.mount app t0).alerts.length ≤ 1) := by
  rw [Dashboard.mount_eq]
  exact Or.inl ⟨rfl, 1, t0 + INACTIVITY_LIMIT, rfl, rfl, rfl⟩

/-- A key reads back the value just stored under it. -/
theorem getItem_setItem_self (st : Storage) (key value : String) :
    (st.setItem key value).getItem key = some value := by
  unfold Storage.setItem
  split
  · rename_i h
    simp only [Storage.getItem] at h ⊢
    induction st with
    | nil => simp [List.lookup] at h
    | cons kv rest ih =>
      obtain ⟨k, v⟩ := kv
      simp only [List.map_cons, List.lookup_cons] at h ⊢
      by_cases hk : k = key
      · subst hk
        simp
      · have hb : (k == key) = false := by simpa using hk
        have hb2 : (key == k) = false := by simpa using fun h => hk h.symm
        simp only [hb, hb2, Bool.false_eq_true, if_false, List.lookup_cons] at h ⊢
        exact ih h
  · rename_i h
    simp only [Storage.getItem] at h ⊢
    have hn : List.lookup key st = none := by
      cases hl : List.lookup key st with
      | none => rfl
      | some v => simp [hl] at h
    induction st with
    | nil => simp [List.lookup]
    | cons kv rest ih =>
      obtain ⟨k, v⟩ := kv
      simp only [List.cons_append, List.lookup_cons] at hn ⊢
      cases hb : (key == k) with
      | true => simp [hb] at hn
      | false =>
        simp only [hb] at hn ⊢
        exact ih (by simp [hn]) hn

/-- Nothing matches the empty expression. -/
theorem Regex.not_matches_empty (s : List Char) : ¬ Regex.Matches .empty s := by
  intro h; cases h

/-- The expression `eps` matches the empty string only. -/
theorem Regex.matches_eps_iff (s : List Char) : Regex.Matches .eps s ↔ s = [] := by
  constructor
  · intro h; cases h; rfl
  · rintro rfl; exact Regex.Matches.eps

/-- A class matches the one-character strings of its characters. -/
theorem Regex.matches_cls_iff (p : Char → Bool) (s : List Char) :
    Regex.Matches (.cls p) s ↔ ∃ c, s = [c] ∧ p c = true := by
  constructor
  · intro h; cases h with
    | cls _ c hc => exact ⟨c, rfl, hc⟩
  · rintro ⟨c, rfl, hc⟩; exact Regex.Matches.cls p c hc

/-- A sequence matches the concatenations of matches of its parts. -/
theorem Regex.matches_seq_iff (r t : Regex) (s : List Char) :
    Regex.Matches (.seq r t) s ↔ ∃ a b, s = a ++ b ∧ Regex.Matches r a ∧ Regex.Matches t b := by
  constructor
  · intro h; cases h with
    | seq ha hb => exact ⟨_, _, rfl, ha, hb⟩
  · rintro ⟨a, b, rfl, ha, hb⟩; exact Regex.Matches.seq ha hb

/-- An alternative matches what either side matches. -/
theorem Regex.matches_alt_iff (r t : Regex) (s : List Char) :
    Regex.Matches (.alt r t) s ↔ Regex.Matches r s ∨ Regex.Matches t s := by
  constructor
  · intro h; cases h with
    | altL h => exact Or.inl h
    | altR h => exact Or.inr h
  · rintro (h | h)
    · exact Regex.Matches.altL h
    · exact Regex.Matches.altR h

/-- An expression is nullable exactly when it matches the empty string. -/
theorem Regex.nullable_iff (r : Regex) : r.nullable = true ↔ Regex.Matches r [] := by
  induction r with
  | empty => simp [Regex.nullable, Regex.not_matches_empty]
  | eps => simp [Regex.nullable, Regex.matches_eps_iff]
  | cls p => simp [Regex.nullable, Regex.matches_cls_iff]
  | seq r t ihr iht =>
    simp only [Regex.nullable, Bool.and_eq_true, ihr, iht, Regex.matches_seq_iff]
    constructor
    · rintro ⟨h1, h2⟩; exact ⟨[], [], rfl, h1, h2⟩
    · rintro ⟨a, b, hab, h1, h2⟩
      have hab2 := hab.symm
      simp only [List.append_eq_nil] at hab2
      obtain ⟨rfl, rfl⟩ := hab2
      exact ⟨h1, h2⟩
  | alt r t ihr iht =>
    simp only [Regex.nullable, Bool.or_eq_true, ihr, iht, Regex.matches_alt_iff]
  | star r _ =>
    simp only [Regex.nullable, true_iff]
    exact Regex.Matches.starNil

/-- A non-empty match of a star starts with a non-empty match of its body. -/
theorem Regex.matches_star_cons (r : Regex) (x : List Char) (h : Regex.Matches (.star r) x) :
    ∀ c s, x = c :: s →
      ∃ a b, s = a ++ b ∧ Regex.Matches r (c :: a) ∧ Regex.Matches (.star r) b := by
  generalize hq : Regex.star r = q at h
  induction h with
  | eps => intro c s hx; cases hx
  | cls p c hc => cases hq
  | seq _ _ _ _ => cases hq
  | altL _ _ => cases hq
  | altR _ _ => cases hq
  | starNil => intro c s hx; cases hx
  | @starCons r2 a b ha hb _ ihb =>
    cases hq
    intro c s hx
    cases a with
    | nil => exact ihb rfl c s (by simpa using hx)
    | cons c2 a2 =>
      simp only [List.cons_append, List.cons.injEq] at hx
      obtain ⟨rfl, rfl⟩ := hx
      exact ⟨a2, b, rfl, ha, hb⟩

/-- The derivative by `c` matches `s` exactly when the expression matches
`c :: s`. -/
theorem Regex.deriv_iff (r : Regex) : ∀ (c : Char) (s : List Char),
    Regex.Matches (r.deriv c) s ↔ Regex.Matches r (c :: s) := by
  induction r with
  | empty => intro c s; simp [Regex.deriv, Regex.not_matches_empty]
  | eps => intro c s; simp [Regex.deriv, Regex.not_matches_empty, Regex.matches_eps_iff]
  | cls p =>
    intro c s
    simp only [Regex.deriv]
    by_cases hp : p c = true
    · simp only [hp, if_true, Regex.matches_eps_iff, Regex.matches_cls_iff]
      constructor
      · rintro rfl; exact ⟨c, rfl, hp⟩
      · rintro ⟨c2, h, _⟩
        simp only [List.cons.injEq] at h
        exact h.2
    · simp only [hp, Bool.false_eq_true, if_false, Regex.matches_cls_iff]
      constructor
      · intro h
        exact absurd h (Regex.not_matches_empty s)
      · rintro ⟨c2, h, hc2⟩
        simp only [List.cons.injEq] at h
        rw [← h.1] at hc2
        exact absurd hc2 hp
  | seq r t ihr iht =>
    intro c s
    have key : Regex.Matches (.seq r t) (c :: s) ↔
        (∃ a b, s = a ++ b ∧ Regex.Matches r (c :: a) ∧ Regex.Matches t b) ∨
        (Regex.Matches r [] ∧ Regex.Matches t (c :: s)) := by
      rw [Regex.matches_seq_iff]
      constructor
      · rintro ⟨a, b, hab, ha, hb⟩
        cases a with
        | nil => right; simp only [List.nil_append] at hab; rw [hab]; exact ⟨ha, hb⟩
        | cons c2 a2 =>
          simp only [List.cons_append, List.cons.injEq] at hab
          obtain ⟨rfl, rfl⟩ := hab
          left; exact ⟨a2, b, rfl, ha, hb⟩
      · rintro (⟨a, b, rfl, ha, hb⟩ | ⟨ha, hb⟩)
        · exact ⟨c :: a, b, rfl, ha, hb⟩
        · exact ⟨[], c :: s, rfl, ha, hb⟩
    rw [key]
    simp only [Regex.deriv]
    by_cases hn : r.nullable = true
    · simp only [hn, if_true, Regex.matches_alt_iff, Regex.matches_seq_iff, ihr, iht]
      have hn2 := (Regex.nullable_iff r).1 hn
      constructor
      · rintro (h | h)
        · exact Or.inl h
        · exact Or.inr ⟨hn2, h⟩
      · rintro (h | ⟨_, h⟩)
        · exact Or.inl h
        · exact Or.inr h
    · simp only [hn, Bool.false_eq_true, if_false, Regex.matches_seq_iff, ihr]
      constructor
      · intro h; exact Or.inl h
      · rintro (h | ⟨h, _⟩)
        · exact h
        · exact absurd ((Regex.nullable_iff r).2 h) hn
  | alt r t ihr iht =>
    intro c s
    simp only [Regex.deriv, Regex.matches_alt_iff, ihr, iht]
  | star r ihr =>
    intro c s
    simp only [Regex.deriv, Regex.matches_seq_iff, ihr]
    constructor
    · rintro ⟨a, b, rfl, ha, hb⟩
      exact Regex.Matches.starCons ha hb
    · intro h
      exact Regex.matches_star_cons r _ h c s rfl

/-- Matching by derivatives decides whole-string matching. -/
theorem Regex.matchList_iff (s : List Char) : ∀ r : Regex,
    r.matchList s = true ↔ Regex.Matches r s := by
  induction s with
  | nil => intro r; exact Regex.nullable_iff r
  | cons c cs ih =>
    intro r
    simp only [Regex.matchList]
    rw [ih, Regex.deriv_iff]

/-- The test of an anchored pattern succeeds exactly on the strings the
expression matches. -/
theorem Regex.test_iff (r : Regex) (s : String) :
    r.test s = true ↔ Regex.Matches r s.toList :=
  Regex.matchList_iff s.toList r

/-- The quantifier `{n}` on a class matches the strings of `n` characters of
the class. -/
theorem Regex.matches_rep_cls (p : Char → Bool) (n : Nat) : ∀ s : List Char,
    Regex.Matches (Regex.rep (.cls p) n) s ↔ s.length = n ∧ ∀ c ∈ s, p c = true := by
  induction n with
  | zero =>
    intro s
    simp only [Regex.rep, Regex.matches_eps_iff]
    constructor
    · rintro rfl; simp
    · rintro ⟨h, _⟩; exact List.length_eq_zero.1 h
  | succ n ih =>
    intro s
    simp only [Regex.rep, Regex.matches_seq_iff, Regex.matches_cls_iff, ih]
    constructor
    · rintro ⟨a, b, rfl, ⟨c, rfl, hc⟩, hlen, hall⟩
      refine ⟨by simp [hlen], ?_⟩
      intro x hx
      simp only [List.singleton_append, List.mem_cons] at hx
      rcases hx with rfl | hx
      · exact hc
      · exact hall x hx
    · rintro ⟨hlen, hall⟩
      cases s with
      | nil => simp at hlen
      | cons c rest =>
        refine ⟨[c], rest, rfl, ⟨c, rfl, hall c (List.mem_cons_self _ _)⟩, ?_, ?_⟩
        · simpa using hlen
        · intro x hx; exact hall x (List.mem_cons_of_mem _ hx)

/-- The pattern `^\d{10}$` accepts exactly the strings of ten ASCII digits. -/
theorem tenDigitsPattern_test_iff (s : String) :
    tenDigitsPattern.test s = true ↔ s.length = 10 ∧ ∀ c ∈ s.toList, c.isDigit = true := by
  rw [Regex.test_iff]
  unfold tenDigitsPattern
  rw [Regex.matches_rep_cls]
  exact Iff.rfl

/-- A string the name pattern accepts starts with a character that is not an
ASCII digit. -/
theorem namePattern_first_not_digit (s : String) (h : namePattern.test s = true) :
    ∃ c rest, s.toList = c :: rest ∧ c.isDigit = false := by
  rw [Regex.test_iff, namePattern, Regex.matches_seq_iff] at h
  obtain ⟨a, b, hab, ha, _⟩ := h
  rw [Regex.matches_cls_iff] at ha
  obtain ⟨c, rfl, hc⟩ := ha
  refine ⟨c, b, by simpa using hab, ?_⟩
  simpa [reDigit] using hc

/-- A slice up to a count is no longer than the count. -/
theorem JSCount.geNat_slice {α : Type} (count : JSCount) (details : List α) :
    count.geNat (count.slice details).length := by
  cases count with
  | fin n => simp [JSCount.geNat, JSCount.slice, List.length_take]
  | infinity => trivial

/-- A slice is a prefix of the list. -/
theorem JSCount.slice_prefix {α : Type} (count : JSCount) (details : List α) :
    count.slice details <+: details := by
  cases count with
  | fin n => exact List.take_prefix n details
  | infinity => exact List.prefix_refl details

/-- Blocks are rendered only for a finite count below 2^32. -/
theorem fellowBlocks_eq_some (count : JSCount) (n : Nat) (h : fellowBlocks count = some n) :
    count = .fin n := by
  cases count with
  | fin m =>
    simp only [fellowBlocks] at h
    split at h
    · simp only [Option.some.injEq] at h; rw [h]
    · cases h
  | infinity => cases h

/-- Writing at an index extends the details to that index at most. -/
theorem setFellowAt_length (details : List (Option FellowVisitor)) (index : Nat)
    (update : FellowVisitor → FellowVisitor) :
    (setFellowAt details index update).length = max details.length (index + 1) := by
  unfold setFellowAt
  split
  · rename_i h
    simp only [List.length_set]
    omega
  · rename_i h
    simp only [List.length_append, List.length_replicate, List.length_singleton]
    omega

/-- Writing at an index below a finite count keeps the details within the
count. -/
theorem setFellowAt_within (count : JSCount) (details : List (Option FellowVisitor))
    (index n : Nat) (update : FellowVisitor → FellowVisitor)
    (hinv : count.geNat details.length) (hn : fellowBlocks count = some n)
    (hi : index < n) : count.geNat (setFellowAt details index update).length := by
  have hc := fellowBlocks_eq_some count n hn
  subst hc
  simp only [JSCount.geNat] at hinv ⊢
  rw [setFellowAt_length]
  omega

/-- The handler `handleChange` leaves the fellow-visitor fields alone. -/
theorem CreateVisitorEntry.handleChange_fellow (s : CreateVisitorState) (field : FormField)
    (value : String) :
    (CreateVisitorEntry.handleChange s field value).formData.fellow_visitors =
      s.formData.fellow_visitors ∧
    (CreateVisitorEntry.handleChange s field value).formData.fellow_visitors_details =
      s.formData.fellow_visitors_details := by
  cases field <;> exact ⟨rfl, rfl⟩

/-- The function `lookupHost` leaves `formData` alone and sends no body. -/
theorem CreateVisitorEntry.lookupHost_formData (auth : AuthCtx) (s : CreateVisitorState)
    (number : String) :
    (CreateVisitorEntry.lookupHost auth s number).1.formData = s.formData ∧
    ∀ r ∈ (CreateVisitorEntry.lookupHost auth s number).2, r.body = none := by
  unfold CreateVisitorEntry.lookupHost
  split
  · exact ⟨rfl, by simp⟩
  · refine ⟨rfl, ?_⟩
    intro r hr
    simp only [List.mem_singleton] at hr
    rw [hr]

/-- The master data continuation leaves the fellow-visitor fields alone. -/
theorem CreateVisitorEntry.fetchMasterDataSettle_fellow (s : CreateVisitorState)
    (outcome : Except String
      (Option (List String) × Option (List String) × Option (List String))) :
    (CreateVisitorEntry.fetchMasterDataSettle s outcome).formData.fellow_visitors =
      s.formData.fellow_visitors ∧
    (CreateVisitorEntry.fetchMasterDataSettle s outcome).formData.fellow_visitors_details =
      s.formData.fellow_visitors_details := by
  cases outcome with
  | error e => exact ⟨rfl, rfl⟩
  | ok d =>
    obtain ⟨cat, purp, id⟩ := d
    cases cat with
    | none => exact ⟨rfl, rfl⟩
    | some c =>
      cases purp with
      | none =>
        simp only [CreateVisitorEntry.fetchMasterDataSettle]
        split_ifs <;> exact ⟨rfl, rfl⟩
      | some p =>
        cases id with
        | none =>
          simp only [CreateVisitorEntry.fetchMasterDataSettle]
          split_ifs <;> exact ⟨rfl, rfl⟩
        | some i =>
          simp only [CreateVisitorEntry.fetchMasterDataSettle]
          split_ifs <;> exact ⟨rfl, rfl⟩

/-- A submit event is delivered only for a name the name pattern accepts. -/
theorem CreateVisitorEntry.submitAvailable_name (emailTypeValid : String → Bool)
    (s : CreateVisitorState) (h : CreateVisitorEntry.submitAvailable emailTypeValid s = true) :
    namePattern.test s.formData.name = true := by
  unfold CreateVisitorEntry.submitAvailable at h
  split at h
  · cases h
  · simp only [Bool.and_eq_true, requiredPattern] at h
    exact h.1.1.1.1.2.2

/-- One step keeps the details within the count, and every body it sends
carries a name the name pattern accepts. -/
theorem CreateVisitorEntry.step_inv (emailTypeValid : String → Bool) (auth : AuthCtx)
    (s s1 : CreateVisitorState) (e : CreateVisitorEvent)
    (reqs : List (ApiCall VisitorForm))
    (h : CreateVisitorEntry.step emailTypeValid auth s e = some (s1, reqs)) :
    (s.formData.fellow_visitors.geNat s.formData.fellow_visitors_details.length →
      s1.formData.fellow_visitors.geNat s1.formData.fellow_visitors_details.length) ∧
    (∀ r ∈ reqs, ∀ body, r.body = some body → namePattern.test body.name = true) := by
  cases e with
  | change field value =>
    simp only [CreateVisitorEntry.step] at h
    split at h
    · split at h
      · simp only [Option.some.injEq] at h
        have hl := CreateVisitorEntry.lookupHost_formData auth
          (CreateVisitorEntry.handleChange s field value) value
        have hc := CreateVisitorEntry.handleChange_fellow s field value
        rw [h] at hl
        refine ⟨?_, ?_⟩
        · intro hinv
          simp only at hl
          rw [hl.1, hc.1, hc.2]
          exact hinv
        · intro r hr body hb
          have := hl.2 r hr
          rw [this] at hb
          cases hb
      · simp only [Option.some.injEq, Prod.mk.injEq] at h
        obtain ⟨rfl, rfl⟩ := h
        have hc := CreateVisitorEntry.handleChange_fellow s field value
        refine ⟨?_, by simp⟩
        intro hinv
        rw [hc.1, hc.2]
        exact hinv
    · cases h
  | setFellowVisitors parsed =>
    simp only [CreateVisitorEntry.step] at h
    split at h
    · simp only [Option.some.injEq, Prod.mk.injEq] at h
      obtain ⟨rfl, rfl⟩ := h
      refine ⟨fun _ => ?_, by simp⟩
      exact JSCount.geNat_slice _ _
    · cases h
  | setFellowName index value =>
    simp only [CreateVisitorEntry.step] at h
    split at h
    · rename_i n hn
      split at h
      · rename_i hi
        simp only [Option.some.injEq, Prod.mk.injEq] at h
        obtain ⟨rfl, rfl⟩ := h
        refine ⟨fun hinv => ?_, by simp⟩
        simp only [CreateVisitorEntry.setFellowName]
        exact setFellowAt_within _ _ index n _ hinv hn hi
      · cases h
    · cases h
  | setFellowMobile index value =>
    simp only [CreateVisitorEntry.step] at h
    split at h
    · rename_i n hn
      split at h
      · rename_i hi
        simp only [Option.some.injEq, Prod.mk.injEq] at h
        obtain ⟨rfl, rfl⟩ := h
        refine ⟨fun hinv => ?_, by simp⟩
        simp only [CreateVisitorEntry.setFellowMobile]
        exact setFellowAt_within _ _ index n _ hinv hn hi
      · cases h
    · cases h
  | submit =>
    simp only [CreateVisitorEntry.step] at h
    split at h
    · rename_i hav
      have hname := CreateVisitorEntry.submitAvailable_name emailTypeValid s hav
      simp only [Option.some.injEq] at h
      unfold CreateVisitorEntry.handleSubmit at h
      split at h
      · simp only [Prod.mk.injEq] at h
        obtain ⟨rfl, rfl⟩ := h
        exact ⟨fun hinv => hinv, by simp⟩
      · split at h
        · simp only [Prod.mk.injEq] at h
          obtain ⟨rfl, rfl⟩ := h
          exact ⟨fun hinv => hinv, by simp⟩
        · split at h
          · simp only [Prod.mk.injEq] at h
            obtain ⟨rfl, rfl⟩ := h
            exact ⟨fun hinv => hinv, by simp⟩
          · simp only [Prod.mk.injEq] at h
            obtain ⟨rfl, rfl⟩ := h
            refine ⟨fun hinv => hinv, ?_⟩
            intro r hr body hb
            simp only [List.mem_singleton] at hr
            rw [hr] at hb
            simp only [Option.some.injEq] at hb
            rw [← hb]
            exact hname
    · cases h
  | submitSettled outcome =>
    simp only [CreateVisitorEntry.step] at h
    split at h
    · simp only [Option.some.injEq, Prod.mk.injEq] at h
      obtain ⟨rfl, rfl⟩ := h
      refine ⟨fun hinv => ?_, by simp⟩
      cases outcome with
      | ok message => simp [CreateVisitorEntry.handleSubmitSettle, JSCount.geNat]
      | error msg => exact hinv
    · cases h
  | lookupSettled outcome =>
    simp only [CreateVisitorEntry.step, Option.some.injEq, Prod.mk.injEq] at h
    obtain ⟨rfl, rfl⟩ := h
    refine ⟨fun hinv => ?_, by simp⟩
    unfold CreateVisitorEntry.lookupHostSettle
    split <;> exact hinv
  | masterDataSettled outcome =>
    simp only [CreateVisitorEntry.step, Option.some.injEq, Prod.mk.injEq] at h
    obtain ⟨rfl, rfl⟩ := h
    have hc := CreateVisitorEntry.fetchMasterDataSettle_fellow s outcome
    refine ⟨fun hinv => ?_, by simp⟩
    rw [hc.1, hc.2]
    exact hinv
  | closeError =>
    simp only [CreateVisitorEntry.step] at h
    split at h
    · simp only [Option.some.injEq, Prod.mk.injEq] at h
      obtain ⟨rfl, rfl⟩ := h
      exact ⟨fun hinv => hinv, by simp⟩
    · cases h
  | closeSuccess =>
    simp only [CreateVisitorEntry.step] at h
    split at h
    · simp only [Option.some.injEq, Prod.mk.injEq] at h
      obtain ⟨rfl, rfl⟩ := h
      exact ⟨fun hinv => hinv, by simp⟩
    · cases h

/-- A run keeps the details within the count, and every body it sends
carries a name the name pattern accepts. -/
theorem CreateVisitorEntry.run_inv (emailTypeValid : String → Bool) (auth : AuthCtx)
    (es : List CreateVisitorEvent) :
    ∀ (s s1 : CreateVisitorState) (reqs : List (ApiCall VisitorForm)),
      CreateVisitorEntry.run emailTypeValid auth s es = some (s1, reqs) →
      (s.formData.fellow_visitors.geNat s.formData.fellow_visitors_details.length →
        s1.formData.fellow_visitors.geNat s1.formData.fellow_visitors_details.length) ∧
      (∀ r ∈ reqs, ∀ body, r.body = some body → namePattern.test body.name = true) := by
  induction es with
  | nil =>
    intro s s1 reqs h
    simp only [CreateVisitorEntry.run, Option.some.injEq, Prod.mk.injEq] at h
    obtain ⟨rfl, rfl⟩ := h
    exact ⟨fun hinv => hinv, by simp⟩
  | cons e es ih =>
    intro s s1 reqs h
    simp only [CreateVisitorEntry.run] at h
    cases hstep : CreateVisitorEntry.step emailTypeValid auth s e with
    | none => simp [hstep] at h
    | some p =>
      obtain ⟨sm, r1⟩ := p
      simp only [hstep] at h
      cases hrun : CreateVisitorEntry.run emailTypeValid auth sm es with
      | none => simp [hrun] at h
      | some q =>
        obtain ⟨s2, r2⟩ := q
        simp only [hrun, Option.some.injEq, Prod.mk.injEq] at h
        obtain ⟨rfl, rfl⟩ := h
        have h1 := CreateVisitorEntry.step_inv emailTypeValid auth s sm e r1 hstep
        have h2 := ih sm s2 r2 hrun
        refine ⟨fun hinv => h2.1 (h1.1 hinv), ?_⟩
        intro r hr body hb
        rcases List.mem_append.1 hr with hr | hr
        · exact h1.2 r hr body hb
        · exact h2.2 r hr body hb

/-- The model does issue create-entry requests: a form filled in with valid
values and submitted sends one POST to `/api/visitors` after the master data
requests of the mount. -/
theorem CreateVisitorEntry.run_submit_example :
    ((CreateVisitorEntry.mountAndRun (fun _ => true)
      ⟨some ⟨"S1", "Guard", some "SECURITY"⟩, some "tok"⟩
      [.change .name "Asha Rao", .change .mobile "9876543210", .change .id_number "ID42",
       .change .emp_mobile_no "9123456780", .submit]).map
        (fun r => r.2.map (fun c => (c.endpoint, c.method)))) =
      some [("/api/master-data/visitor_category_master", "GET"),
            ("/api/master-data/purpose_master", "GET"),
            ("/api/master-data/id_master", "GET"),
            ("/api/users/host_lookup?number=9123456780", "GET"),
            ("/api/visitors", "POST")] := by
  decide

/-- An accepted checkout was made on an approved entry without a checkout
timestamp, and only sets that timestamp. -/
theorem VisitorWorkflow.checkout_ok (entry checkedOut : VisitorEntry)
    (requester : Option User) (now : Nat)
    (h : VisitorWorkflow.checkout entry requester now = .ok checkedOut) :
    permitted requester "CHECKOUT_VISITOR" = .ok true ∧
    entry.approvalStatus = .Approved ∧ entry.checkoutTimestamp = none ∧
    checkedOut = { entry with checkoutTimestamp := some now } := by
  unfold VisitorWorkflow.checkout at h
  split at h
  · rename_i hp
    split at h
    · rename_i hc
      simp only [Except.ok.injEq] at h
      exact ⟨hp, hc.1, hc.2, h.symm⟩
    · cases h
  · cases h

/-- A checkout of an entry that has a checkout timestamp is an error. -/
theorem VisitorWorkflow.checkout_again (entry : VisitorEntry) (requester : Option User)
    (t later : Nat) (h : entry.checkoutTimestamp = some t) :
    ∃ msg, VisitorWorkflow.checkout entry requester later = .error msg := by
  unfold VisitorWorkflow.checkout
  split
  · split
    · rename_i hc
      rw [h] at hc
      cases hc.2
    · exact ⟨_, rfl⟩
  · exact ⟨_, rfl⟩

/-- After the entries of a card number are replaced by an entry of that
card number, the lookup of the card number finds the replacement. -/
theorem find_after_replace (entries : List VisitorEntry) (cardNo : String)
    (entry checkedOut : VisitorEntry) (hc : checkedOut.cardNo = cardNo)
    (h : entries.find? (fun e => e.cardNo == cardNo) = some entry) :
    (entries.map (fun e => if e.cardNo == cardNo then checkedOut else e)).find?
      (fun e => e.cardNo == cardNo) = some checkedOut := by
  induction entries with
  | nil => simp at h
  | cons e rest ih =>
    simp only [List.map_cons, List.find?_cons] at h ⊢
    by_cases he : (e.cardNo == cardNo) = true
    · simp [he, hc]
    · simp only [Bool.not_eq_true] at he
      simp only [he, Bool.false_eq_true, if_false] at h ⊢
      exact ih h

/-- A second checkout of a card number that was checked out is answered
with an error and changes no entry. -/
theorem VisitorWorkflow.checkoutVisitor_twice (entries : List VisitorEntry)
    (cardNo : String) (requester : Option User) (now later : Nat) (message : String)
    (h : (VisitorWorkflow.checkoutVisitor entries cardNo requester now).1 = .ok message) :
    ∃ msg,
      VisitorWorkflow.checkoutVisitor
          (VisitorWorkflow.checkoutVisitor entries cardNo requester now).2
          cardNo requester later =
        (.error msg, (VisitorWorkflow.checkoutVisitor entries cardNo requester now).2) := by
  unfold VisitorWorkflow.checkoutVisitor at h ⊢
  cases hf : entries.find? (fun e => e.cardNo == cardNo) with
  | none => simp [hf] at h
  | some entry =>
    simp only [hf] at h ⊢
    cases hco : VisitorWorkflow.checkout entry requester now with
    | error msg => simp [hco] at h
    | ok checkedOut =>
      simp only [hco]
      obtain ⟨_, _, _, hck⟩ := VisitorWorkflow.checkout_ok entry checkedOut requester now hco
      have hcard : checkedOut.cardNo = cardNo := by
        rw [hck]
        have := List.find?_some hf
        simpa using this
      rw [find_after_replace entries cardNo entry checkedOut hcard hf]
      have hts : checkedOut.checkoutTimestamp = some now := by rw [hck]
      obtain ⟨msg, hmsg⟩ := VisitorWorkflow.checkout_again checkedOut requester now later hts
      exact ⟨msg, by simp only [hmsg]⟩

/-- Replacing the value of a key in place leaves the lookup of every other
key as it was. -/
theorem lookup_map_replace (rest : List (String × String)) (key value other : String)
    (h : other ≠ key) :
    List.lookup other (rest.map (fun kv => if kv.1 == key then (key, value) else kv)) =
      List.lookup other rest := by
  induction rest with
  | nil => rfl
  | cons kv rest ih =>
    obtain ⟨k, v⟩ := kv
    by_cases hk : k = key
    · subst hk
      have hb : (other == k) = false := by simpa using h
      simp only [List.map_cons, beq_self_eq_true, if_true, List.lookup_cons, hb]
      exact ih
    · have hb : (k == key) = false := by simpa using hk
      simp only [List.map_cons, hb, Bool.false_eq_true, if_false, List.lookup_cons]
      cases hok : (other == k) with
      | true => rfl
      | false => exact ih

/-- Appending a key leaves the lookup of every other key as it was. -/
theorem lookup_append_other (rest : List (String × String)) (key value other : String)
    (h : other ≠ key) :
    List.lookup other (rest ++ [(key, value)]) = List.lookup other rest := by
  induction rest with
  | nil =>
    have hb : (other == key) = false := by simpa using h
    simp [List.lookup, hb]
  | cons kv rest ih =>
    obtain ⟨k, v⟩ := kv
    simp only [List.cons_append, List.lookup_cons]
    cases hok : (other == k) with
    | true => rfl
    | false => exact ih

/-- Storing under a key leaves every other key as it was. -/
theorem getItem_setItem_other (st : Storage) (key value other : String) (h : other ≠ key) :
    (st.setItem key value).getItem other = st.getItem other := by
  unfold Storage.setItem
  split
  · exact lookup_map_replace st key value other h
  · exact lookup_append_other st key value other h

/-- After `markReload` the flag reads "true". -/
theorem Dashboard.markReload_flag (sessionStorage : Storage) :
    (Dashboard.markReload sessionStorage).getItem "reloading" = some "true" :=
  getItem_setItem_self _ _ _

/-- A string of ASCII digits has as many UTF-16 code units as characters. -/
theorem utf16Length_digits (cs : List Char) (h : ∀ c ∈ cs, c.isDigit = true) :
    ∀ n, cs.foldl (fun n c => n + (if c.toNat < 0x10000 then 1 else 2)) n = n + cs.length := by
  induction cs with
  | nil => intro n; rfl
  | cons c rest ih =>
    intro n
    have hc := h c (List.mem_cons_self _ _)
    have hlt : c.toNat < 0x10000 := by
      simp only [Char.isDigit, Bool.and_eq_true, decide_eq_true_eq] at hc
      have := hc.2
      simp only [Char.toNat]
      have h2 : c.val.toNat ≤ 57 := this
      omega
    simp only [List.foldl_cons, hlt, if_true, List.length_cons]
    rw [ih (fun x hx => h x (List.mem_cons_of_mem _ hx))]
    omega

/-- A string the ten-digit pattern accepts has ten UTF-16 code units and is
not empty. -/
theorem tenDigits_utf16Length (s : String) (h : tenDigitsPattern.test s = true) :
    utf16Length s = 10 ∧ strTruthy s = true := by
  obtain ⟨hlen, hall⟩ := (tenDigitsPattern_test_iff s).1 h
  refine ⟨?_, ?_⟩
  · unfold utf16Length
    rw [utf16Length_digits s.toList hall 0, Nat.zero_add]
    exact hlen
  · simp only [strTruthy, bne_iff_ne, ne_eq]
    intro hs
    rw [hs] at hlen
    exact absurd hlen (by decide)

/-- The sidebar and the resolver read only the role of the identity. -/
theorem sidebar_of_role (u : User) (role : String) (caps : List String)
    (hu : u.user_role = some role) (ht : strTruthy role = true)
    (hget : permissionsGet role = .array caps) :
    sidebarPermissions u = .ok (caps.filter (fun p => !hiddenPermissions.contains p)) ∧
    (∀ p, checkPermission (some u) p = .ok (.bool (caps.contains p))) := by
  refine ⟨?_, ?_⟩
  · simp [sidebarPermissions, userPermissions, hu, hget, Except.map]
  · intro p
    simp [checkPermission, hu, ht, hget]

/-- Navigation stays within the empty view and the sidebar buttons. -/
theorem Dashboard.navRun_within (u : User) (buttons : List String)
    (hb : sidebarButtons u = .ok buttons) (es : List DashboardEvent) :
    ∀ v0 v, (v0 = "" ∨ v0 ∈ buttons) → Dashboard.navRun u v0 es = some v →
      v = "" ∨ v ∈ buttons := by
  induction es with
  | nil =>
    intro v0 v h0 h
    simp only [Dashboard.navRun, Option.some.injEq] at h
    rw [← h]; exact h0
  | cons e es ih =>
    intro v0 v h0 h
    simp only [Dashboard.navRun] at h
    cases hs : Dashboard.navStep u v0 e with
    | none => simp [hs] at h
    | some v1 =>
      simp only [hs] at h
      refine ih v1 v ?_ h
      simp only [Dashboard.navStep, hb] at hs
      cases e with
      | clickDashboard =>
        simp only [Option.some.injEq] at hs
        exact Or.inl hs.symm
      | clickSidebar perm =>
        simp only at hs
        split at hs
        · rename_i hc
          simp only [Option.some.injEq] at hs
          rw [← hs]
          right
          simpa using hc
        · cases hs

/-- For each entry of the table, the capabilities that are not hidden are
distinct, have a button label and select a view other than the welcome
page. -/
theorem sidebar_entries_facts (role : String) (caps : List String)
    (h : (role, caps) ∈ PERMISSIONS) :
    (caps.filter (fun p => !hiddenPermissions.contains p)).Nodup ∧
    (caps.filter (fun p => !hiddenPermissions.contains p)).filter
      (fun p => (getButtonLabel p).isSome) =
      caps.filter (fun p => !hiddenPermissions.contains p) ∧
    (∀ p ∈ caps.filter (fun p => !hiddenPermissions.contains p),
      (getButtonLabel p).isSome = true ∧ renderView p ≠ .Welcome) := by
  simp only [PERMISSIONS, List.mem_cons, Prod.mk.injEq, List.mem_singleton,
    List.not_mem_nil, or_false] at h
  rcases h with ⟨_, rfl⟩ | ⟨_, rfl⟩ | ⟨_, rfl⟩ | ⟨_, rfl⟩ <;>
    exact ⟨by decide, by decide, by decide⟩

/-! ## The permission resolver -/

/-- C1: for an identity whose `user_role` is one of the four declared roles,
`checkPermission` returns a boolean, and it is `true` exactly when the
capability is listed under that role in `PERMISSIONS`; each declared role
has an entry in the table. -/
theorem checkPermission_iff_listed (u : User) (role c : String)
    (hrole : role ∈ declaredRoles) (hu : u.user_role = some role) :
    (∃ caps, (role, caps) ∈ PERMISSIONS) ∧
    (checkPermission (some u) c = .ok (.bool true) ↔
      ∃ caps, (role, caps) ∈ PERMISSIONS ∧ c ∈ caps) ∧
    (checkPermission (some u) c = .ok (.bool false) ↔
      ¬ ∃ caps, (role, caps) ∈ PERMISSIONS ∧ c ∈ caps) := by
  obtain ⟨caps, hmem, hget, huniq⟩ := permissionsGet_declared role hrole
  have ht := strTruthy_declared role hrole
  have hcp : checkPermission (some u) c = .ok (.bool (caps.contains c)) := by
    simp [checkPermission, hu, ht, hget]
  refine ⟨⟨caps, hmem⟩, ?_, ?_⟩
  · rw [hcp]
    constructor
    · intro h
      refine ⟨caps, hmem, ?_⟩
      simpa using h
    · rintro ⟨caps2, h2, hc⟩
      rw [huniq caps2 h2] at hc
      simpa using hc
  · rw [hcp]
    constructor
    · intro h
      rintro ⟨caps2, h2, hc⟩
      rw [huniq caps2 h2] at hc
      simp at h
      exact h hc
    · intro h
      have : c ∉ caps := fun hc => h ⟨caps, hmem, hc⟩
      simpa using this

/-- An instance of C1: the HR identity E7 and the capability LOCK_USER. -/
theorem checkPermission_iff_listed_witness :
    (∃ caps, ("HR", caps) ∈ PERMISSIONS) ∧
    (checkPermission (some ⟨"E7", "Asha", some "HR"⟩) "LOCK_USER" = .ok (.bool true) ↔
      ∃ caps, ("HR", caps) ∈ PERMISSIONS ∧ "LOCK_USER" ∈ caps) ∧
    (checkPermission (some ⟨"E7", "Asha", some "HR"⟩) "LOCK_USER" = .ok (.bool false) ↔
      ¬ ∃ caps, ("HR", caps) ∈ PERMISSIONS ∧ "LOCK_USER" ∈ caps) :=
  checkPermission_iff_listed ⟨"E7", "Asha", some "HR"⟩ "HR" "LOCK_USER" (by decide) rfl

/-- C2 (counterexample): for the role "GUEST", which has no entry in
`PERMISSIONS`, `checkPermission` returns `undefined`, not the boolean
`false`. -/
theorem checkPermission_unlisted_role_undefined :
    checkPermission (some ⟨"E9", "Ravi", some "GUEST"⟩) "VIEW_USERS" = .ok .undefined ∧
    checkPermission (some ⟨"E9", "Ravi", some "GUEST"⟩) "VIEW_USERS" ≠ .ok (.bool false) := by
  decide

/-- C2 (amended): when the identity is absent, has no (or an empty)
`user_role`, or has a role for which `PERMISSIONS[user_role]` is undefined,
`checkPermission` returns a falsy value for every capability: the boolean
`false` in the first two cases and `undefined` in the third. -/
theorem checkPermission_falsy_without_entry (user : Option User) (c : String)
    (h : user = none ∨
      (∃ u, user = some u ∧ (u.user_role = none ∨ u.user_role = some "")) ∨
      (∃ u role, user = some u ∧ u.user_role = some role ∧ role ≠ "" ∧
        PERMISSIONS.lookup role = none ∧ role ∉ objectPrototypeKeys)) :
    permitted user c = .ok false ∧
    (checkPermission user c = .ok (.bool false) ↔
      (user = none ∨ ∃ u, user = some u ∧ (u.user_role = none ∨ u.user_role = some ""))) ∧
    (checkPermission user c = .ok .undefined ↔
      ∃ u role, user = some u ∧ u.user_role = some role ∧ role ≠ "" ∧
        PERMISSIONS.lookup role = none ∧ role ∉ objectPrototypeKeys) := by
  rcases h with rfl | ⟨u, rfl, hr⟩ | ⟨u, role, rfl, hr, hne, hlk, hproto⟩
  · simp [permitted, checkPermission, Except.map, JSValue.truthy]
  · rcases hr with hr | hr <;>
      simp [permitted, checkPermission, Except.map, JSValue.truthy, hr, strTruthy]
  · have ht : strTruthy role = true := by simp [strTruthy, hne]
    have hget : permissionsGet role = .undefined := by
      simp [permissionsGet, hlk, hproto]
    have hcp : checkPermission (some u) c = .ok .undefined := by
      simp [checkPermission, hr, ht, hget]
    refine ⟨by simp [permitted, hcp, Except.map, JSValue.truthy], ?_, ?_⟩
    · simp [hcp, hr, hne]
    · simp only [hcp, true_iff]
      exact ⟨u, role, rfl, hr, hne, hlk, hproto⟩

/-- An instance of the amended C2: the identity E9 with the role GUEST. -/
theorem checkPermission_falsy_without_entry_witness :
    permitted (some ⟨"E9", "Ravi", some "GUEST"⟩) "VIEW_USERS" = .ok false ∧
    (checkPermission (some ⟨"E9", "Ravi", some "GUEST"⟩) "VIEW_USERS" = .ok (.bool false) ↔
      ((some ⟨"E9", "Ravi", some "GUEST"⟩ : Option User) = none ∨
        ∃ u, (some ⟨"E9", "Ravi", some "GUEST"⟩ : Option User) = some u ∧
          (u.user_role = none ∨ u.user_role = some ""))) ∧
    (checkPermission (some ⟨"E9", "Ravi", some "GUEST"⟩) "VIEW_USERS" = .ok .undefined ↔
      ∃ u role, (some ⟨"E9", "Ravi", some "GUEST"⟩ : Option User) = some u ∧
        u.user_role = some role ∧ role ≠ "" ∧
        PERMISSIONS.lookup role = none ∧ role ∉ objectPrototypeKeys) :=
  checkPermission_falsy_without_entry (some ⟨"E9", "Ravi", some "GUEST"⟩) "VIEW_USERS"
    (Or.inr (Or.inr ⟨⟨"E9", "Ravi", some "GUEST"⟩, "GUEST", rfl, rfl, by decide, by decide,
      by decide⟩))

/-- C3 (counterexample): for a SECURITY identity the APPROVE_VISITOR control
is not present: `checkPermission` is `false` and the sidebar has no such
button. -/
theorem security_lacks_approve_visitor :
    checkPermission (some ⟨"S1", "Guard", some "SECURITY"⟩) "APPROVE_VISITOR" =
      .ok (.bool false) ∧
    ∃ bs, sidebarButtons ⟨"S1", "Guard", some "SECURITY"⟩ = .ok bs ∧
      "APPROVE_VISITOR" ∉ bs := by
  refine ⟨by decide, _, rfl, by decide⟩

/-- C3 (amended): for an identity with role SECURITY, the CREATE_USER,
VIEW_USERS and APPROVE_VISITOR controls are absent (`checkPermission` is
`false`, no sidebar button) and the CHECKOUT_VISITOR control is present
(`checkPermission` is `true`, sidebar button shown); the approvals view is
reached through the VIEW_PENDING_APPROVALS button, which is present. -/
theorem security_controls (empid empname : String) :
    checkPermission (some ⟨empid, empname, some "SECURITY"⟩) "CREATE_USER" = .ok (.bool false) ∧
    checkPermission (some ⟨empid, empname, some "SECURITY"⟩) "VIEW_USERS" = .ok (.bool false) ∧
    checkPermission (some ⟨empid, empname, some "SECURITY"⟩) "APPROVE_VISITOR" = .ok (.bool false) ∧
    checkPermission (some ⟨empid, empname, some "SECURITY"⟩) "CHECKOUT_VISITOR" = .ok (.bool true) ∧
    checkPermission (some ⟨empid, empname, some "SECURITY"⟩) "VIEW_PENDING_APPROVALS" =
      .ok (.bool true) ∧
    sidebarButtons ⟨empid, empname, some "SECURITY"⟩ =
      .ok ["CREATE_VISITOR_ENTRY", "VIEW_ALL_VISITORS", "CHECKOUT_VISITOR",
        "VIEW_PENDING_APPROVALS", "VIEW_REPORTS"] ∧
    "CREATE_USER" ∉ ["CREATE_VISITOR_ENTRY", "VIEW_ALL_VISITORS", "CHECKOUT_VISITOR",
      "VIEW_PENDING_APPROVALS", "VIEW_REPORTS"] ∧
    "VIEW_USERS" ∉ ["CREATE_VISITOR_ENTRY", "VIEW_ALL_VISITORS", "CHECKOUT_VISITOR",
      "VIEW_PENDING_APPROVALS", "VIEW_REPORTS"] ∧
    "APPROVE_VISITOR" ∉ ["CREATE_VISITOR_ENTRY", "VIEW_ALL_VISITORS", "CHECKOUT_VISITOR",
      "VIEW_PENDING_APPROVALS", "VIEW_REPORTS"] ∧
    renderView "VIEW_PENDING_APPROVALS" = .ApproveVisitor := by
  have hs : sidebarButtons ⟨empid, empname, some "SECURITY"⟩ =
      .ok ["CREATE_VISITOR_ENTRY", "VIEW_ALL_VISITORS", "CHECKOUT_VISITOR",
        "VIEW_PENDING_APPROVALS", "VIEW_REPORTS"] := by
    show sidebarButtons ⟨"", "", some "SECURITY"⟩ = _
    decide
  refine ⟨?_, ?_, ?_, ?_, ?_, hs, by decide, by decide, by decide, by decide⟩
  · show checkPermission (some ⟨"", "", some "SECURITY"⟩) _ = _; decide
  · show checkPermission (some ⟨"", "", some "SECURITY"⟩) _ = _; decide
  · show checkPermission (some ⟨"", "", some "SECURITY"⟩) _ = _; decide
  · show checkPermission (some ⟨"", "", some "SECURITY"⟩) _ = _; decide
  · show checkPermission (some ⟨"", "", some "SECURITY"⟩) _ = _; decide

/-! ## Lock and unlock in `ViewUsers` -/

/-- C4: `ViewUsers` offers the Lock button of a row exactly when the account
status is "A" and `checkPermission(requester, "LOCK_USER")` is `true`, and
the Unlock button exactly when the status is "L" and
`checkPermission(requester, "UNLOCK_USER")` is `true`; hence, from mount on
and whatever the events, a requester lacking LOCK_USER issues no request to
`/api/users/lock`, and one lacking UNLOCK_USER none to `/api/users/unlock`. -/
theorem lock_unlock_gated (auth : AuthCtx) :
    (∀ user, ViewUsers.lockOffered auth user = .ok true ↔
      user.status = "A" ∧ checkPermission auth.user "LOCK_USER" = .ok (.bool true)) ∧
    (∀ user, ViewUsers.unlockOffered auth user = .ok true ↔
      user.status = "L" ∧ checkPermission auth.user "UNLOCK_USER" = .ok (.bool true)) ∧
    (checkPermission auth.user "LOCK_USER" ≠ .ok (.bool true) →
      ∀ es s reqs, ViewUsers.mountAndRun auth es = some (s, reqs) →
        ∀ r ∈ reqs, r.endpoint ≠ "/api/users/lock") ∧
    (checkPermission auth.user "UNLOCK_USER" ≠ .ok (.bool true) →
      ∀ es s reqs, ViewUsers.mountAndRun auth es = some (s, reqs) →
        ∀ r ∈ reqs, r.endpoint ≠ "/api/users/unlock") := by
  refine ⟨lockOffered_eq_true_iff auth, unlockOffered_eq_true_iff auth, ?_, ?_⟩
  · intro hno es s reqs h r hr
    simp only [ViewUsers.mountAndRun, Option.map_eq_some'] at h
    obtain ⟨⟨s1, r1⟩, hrun, h⟩ := h
    simp only [Prod.mk.injEq] at h
    obtain ⟨rfl, rfl⟩ := h
    have := run_no_lock auth hno es _ s1 r1 (by simp [ViewUsers.fetchUsersStart, ViewUsersState.init]) hrun
    rcases List.mem_append.1 hr with hr | hr
    · simp [ViewUsers.fetchUsersStart] at hr
      simp [hr]
    · exact this.2 r hr
  · intro hno es s reqs h r hr
    simp only [ViewUsers.mountAndRun, Option.map_eq_some'] at h
    obtain ⟨⟨s1, r1⟩, hrun, h⟩ := h
    simp only [Prod.mk.injEq] at h
    obtain ⟨rfl, rfl⟩ := h
    have := run_no_unlock auth hno es _ s1 r1 (by simp [ViewUsers.fetchUsersStart, ViewUsersState.init]) hrun
    rcases List.mem_append.1 hr with hr | hr
    · simp [ViewUsers.fetchUsersStart] at hr
      simp [hr]
    · exact this.2 r hr

/-- An instance of C4: an HR requester is offered Lock on an active and
Unlock on a locked account; a SECURITY requester, lacking both capabilities,
issues only the listing request. -/
theorem lock_unlock_gated_witness :
    ViewUsers.lockOffered ⟨some ⟨"E7", "Asha", some "HR"⟩, some "tok"⟩
      ⟨"E2", "Bina", "USER", "A"⟩ = .ok true ∧
    ViewUsers.unlockOffered ⟨some ⟨"E7", "Asha", some "HR"⟩, some "tok"⟩
      ⟨"E3", "Chand", "SECURITY", "L"⟩ = .ok true ∧
    (⟨"/api/users", "GET", none, some "tok"⟩ : Request).endpoint ≠ "/api/users/lock" ∧
    (⟨"/api/users", "GET", none, some "tok"⟩ : Request).endpoint ≠ "/api/users/unlock" :=
  ⟨((lock_unlock_gated ⟨some ⟨"E7", "Asha", some "HR"⟩, some "tok"⟩).1
      ⟨"E2", "Bina", "USER", "A"⟩).2 ⟨rfl, by decide⟩,
   ((lock_unlock_gated ⟨some ⟨"E7", "Asha", some "HR"⟩, some "tok"⟩).2.1
      ⟨"E3", "Chand", "SECURITY", "L"⟩).2 ⟨rfl, by decide⟩,
   (lock_unlock_gated ⟨some ⟨"S1", "Guard", some "SECURITY"⟩, some "tok"⟩).2.2.1 (by decide)
      [.usersSettled (.ok (some [⟨"E2", "Bina", "USER", "A"⟩]))]
      { ViewUsersState.init with users := [⟨"E2", "Bina", "USER", "A"⟩], loading := false }
      [⟨"/api/users", "GET", none, some "tok"⟩] (by decide) _ (List.mem_singleton.2 rfl),
   (lock_unlock_gated ⟨some ⟨"S1", "Guard", some "SECURITY"⟩, some "tok"⟩).2.2.2 (by decide)
      [.usersSettled (.ok (some [⟨"E3", "Chand", "SECURITY", "L"⟩]))]
      { ViewUsersState.init with users := [⟨"E3", "Chand", "SECURITY", "L"⟩], loading := false }
      [⟨"/api/users", "GET", none, some "tok"⟩] (by decide) _ (List.mem_singleton.2 rfl)⟩

/-- C5: for a target whose role is ADMIN or HR, submitting either modal with
an empty master password sets the error "Please enter the master password."
and does not call `onConfirm`, so no request is issued; and the row's Lock /
Unlock button only opens the modal for that target, issuing no request. -/
theorem elevated_empty_password_rejected (auth : AuthCtx) (s : ViewUsersState)
    (target : ManagedUser) (confirmed : Bool)
    (hrole : target.user_role = "ADMIN" ∨ target.user_role = "HR")
    (hl : s.lockModal.masterPassword = "") (hu : s.unlockModal.masterPassword = "") :
    LockUserModal.handleSubmit s.lockModal =
      ({ s.lockModal with error := "Please enter the master password." }, none) ∧
    UnlockUserModal.handleSubmit s.unlockModal =
      ({ s.unlockModal with error := "Please enter the master password." }, none) ∧
    ViewUsers.lockModalSubmit auth s target =
      ({ s with lockModal :=
          { s.lockModal with error := "Please enter the master password." } }, []) ∧
    ViewUsers.unlockModalSubmit auth s target =
      ({ s with unlockModal :=
          { s.unlockModal with error := "Please enter the master password." } }, []) ∧
    ViewUsers.clickLock auth s target confirmed =
      ({ s with selectedUser := some target, showLockModal := true }, []) ∧
    ViewUsers.clickUnlock auth s target confirmed =
      ({ s with selectedUser := some target, showUnlockModal := true }, []) := by
  have he : elevated target = true := (elevated_iff target).2 hrole
  have h1 : LockUserModal.handleSubmit s.lockModal =
      ({ s.lockModal with error := "Please enter the master password." }, none) := by
    simp [LockUserModal.handleSubmit, hl, strTruthy]
  have h2 : UnlockUserModal.handleSubmit s.unlockModal =
      ({ s.unlockModal with error := "Please enter the master password." }, none) := by
    simp [UnlockUserModal.handleSubmit, hu, strTruthy]
  refine ⟨h1, h2, ?_, ?_, ?_, ?_⟩
  · simp [ViewUsers.lockModalSubmit, h1]
  · simp [ViewUsers.unlockModalSubmit, h2]
  · simp [ViewUsers.clickLock, he]
  · simp [ViewUsers.clickUnlock, he]

/-- An instance of C5: the ADMIN target E1 and freshly mounted modals. -/
theorem elevated_empty_password_rejected_witness :
    LockUserModal.handleSubmit ModalState.init =
      ({ ModalState.init with error := "Please enter the master password." }, none) ∧
    UnlockUserModal.handleSubmit ModalState.init =
      ({ ModalState.init with error := "Please enter the master password." }, none) ∧
    ViewUsers.lockModalSubmit ⟨some ⟨"E7", "Asha", some "HR"⟩, some "tok"⟩
        { ViewUsersState.init with loading := false } ⟨"E1", "Dev", "ADMIN", "A"⟩ =
      ({ ViewUsersState.init with
          loading := false
          lockModal :=
            { ModalState.init with error := "Please enter the master password." } }, []) ∧
    ViewUsers.unlockModalSubmit ⟨some ⟨"E7", "Asha", some "HR"⟩, some "tok"⟩
        { ViewUsersState.init with loading := false } ⟨"E1", "Dev", "ADMIN", "A"⟩ =
      ({ ViewUsersState.init with
          loading := false
          unlockModal :=
            { ModalState.init with error := "Please enter the master password." } }, []) ∧
    ViewUsers.clickLock ⟨some ⟨"E7", "Asha", some "HR"⟩, some "tok"⟩
        { ViewUsersState.init with loading := false } ⟨"E1", "Dev", "ADMIN", "A"⟩ true =
      ({ ViewUsersState.init with
          loading := false
          selectedUser := some ⟨"E1", "Dev", "ADMIN", "A"⟩, showLockModal := true }, []) ∧
    ViewUsers.clickUnlock ⟨some ⟨"E7", "Asha", some "HR"⟩, some "tok"⟩
        { ViewUsersState.init with loading := false } ⟨"E1", "Dev", "ADMIN", "A"⟩ true =
      ({ ViewUsersState.init with
          loading := false
          selectedUser := some ⟨"E1", "Dev", "ADMIN", "A"⟩, showUnlockModal := true }, []) :=
  elevated_empty_password_rejected ⟨some ⟨"E7", "Asha", some "HR"⟩, some "tok"⟩
    { ViewUsersState.init with loading := false } ⟨"E1", "Dev", "ADMIN", "A"⟩ true
    (Or.inl rfl) rfl rfl

/-- C6: for a target whose role is neither ADMIN nor HR, a confirmed lock or
unlock calls `handleAction` with no master password and issues one POST
whose payload is exactly `{empid}`; in general the payload has a
`master_password` field exactly when a non-empty master password was
supplied, and then it carries that password. -/
theorem non_elevated_proceeds_without_password (auth : AuthCtx) (s : ViewUsersState)
    (target : ManagedUser) (empid : String) (masterPassword : Option String)
    (hrole : target.user_role ≠ "ADMIN" ∧ target.user_role ≠ "HR") :
    ViewUsers.clickLock auth s target true =
      ViewUsers.handleAction auth s "/api/users/lock" target.empid none ∧
    (ViewUsers.clickLock auth s target true).2 =
      [{ endpoint := "/api/users/lock", method := "POST",
         body := some [("empid", target.empid)], token := auth.token }] ∧
    ViewUsers.clickUnlock auth s target true =
      ViewUsers.handleAction auth s "/api/users/unlock" target.empid none ∧
    (ViewUsers.clickUnlock auth s target true).2 =
      [{ endpoint := "/api/users/unlock", method := "POST",
         body := some [("empid", target.empid)], token := auth.token }] ∧
    (ViewUsers.payload empid masterPassword).lookup "empid" = some empid ∧
    (((ViewUsers.payload empid masterPassword).lookup "master_password").isSome = true ↔
      ∃ p, masterPassword = some p ∧ p ≠ "") ∧
    (ViewUsers.payload empid masterPassword).lookup "master_password" =
      (if masterPassword = some "" then none else masterPassword) := by
  have he : elevated target = false := by
    cases h : elevated target with
    | false => rfl
    | true => rcases (elevated_iff target).1 h with h1 | h1
              · exact absurd h1 hrole.1
              · exact absurd h1 hrole.2
  refine ⟨?_, ?_, ?_, ?_, ?_, ?_, ?_⟩
  · simp [ViewUsers.clickLock, he]
  · simp [ViewUsers.clickLock, he, ViewUsers.handleAction, ViewUsers.payload, optTruthy]
  · simp [ViewUsers.clickUnlock, he]
  · simp [ViewUsers.clickUnlock, he, ViewUsers.handleAction, ViewUsers.payload, optTruthy]
  · unfold ViewUsers.payload
    split <;> simp [List.lookup]
  · cases masterPassword with
    | none => simp [ViewUsers.payload, optTruthy, List.lookup]
    | some p =>
      by_cases hp : p = ""
      · subst hp
        have : ("master_password" == "empid") = false := by decide
        simp [ViewUsers.payload, optTruthy, strTruthy, List.lookup, this]
      · have : ("master_password" == "empid") = false := by decide
        simp [ViewUsers.payload, optTruthy, strTruthy, hp, List.lookup, this]
  · cases masterPassword with
    | none => simp [ViewUsers.payload, optTruthy, List.lookup]
    | some q =>
      have h0 : ("master_password" == "empid") = false := by decide
      by_cases hq : q = ""
      · subst hq
        simp [ViewUsers.payload, optTruthy, strTruthy, List.lookup, h0]
      · simp [ViewUsers.payload, optTruthy, strTruthy, hq, List.lookup, h0]

/-- An instance of C6: the USER target E2, and the payload built for the
master password m4ster. -/
theorem non_elevated_proceeds_without_password_witness :
    (ViewUsers.clickLock ⟨some ⟨"E7", "Asha", some "HR"⟩, some "tok"⟩
        { ViewUsersState.init with loading := false } ⟨"E2", "Bina", "USER", "A"⟩ true).2 =
      [{ endpoint := "/api/users/lock", method := "POST",
         body := some [("empid", "E2")], token := some "tok" }] ∧
    (ViewUsers.clickUnlock ⟨some ⟨"E7", "Asha", some "HR"⟩, some "tok"⟩
        { ViewUsersState.init with loading := false } ⟨"E2", "Bina", "USER", "A"⟩ true).2 =
      [{ endpoint := "/api/users/unlock", method := "POST",
         body := some [("empid", "E2")], token := some "tok" }] ∧
    (ViewUsers.payload "E1" (some "m4ster")).lookup "master_password" =
      (if (some "m4ster" : Option String) = some "" then none else some "m4ster") :=
  ⟨(non_elevated_proceeds_without_password ⟨some ⟨"E7", "Asha", some "HR"⟩, some "tok"⟩
      { ViewUsersState.init with loading := false } ⟨"E2", "Bina", "USER", "A"⟩ "E1"
      (some "m4ster") ⟨by decide, by decide⟩).2.1,
   (non_elevated_proceeds_without_password ⟨some ⟨"E7", "Asha", some "HR"⟩, some "tok"⟩
      { ViewUsersState.init with loading := false } ⟨"E2", "Bina", "USER", "A"⟩ "E1"
      (some "m4ster") ⟨by decide, by decide⟩).2.2.2.1,
   (non_elevated_proceeds_without_password ⟨some ⟨"E7", "Asha", some "HR"⟩, some "tok"⟩
      { ViewUsersState.init with loading := false } ⟨"E2", "Bina", "USER", "A"⟩ "E1"
      (some "m4ster") ⟨by decide, by decide⟩).2.2.2.2.2.2⟩

/-! ## Session restore and logout -/

/-- C7 (counterexample): with the token "abc" and the empty text as stored
identity (a text `JSON.parse` rejects) the restore effect changes nothing:
the session stays empty and the token stays in storage.  Whatever
`JSON.parse` answers on that text, the claim fails there. -/
theorem restore_empty_identity_not_cleared :
    ¬ ∃ parse : String → Option (Option User),
      ∀ (ls : Storage) (token user : String),
        ls.getItem "vms_token" = some token → ls.getItem "vms_user" = some user →
        (parse user = none →
          (restore parse (AppState.init ls)).auth.token = none ∧
          (restore parse (AppState.init ls)).auth.user = none ∧
          (restore parse (AppState.init ls)).localStorage.getItem "vms_token" = none ∧
          (restore parse (AppState.init ls)).localStorage.getItem "vms_user" = none) ∧
        (∀ v, parse user = some v →
          (restore parse (AppState.init ls)).auth.token = some token ∧
          (restore parse (AppState.init ls)).auth.user = v ∧
          (restore parse (AppState.init ls)).localStorage = ls) := by
  rintro ⟨parse, h⟩
  have hls := h [("vms_token", "abc"), ("vms_user", "")] "abc" "" (by decide) (by decide)
  have hkeep : (restore parse (AppState.init [("vms_token", "abc"), ("vms_user", "")])).localStorage.getItem
      "vms_token" = some "abc" := by
    simp [restore, AppState.init, Storage.getItem, List.lookup, optTruthy, strTruthy]
  have hauth : (restore parse (AppState.init [("vms_token", "abc"), ("vms_user", "")])).auth.token
      = none := by
    simp [restore, AppState.init, Storage.getItem, List.lookup, optTruthy, strTruthy, Auth.empty]
  cases hp : parse "" with
  | none =>
    have := (hls.1 hp).2.2.1
    rw [hkeep] at this
    cases this
  | some v =>
    have := (hls.2 v hp).1
    rw [hauth] at this
    cases this

/-- C7 (amended): when storage holds a non-empty token and a non-empty user
text, the restore effect at app start either installs the session
`{token, parsed user}` and leaves storage unchanged (the text parses), or
leaves the session `{token: null, user: null}` and clears the whole of
storage, so that no key remains (the text fails to parse). -/
theorem restore_parse_or_clear {J : Type} (parse : String → Option (Option J))
    (ls : Storage) (token user : String)
    (ht : ls.getItem "vms_token" = some token) (hu : ls.getItem "vms_user" = some user)
    (htne : token ≠ "") (hune : user ≠ "") :
    (parse user = none →
      (restore parse (AppState.init ls)).auth.token = none ∧
      (restore parse (AppState.init ls)).auth.user = none ∧
      (restore parse (AppState.init ls)).localStorage = [] ∧
      (∀ key, (restore parse (AppState.init ls)).localStorage.getItem key = none)) ∧
    (∀ v, parse user = some v →
      (restore parse (AppState.init ls)).auth.token = some token ∧
      (restore parse (AppState.init ls)).auth.user = v ∧
      (restore parse (AppState.init ls)).localStorage = ls) ∧
    (restore parse (AppState.init ls)).loading = false := by
  have hc : (optTruthy (some token) && optTruthy (some user)) = true := by
    simp [optTruthy, strTruthy, htne, hune]
  refine ⟨?_, ?_, ?_⟩
  · intro hp
    simp only [restore, AppState.init, ht, hu, hc, Option.getD_some, hp, if_true,
      Storage.clear, Auth.empty]
    refine ⟨?_, ?_, ?_, fun _ => ?_⟩ <;> trivial
  · intro v hp
    simp only [restore, AppState.init, ht, hu, hc, Option.getD_some, hp, if_true]
    refine ⟨?_, ?_, ?_⟩ <;> trivial
  · rfl

/-- An instance of the amended C7: the token abc with a stored identity that
fails to parse, and with the serialised identity of E7. -/
theorem restore_parse_or_clear_witness :
    ((restore sampleParse
        (AppState.init [("vms_token", "abc"), ("vms_user", "not json")])).auth.token = none ∧
      (restore sampleParse
        (AppState.init [("vms_token", "abc"), ("vms_user", "not json")])).localStorage = []) ∧
    ((restore sampleParse (AppState.init [("vms_token", "abc"),
        ("vms_user", "\x7b\"empid\":\"E7\",\"empname\":\"Asha\",\"user_role\":\"HR\"\x7d")])).auth.token
        = some "abc" ∧
      (restore sampleParse (AppState.init [("vms_token", "abc"),
        ("vms_user", "\x7b\"empid\":\"E7\",\"empname\":\"Asha\",\"user_role\":\"HR\"\x7d")])).auth.user
        = some ⟨"E7", "Asha", some "HR"⟩) :=
  ⟨⟨((restore_parse_or_clear sampleParse [("vms_token", "abc"), ("vms_user", "not json")]
        "abc" "not json" rfl rfl (by decide) (by decide)).1 (by decide)).1,
    ((restore_parse_or_clear sampleParse [("vms_token", "abc"), ("vms_user", "not json")]
        "abc" "not json" rfl rfl (by decide) (by decide)).1 (by decide)).2.2.1⟩,
   ⟨((restore_parse_or_clear sampleParse [("vms_token", "abc"),
        ("vms_user", "\x7b\"empid\":\"E7\",\"empname\":\"Asha\",\"user_role\":\"HR\"\x7d")]
        "abc" "\x7b\"empid\":\"E7\",\"empname\":\"Asha\",\"user_role\":\"HR\"\x7d" rfl rfl
        (by decide) (by decide)).2.1 (some ⟨"E7", "Asha", some "HR"⟩) (by decide)).1,
    ((restore_parse_or_clear sampleParse [("vms_token", "abc"),
        ("vms_user", "\x7b\"empid\":\"E7\",\"empname\":\"Asha\",\"user_role\":\"HR\"\x7d")]
        "abc" "\x7b\"empid\":\"E7\",\"empname\":\"Asha\",\"user_role\":\"HR\"\x7d" rfl rfl
        (by decide) (by decide)).2.1 (some ⟨"E7", "Asha", some "HR"⟩) (by decide)).2.1⟩⟩

/-- C8: from every state, logout removes `vms_token` and `vms_user` from
persisted storage and sets the session to `{token: null, user: null}`, and
applying it twice gives the same state as applying it once; every other
key of storage keeps its value. -/
theorem handleLogout_clears_idempotent {J : Type} (s : AppState J) :
    (handleLogout s).localStorage.getItem "vms_token" = none ∧
    (handleLogout s).localStorage.getItem "vms_user" = none ∧
    (handleLogout s).auth.token = none ∧
    (handleLogout s).auth.user = none ∧
    handleLogout (handleLogout s) = handleLogout s ∧
    (∀ key, (handleLogout s).localStorage.getItem key =
      if key = "vms_token" ∨ key = "vms_user" then none else s.localStorage.getItem key) := by
  refine ⟨?_, ?_, rfl, rfl, ?_, ?_⟩
  · simp only [handleLogout]
    rw [getItem_removeItem_other _ _ _ (by decide)]
    exact getItem_removeItem_self _ _
  · simp only [handleLogout]
    exact getItem_removeItem_self _ _
  · have h1 : (((s.localStorage.removeItem "vms_token").removeItem "vms_user").removeItem
        "vms_token").removeItem "vms_user" =
        (s.localStorage.removeItem "vms_token").removeItem "vms_user" := by
      rw [removeItem_comm (s.localStorage.removeItem "vms_token") "vms_user" "vms_token",
        removeItem_idem, removeItem_idem]
    simp only [handleLogout, h1]
  · intro key
    simp only [handleLogout]
    by_cases hu : key = "vms_user"
    · subst hu
      simp only [or_true, if_true]
      exact getItem_removeItem_self _ _
    · rw [getItem_removeItem_other _ _ _ hu]
      by_cases ht : key = "vms_token"
      · subst ht
        simp only [true_or, if_true]
        exact getItem_removeItem_self _ _
      · rw [getItem_removeItem_other _ _ _ ht]
        simp [hu, ht]

/-! ## The `Login` form -/

/-- C9: a failed login shows exactly the message of the error `apiRequest`
raised and moves both counters by one; from the initial state
(`attemptsLeft = 5`, `failedAttempts = 0`), after any interaction in which
`n` login requests failed and none succeeded, `failedAttempts = n` and
`attemptsLeft = 5 - n`, and no session is installed; and for every `n` the
interaction of `n` consecutive failed submissions of a filled-in form can
take place, ending with those counters. -/
theorem login_failures_counted {J : Type} (stringify : Option J → String)
    (app : AppState J) (s : LoginState) (msg : String)
    (es : List (LoginEvent J)) (st1 : LoginState × AppState J) (reqs : List Request)
    (hrun : Login.run stringify (LoginState.init, app) es = some (st1, reqs))
    (hfail : ∀ e ∈ es, e.isSuccess = false) :
    (Login.handleSubmit stringify s app (.error msg)).1.1.error = msg ∧
    Alert (Login.handleSubmit stringify s app (.error msg)).1.1.error =
      (if msg = "" then none else some msg) ∧
    (Login.handleSubmit stringify s app (.error msg)).1.1.failedAttempts =
      s.failedAttempts + 1 ∧
    (Login.handleSubmit stringify s app (.error msg)).1.1.attemptsLeft =
      s.attemptsLeft - 1 ∧
    st1.1.failedAttempts = es.countP LoginEvent.isFailure ∧
    st1.1.attemptsLeft = 5 - (es.countP LoginEvent.isFailure : Nat) ∧
    st1.2 = app ∧
    (∀ (n : Nat) (empid password : String), empid ≠ "" → password ≠ "" →
      ∃ sn reqsn,
        Login.run stringify (LoginState.init, app)
          (.setEmpid empid :: .setPassword password :: Login.failedSubmissions msg n) =
          some ((sn, app), reqsn) ∧
        sn.failedAttempts = n ∧ sn.attemptsLeft = 5 - (n : Int) ∧
        sn.error = (if n = 0 then "" else msg) ∧ reqsn.length = n) := by
  have h := Login.run_counts stringify es (LoginState.init, app) st1 reqs hrun hfail
  refine ⟨rfl, ?_, rfl, rfl, ?_, ?_, h.2.2, ?_⟩
  · by_cases hm : msg = "" <;>
      simp [Login.handleSubmit, Login.handleSubmitSettle, Alert, strTruthy, hm]
  · simpa [LoginState.init] using h.1
  · simpa [LoginState.init] using h.2.1
  · intro n empid password he hp
    obtain ⟨sn, reqsn, hr, hreqs, _, _, _, herr⟩ :=
      Login.run_failedSubmissions stringify app msg n
        { LoginState.init with empid := empid, password := password } rfl he hp
    have hrun2 : Login.run stringify (LoginState.init, app)
        (.setEmpid empid :: .setPassword password :: Login.failedSubmissions msg n) =
        some ((sn, app), reqsn) := by
      simp only [Login.run, Login.step]
      simp only [hr, List.nil_append]
    have hc := Login.run_counts stringify _ (LoginState.init, app) (sn, app) reqsn hrun2
      (by
        intro e hmem
        simp only [List.mem_cons] at hmem
        rcases hmem with rfl | rfl | hmem
        · rfl
        · rfl
        · exact Login.failedSubmissions_no_success msg n e hmem)
    have hcount : (LoginEvent.setEmpid empid :: LoginEvent.setPassword password ::
        (Login.failedSubmissions msg n : List (LoginEvent J))).countP LoginEvent.isFailure = n := by
      simp only [List.countP_cons, Login.failedSubmissions_count, LoginEvent.isFailure]
      simp
    refine ⟨sn, reqsn, hrun2, ?_, ?_, ?_, ?_⟩
    · simpa [hcount, LoginState.init] using hc.1
    · simpa [hcount, LoginState.init] using hc.2.1
    · simpa [LoginState.init] using herr
    · simp [hreqs]

/-- An instance of C9: a filled-in form submitted twice, both requests
failing. -/
theorem login_failures_counted_witness :
    (Login.handleSubmit (fun _ : Option User => "null") LoginState.init
        (AppState.init []) (.error "Invalid credentials")).1.1.error = "Invalid credentials" ∧
    (⟨"E100", "wrong", "Account locked", false, 3, 2⟩ : LoginState).failedAttempts =
      ([.setEmpid "E100", .setPassword "wrong", .submit, .settle (.error "Invalid credentials"),
        .submit, .settle (.error "Account locked")] :
        List (LoginEvent User)).countP LoginEvent.isFailure ∧
    (⟨"E100", "wrong", "Account locked", false, 3, 2⟩ : LoginState).attemptsLeft =
      5 - (([.setEmpid "E100", .setPassword "wrong", .submit,
        .settle (.error "Invalid credentials"),
        .submit, .settle (.error "Account locked")] :
        List (LoginEvent User)).countP LoginEvent.isFailure : Nat) :=
  ⟨(login_failures_counted (fun _ : Option User => "null") (AppState.init [])
      LoginState.init "Invalid credentials"
      [.setEmpid "E100", .setPassword "wrong", .submit, .settle (.error "Invalid credentials"),
        .submit, .settle (.error "Account locked")]
      (⟨"E100", "wrong", "Account locked", false, 3, 2⟩, AppState.init [])
      [⟨"/api/auth/login", "POST", some [("empid", "E100"), ("password", "wrong")], none⟩,
       ⟨"/api/auth/login", "POST", some [("empid", "E100"), ("password", "wrong")], none⟩]
      rfl (by simp [LoginEvent.isSuccess])).1,
   (login_failures_counted (fun _ : Option User => "null") (AppState.init [])
      LoginState.init "Invalid credentials"
      [.setEmpid "E100", .setPassword "wrong", .submit, .settle (.error "Invalid credentials"),
        .submit, .settle (.error "Account locked")]
      (⟨"E100", "wrong", "Account locked", false, 3, 2⟩, AppState.init [])
      [⟨"/api/auth/login", "POST", some [("empid", "E100"), ("password", "wrong")], none⟩,
       ⟨"/api/auth/login", "POST", some [("empid", "E100"), ("password", "wrong")], none⟩]
      rfl (by simp [LoginEvent.isSuccess])).2.2.2.2.1,
   (login_failures_counted (fun _ : Option User => "null") (AppState.init [])
      LoginState.init "Invalid credentials"
      [.setEmpid "E100", .setPassword "wrong", .submit, .settle (.error "Invalid credentials"),
        .submit, .settle (.error "Account locked")]
      (⟨"E100", "wrong", "Account locked", false, 3, 2⟩, AppState.init [])
      [⟨"/api/auth/login", "POST", some [("empid", "E100"), ("password", "wrong")], none⟩,
       ⟨"/api/auth/login", "POST", some [("empid", "E100"), ("password", "wrong")], none⟩]
      rfl (by simp [LoginEvent.isSuccess])).2.2.2.2.2.1⟩

/-- C10 (the code at the failing input): after five failed submissions the
allowance is 0 and the notice "Login is temporarily disabled" is shown, yet
the submit button is enabled and a sixth submission issues the login
request. -/
theorem login_not_refused_after_lockout {J : Type} (stringify : Option J → String)
    (app : AppState J) :
    ∃ s5 reqs5,
      Login.run stringify (LoginState.init, app)
        [.setEmpid "E100", .setPassword "wrong",
         .submit, .settle (.error "Invalid credentials"),
         .submit, .settle (.error "Invalid credentials"),
         .submit, .settle (.error "Invalid credentials"),
         .submit, .settle (.error "Invalid credentials"),
         .submit, .settle (.error "Invalid credentials")] = some ((s5, app), reqs5) ∧
      s5.attemptsLeft = 0 ∧ s5.failedAttempts = 5 ∧
      Login.lockoutNotice s5 = true ∧
      Login.submitDisabled s5 = false ∧
      Login.submitAvailable s5 = true ∧
      (Login.handleSubmitStart s5).2 =
        [{ endpoint := "/api/auth/login", method := "POST",
           body := some [("empid", "E100"), ("password", "wrong")], token := none }] ∧
      (Login.step stringify (s5, app) .submit).map Prod.snd =
        some [{ endpoint := "/api/auth/login", method := "POST",
                body := some [("empid", "E100"), ("password", "wrong")], token := none }] := by
  refine ⟨_, _, rfl, ?_, ?_, ?_, ?_, ?_, ?_, ?_⟩ <;> rfl

/-! ## The activity watchdog and unload handling -/

/-- C11: from mount on, whatever the events, (a) a tracked interaction at
time `t` leaves exactly one active timer, with deadline
`t + INACTIVITY_LIMIT`, the previous one being cancelled; (b) at most one
timer is active at any time; (c) a timer callback (the forced teardown) runs
at a time `tf` with `t + INACTIVITY_LIMIT ≤ tf` for every tracked
interaction at an earlier time `t` and for the mount time; (d) the teardown
happens at most once in a run; and (e) while `Dashboard` is mounted, the
pending timer can fire at every time from its deadline on, and then tears
the session down once and leaves no timer. -/
theorem watchdog_single_deadline {J : Type} (app : AppState J) (t0 : Nat) :
    (∀ es s name t, Dashboard.watchdogRun (Dashboard.mount app t0) es = some s →
      s.mounted = true → name ∈ trackedEvents → s.now ≤ t →
      ∃ s1, Dashboard.watchdogStep s (.windowEvent name t) = some s1 ∧
        s1.timers = [⟨s.nextId, t + INACTIVITY_LIMIT⟩] ∧ s1.timeout = some s.nextId) ∧
    (∀ es s, Dashboard.watchdogRun (Dashboard.mount app t0) es = some s →
      s.timers.length ≤ 1) ∧
    (∀ es1 name t es2 id tf s,
      Dashboard.watchdogRun (Dashboard.mount app t0)
        (es1 ++ .windowEvent name t :: (es2 ++ [.timerFires id tf])) = some s →
      name ∈ trackedEvents → t + INACTIVITY_LIMIT ≤ tf) ∧
    (∀ es id tf s,
      Dashboard.watchdogRun (Dashboard.mount app t0) (es ++ [.timerFires id tf]) = some s →
      t0 + INACTIVITY_LIMIT ≤ tf) ∧
    (∀ es s, Dashboard.watchdogRun (Dashboard.mount app t0) es = some s →
      es.countP WatchdogEvent.isTimerFires = s.alerts.length ∧ s.alerts.length ≤ 1) ∧
    (∀ es s, Dashboard.watchdogRun (Dashboard.mount app t0) es = some s →
      s.mounted = true →
      ∃ id d, s.timers = [⟨id, d⟩] ∧
        ∀ t, s.now ≤ t → d ≤ t →
          ∃ s1, Dashboard.watchdogStep s (.timerFires id t) = some s1 ∧
            s1.alerts = [inactivityNotice] ∧ s1.app = handleLogout s.app ∧
            s1.mounted = false ∧ s1.timers = []) := by
  have hm := Dashboard.mount_inv app t0
  have hq0 : t0 + INACTIVITY_LIMIT ≤ (Dashboard.mount app t0).now + INACTIVITY_LIMIT ∧
      ∀ tm ∈ (Dashboard.mount app t0).timers, t0 + INACTIVITY_LIMIT ≤ tm.deadline := by
    rw [Dashboard.mount_eq]
    simp
  refine ⟨?_, ?_, ?_, ?_, ?_, ?_⟩
  · intro es s name t hrun hmo hname hnow
    obtain ⟨hinv, _⟩ := Dashboard.watchdogRun_inv es _ s hm hrun
    rcases hinv with ⟨_, id, d, ht, hto, _⟩ | ⟨hm2, _⟩
    · have hc : trackedEvents.contains name = true := by simpa using hname
      refine ⟨Dashboard.resetTimer { s with now := t } t,
        by simp only [Dashboard.watchdogStep, hnow, hmo, hc, if_true, Bool.and_self], ?_, rfl⟩
      simp only [Dashboard.resetTimer, ht, hto, clearTimeout_single, List.nil_append]
    · rw [hmo] at hm2; cases hm2
  · intro es s hrun
    obtain ⟨hinv, _⟩ := Dashboard.watchdogRun_inv es _ s hm hrun
    rcases hinv with ⟨_, id, d, ht, _⟩ | ⟨_, ht, _⟩ <;> simp [ht]
  · intro es1 name t es2 id tf s hrun hname
    rw [Dashboard.watchdogRun_append] at hrun
    cases ha : Dashboard.watchdogRun (Dashboard.mount app t0) es1 with
    | none => simp [ha] at hrun
    | some a =>
      simp only [ha, Option.some_bind, Dashboard.watchdogRun] at hrun
      obtain ⟨hia, _⟩ := Dashboard.watchdogRun_inv es1 _ a hm ha
      cases hb : Dashboard.watchdogStep a (.windowEvent name t) with
      | none => simp [hb] at hrun
      | some b =>
        simp only [hb] at hrun
        obtain ⟨hib, _, _, _, _, hwin⟩ := Dashboard.watchdogStep_inv a b _ hia hb
        obtain ⟨hbn, hbt⟩ := hwin name t rfl hname
        rw [Dashboard.watchdogRun_append] at hrun
        cases hc : Dashboard.watchdogRun b es2 with
        | none => simp [hc] at hrun
        | some c =>
          simp only [hc, Option.some_bind, Dashboard.watchdogRun] at hrun
          obtain ⟨hic, _, hqc, _⟩ := Dashboard.watchdogRun_inv es2 b c hib hc
          have hQ := hqc (t + INACTIVITY_LIMIT)
            ⟨by omega, fun tm htm => le_of_eq (hbt tm htm).symm⟩
          cases hd : Dashboard.watchdogStep c (.timerFires id tf) with
          | none => simp [hd] at hrun
          | some d =>
            obtain ⟨_, _, _, _, hfire, _⟩ := Dashboard.watchdogStep_inv c d _ hic hd
            obtain ⟨_, tm, htm, hdl⟩ := hfire id tf rfl
            exact le_trans (hQ.2 tm htm) hdl
  · intro es id tf s hrun
    rw [Dashboard.watchdogRun_append] at hrun
    cases hc : Dashboard.watchdogRun (Dashboard.mount app t0) es with
    | none => simp [hc] at hrun
    | some c =>
      simp only [hc, Option.some_bind, Dashboard.watchdogRun] at hrun
      obtain ⟨hic, _, hqc, _⟩ := Dashboard.watchdogRun_inv es _ c hm hc
      have hQ := hqc (t0 + INACTIVITY_LIMIT) hq0
      cases hd : Dashboard.watchdogStep c (.timerFires id tf) with
      | none => simp [hd] at hrun
      | some d =>
        obtain ⟨_, _, _, _, hfire, _⟩ := Dashboard.watchdogStep_inv c d _ hic hd
        obtain ⟨_, tm, htm, hdl⟩ := hfire id tf rfl
        exact le_trans (hQ.2 tm htm) hdl
  · intro es s hrun
    obtain ⟨hinv, _, _, hal⟩ := Dashboard.watchdogRun_inv es _ s hm hrun
    have h0 : (Dashboard.mount app t0).alerts.length = 0 := by
      rw [Dashboard.mount_eq]; rfl
    refine ⟨by omega, ?_⟩
    rcases hinv with ⟨_, _, _, _, _, hal2⟩ | ⟨_, _, hal2⟩
    · simp [hal2]
    · exact hal2
  · intro es s hrun hmo
    obtain ⟨hinv, _⟩ := Dashboard.watchdogRun_inv es _ s hm hrun
    rcases hinv with ⟨_, id, d, ht, hto, hal⟩ | ⟨hm2, _⟩
    · refine ⟨id, d, ht, ?_⟩
      intro t hnow hd
      refine ⟨Dashboard.cleanup
          { s with
            now := t
            timers := s.timers.filter (fun x => x.id != id)
            app := (Dashboard.timerCallback s.app).1
            alerts := s.alerts ++ [(Dashboard.timerCallback s.app).2] },
        by simp [Dashboard.watchdogStep, hnow, ht, hd], ?_, ?_, rfl, ?_⟩
      · simp [Dashboard.cleanup, hal, Dashboard.timerCallback]
      · simp [Dashboard.cleanup, Dashboard.timerCallback, handleLogout]
      · simp [Dashboard.cleanup, ht, clearTimeout]
    · rw [hmo] at hm2; cases hm2

/-- An instance of C11: `Dashboard` mounts at time 0, a click arrives at time
1000 and the timer set by that click fires at time 901000. -/
theorem watchdog_single_deadline_witness :
    1000 + INACTIVITY_LIMIT ≤ 901000 ∧ 0 + INACTIVITY_LIMIT ≤ 901000 ∧
    ([.windowEvent "click" 1000, .timerFires 2 901000] :
      List WatchdogEvent).countP WatchdogEvent.isTimerFires =
      [inactivityNotice].length :=
  ⟨(watchdog_single_deadline (AppState.init [("vms_token", "abc")] : AppState User) 0).2.2.1
      [] "click" 1000 [] 2 901000
      (Dashboard.cleanup
        { app := (Dashboard.timerCallback (AppState.init [("vms_token", "abc")])).1,
          mounted := true, timers := [], timeout := some 2, nextId := 3, now := 901000,
          alerts := [inactivityNotice] })
      rfl (by decide),
   (watchdog_single_deadline (AppState.init [("vms_token", "abc")] : AppState User) 0).2.2.2.1
      [.windowEvent "click" 1000] 2 901000
      (Dashboard.cleanup
        { app := (Dashboard.timerCallback (AppState.init [("vms_token", "abc")])).1,
          mounted := true, timers := [], timeout := some 2, nextId := 3, now := 901000,
          alerts := [inactivityNotice] })
      rfl,
   ((watchdog_single_deadline (AppState.init [("vms_token", "abc")] : AppState User) 0).2.2.2.2.1
      [.windowEvent "click" 1000, .timerFires 2 901000]
      (Dashboard.cleanup
        { app := (Dashboard.timerCallback (AppState.init [("vms_token", "abc")])).1,
          mounted := true, timers := [], timeout := some 2, nextId := 3, now := 901000,
          alerts := [inactivityNotice] })
      rfl).1⟩

/-- C12: `INACTIVITY_LIMIT` is 15 * 60 * 1000 = 900000 ms, and from every
state the timer-expiry callback yields the state `handleLogout` yields: both
`vms_token` and `vms_user` are removed and the session is
`{token: null, user: null}`. -/
theorem timerCallback_eq_handleLogout {J : Type} (s : AppState J) :
    INACTIVITY_LIMIT = 15 * 60 * 1000 ∧ INACTIVITY_LIMIT = 900000 ∧
    (Dashboard.timerCallback s).1 = handleLogout s ∧
    (Dashboard.timerCallback s).1.localStorage.getItem "vms_token" = none ∧
    (Dashboard.timerCallback s).1.localStorage.getItem "vms_user" = none ∧
    (Dashboard.timerCallback s).1.auth.token = none ∧
    (Dashboard.timerCallback s).1.auth.user = none ∧
    (Dashboard.timerCallback s).2 = inactivityNotice := by
  refine ⟨rfl, rfl, rfl, ?_, ?_, rfl, rfl, rfl⟩
  · simp only [Dashboard.timerCallback]
    rw [getItem_removeItem_other _ _ _ (by decide)]
    exact getItem_removeItem_self _ _
  · simp only [Dashboard.timerCallback]
    exact getItem_removeItem_self _ _

/-- C13 (counterexample): with the flag present but empty, `handleUnload`
takes the close branch and removes the persisted credentials. -/
theorem handleUnload_empty_flag_clears :
    Storage.getItem [("reloading", "")] "reloading" = some "" ∧
    (Dashboard.handleUnload [("reloading", "")]
      [("vms_token", "abc"), ("vms_user", "E7")]).2 ≠
      [("vms_token", "abc"), ("vms_user", "E7")] ∧
    (Dashboard.handleUnload [("reloading", "")]
      [("vms_token", "abc"), ("vms_user", "E7")]).2.getItem "vms_token" = none := by
  decide

/-- C13 (amended): when `handleUnload` runs with the "reloading" flag absent
or empty, both persisted credentials are removed; with the flag present and
non-empty (as `markReload` writes it), the flag is removed and
`localStorage` is left unchanged; in every case the flag is absent
afterwards. -/
theorem handleUnload_by_flag (sessionStorage localStorage : Storage) :
    ((sessionStorage.getItem "reloading" = none ∨
        sessionStorage.getItem "reloading" = some "") →
      (Dashboard.handleUnload sessionStorage localStorage).2 =
        (localStorage.removeItem "vms_token").removeItem "vms_user" ∧
      (Dashboard.handleUnload sessionStorage localStorage).2.getItem "vms_token" = none ∧
      (Dashboard.handleUnload sessionStorage localStorage).2.getItem "vms_user" = none) ∧
    (∀ v, sessionStorage.getItem "reloading" = some v → v ≠ "" →
      (Dashboard.handleUnload sessionStorage localStorage).2 = localStorage ∧
      (Dashboard.handleUnload sessionStorage localStorage).1 =
        sessionStorage.removeItem "reloading") ∧
    (Dashboard.handleUnload sessionStorage localStorage).1.getItem "reloading" = none ∧
    (Dashboard.markReload sessionStorage).getItem "reloading" = some "true" := by
  refine ⟨?_, ?_, ?_, ?_⟩
  · intro h
    have hf : optTruthy (sessionStorage.getItem "reloading") = false := by
      rcases h with h | h <;> simp [h, optTruthy, strTruthy]
    have h2 : (Dashboard.handleUnload sessionStorage localStorage).2 =
        (localStorage.removeItem "vms_token").removeItem "vms_user" := by
      simp [Dashboard.handleUnload, hf]
    refine ⟨h2, ?_, ?_⟩
    · rw [h2, getItem_removeItem_other _ _ _ (by decide)]
      exact getItem_removeItem_self _ _
    · rw [h2]
      exact getItem_removeItem_self _ _
  · intro v hv hne
    have hf : optTruthy (sessionStorage.getItem "reloading") = true := by
      simp [hv, optTruthy, strTruthy, hne]
    simp [Dashboard.handleUnload, hf]
  · have h1 : (Dashboard.handleUnload sessionStorage localStorage).1 =
        sessionStorage.removeItem "reloading" := by
      simp only [Dashboard.handleUnload]
      cases optTruthy (sessionStorage.getItem "reloading") <;> rfl
    rw [h1]
    exact getItem_removeItem_self _ _
  · exact getItem_setItem_self _ _ _

/-- An instance of the amended C13: a close (no flag) and a reload (the flag
written by `markReload`). -/
theorem handleUnload_by_flag_witness :
    (Dashboard.handleUnload [] [("vms_token", "abc"), ("vms_user", "E7")]).2.getItem
      "vms_token" = none ∧
    (Dashboard.handleUnload [("reloading", "true")]
      [("vms_token", "abc"), ("vms_user", "E7")]).2 =
      [("vms_token", "abc"), ("vms_user", "E7")] :=
  ⟨((handleUnload_by_flag [] [("vms_token", "abc"), ("vms_user", "E7")]).1
      (Or.inl rfl)).2.1,
   ((handleUnload_by_flag [("reloading", "true")]
      [("vms_token", "abc"), ("vms_user", "E7")]).2.1 "true" rfl (by decide)).1⟩

/-! ## The visitor entry form -/

/-- C14: `CreateVisitorEntry.handleSubmit` issues the create-entry request
(one POST to `/api/visitors` carrying `formData`) exactly when the visitor
mobile is ten ASCII digits, the host mobile is ten ASCII digits and the
email is empty or matches `emailPattern`; otherwise it issues no request,
sets one of the three validation errors and clears `loading`.  A visitor
mobile "12345" fails with "Visitor's mobile number must be 10 digits." -/
theorem createEntry_request_iff_valid (auth : AuthCtx) (s : CreateVisitorState) :
    ((CreateVisitorEntry.handleSubmit auth s).2 =
        [{ endpoint := "/api/visitors", method := "POST", body := some s.formData,
           token := auth.token }] ↔
      ((s.formData.mobile.length = 10 ∧ ∀ c ∈ s.formData.mobile.toList, c.isDigit = true) ∧
       (s.formData.emp_mobile_no.length = 10 ∧
        ∀ c ∈ s.formData.emp_mobile_no.toList, c.isDigit = true) ∧
       (s.formData.email = "" ∨ emailPattern.test s.formData.email = true))) ∧
    (((CreateVisitorEntry.handleSubmit auth s).2 =
        [{ endpoint := "/api/visitors", method := "POST", body := some s.formData,
           token := auth.token }] ∧
      (CreateVisitorEntry.handleSubmit auth s).1.error = "") ∨
     ((CreateVisitorEntry.handleSubmit auth s).2 = [] ∧
      (CreateVisitorEntry.handleSubmit auth s).1.loading = false ∧
      (CreateVisitorEntry.handleSubmit auth s).1.error ∈
        ["Visitor\x27s mobile number must be 10 digits.", "Invalid email format.",
         "Host employee\x27s mobile number must be 10 digits."])) ∧
    (s.formData.mobile = "12345" →
      (CreateVisitorEntry.handleSubmit auth s).2 = [] ∧
      (CreateVisitorEntry.handleSubmit auth s).1.error =
        "Visitor\x27s mobile number must be 10 digits.") := by
  have hm := tenDigitsPattern_test_iff s.formData.mobile
  have hh := tenDigitsPattern_test_iff s.formData.emp_mobile_no
  refine ⟨?_, ?_, ?_⟩
  · rw [← hm, ← hh]
    unfold CreateVisitorEntry.handleSubmit
    by_cases h1 : tenDigitsPattern.test s.formData.mobile = true
    · by_cases h2 : s.formData.email = ""
      · by_cases h3 : tenDigitsPattern.test s.formData.emp_mobile_no = true
        · simp [h1, h2, h3, strTruthy]
        · simp [h1, h2, h3, strTruthy]
      · by_cases h4 : emailPattern.test s.formData.email = true
        · by_cases h3 : tenDigitsPattern.test s.formData.emp_mobile_no = true
          · simp [h1, h2, h3, h4, strTruthy]
          · simp [h1, h2, h3, h4, strTruthy]
        · simp [h1, h2, h4, strTruthy]
    · simp [h1]
  · unfold CreateVisitorEntry.handleSubmit
    split
    · right; simp
    · split
      · right; simp
      · split
        · right; simp
        · left; simp
  · intro h
    have : tenDigitsPattern.test s.formData.mobile = false := by rw [h]; decide
    simp [CreateVisitorEntry.handleSubmit, this]

/-- An instance of C14: a filled-in form with valid numbers and no email,
and the same form with the visitor mobile 12345. -/
theorem createEntry_request_iff_valid_witness :
    (CreateVisitorEntry.handleSubmit ⟨some ⟨"S1", "Guard", some "SECURITY"⟩, some "tok"⟩
      { CreateVisitorState.init with
        formData := { VisitorForm.init with
          name := "Asha Rao", mobile := "9876543210", emp_mobile_no := "9123456780",
          id_number := "ID42" } }).2 =
      [{ endpoint := "/api/visitors", method := "POST",
         body := some { VisitorForm.init with
          name := "Asha Rao", mobile := "9876543210", emp_mobile_no := "9123456780",
          id_number := "ID42" },
         token := some "tok" }] ∧
    ((CreateVisitorEntry.handleSubmit ⟨some ⟨"S1", "Guard", some "SECURITY"⟩, some "tok"⟩
      { CreateVisitorState.init with
        formData := { VisitorForm.init with
          name := "Asha Rao", mobile := "12345", emp_mobile_no := "9123456780",
          id_number := "ID42" } }).2 = [] ∧
     (CreateVisitorEntry.handleSubmit ⟨some ⟨"S1", "Guard", some "SECURITY"⟩, some "tok"⟩
      { CreateVisitorState.init with
        formData := { VisitorForm.init with
          name := "Asha Rao", mobile := "12345", emp_mobile_no := "9123456780",
          id_number := "ID42" } }).1.error =
       "Visitor\x27s mobile number must be 10 digits.") :=
  ⟨(createEntry_request_iff_valid ⟨some ⟨"S1", "Guard", some "SECURITY"⟩, some "tok"⟩
      { CreateVisitorState.init with
        formData := { VisitorForm.init with
          name := "Asha Rao", mobile := "9876543210", emp_mobile_no := "9123456780",
          id_number := "ID42" } }).1.2
      ⟨⟨by decide, by decide⟩, ⟨by decide, by decide⟩, Or.inl rfl⟩,
   (createEntry_request_iff_valid ⟨some ⟨"S1", "Guard", some "SECURITY"⟩, some "tok"⟩
      { CreateVisitorState.init with
        formData := { VisitorForm.init with
          name := "Asha Rao", mobile := "12345", emp_mobile_no := "9123456780",
          id_number := "ID42" } }).2.2 rfl⟩

/-- C17: the host-lookup result does not influence submission: two form
states that agree on `formData` get the same requests and the same error
from `handleSubmit`; and changing only `hostFound` and `hostName` changes
neither the availability of the submit event nor its outcome, those two
fields apart. -/
theorem host_lookup_not_in_submit (emailTypeValid : String → Bool) (auth : AuthCtx)
    (s1 s2 : CreateVisitorState) (hostFound : Option Bool) (hostName : String)
    (h : s1.formData = s2.formData) :
    (CreateVisitorEntry.handleSubmit auth s1).2 =
      (CreateVisitorEntry.handleSubmit auth s2).2 ∧
    (CreateVisitorEntry.handleSubmit auth s1).1.error =
      (CreateVisitorEntry.handleSubmit auth s2).1.error ∧
    (CreateVisitorEntry.handleSubmit auth s1).1.formData =
      (CreateVisitorEntry.handleSubmit auth s2).1.formData ∧
    CreateVisitorEntry.submitAvailable emailTypeValid
        { s1 with hostFound := hostFound, hostName := hostName } =
      CreateVisitorEntry.submitAvailable emailTypeValid s1 ∧
    CreateVisitorEntry.handleSubmit auth
        { s1 with hostFound := hostFound, hostName := hostName } =
      ({ (CreateVisitorEntry.handleSubmit auth s1).1 with
          hostFound := hostFound, hostName := hostName },
       (CreateVisitorEntry.handleSubmit auth s1).2) ∧
    (CreateVisitorEntry.step emailTypeValid auth
        { s1 with hostFound := hostFound, hostName := hostName } .submit).map Prod.snd =
      (CreateVisitorEntry.step emailTypeValid auth s1 .submit).map Prod.snd := by
  have hsub : CreateVisitorEntry.handleSubmit auth
        { s1 with hostFound := hostFound, hostName := hostName } =
      ({ (CreateVisitorEntry.handleSubmit auth s1).1 with
          hostFound := hostFound, hostName := hostName },
       (CreateVisitorEntry.handleSubmit auth s1).2) := by
    unfold CreateVisitorEntry.handleSubmit
    split
    · rfl
    · split
      · rfl
      · split <;> rfl
  refine ⟨?_, ?_, ?_, rfl, hsub, ?_⟩
  · unfold CreateVisitorEntry.handleSubmit
    rw [h]
    split
    · rfl
    · split
      · rfl
      · split <;> rfl
  · unfold CreateVisitorEntry.handleSubmit
    rw [h]
    split
    · rfl
    · split
      · rfl
      · split <;> rfl
  · unfold CreateVisitorEntry.handleSubmit
    rw [h]
    split
    · rfl
    · split
      · rfl
      · split <;> rfl
  · have hav : CreateVisitorEntry.submitAvailable emailTypeValid
        { s1 with hostFound := hostFound, hostName := hostName } =
        CreateVisitorEntry.submitAvailable emailTypeValid s1 := rfl
    simp only [CreateVisitorEntry.step, hav, hsub]
    split <;> rfl

/-- An instance of C17: the same filled-in form with the host found and with
the host not found. -/
theorem host_lookup_not_in_submit_witness :
    (CreateVisitorEntry.handleSubmit ⟨some ⟨"S1", "Guard", some "SECURITY"⟩, some "tok"⟩
      { CreateVisitorState.init with
        formData := { VisitorForm.init with
          name := "Asha Rao", mobile := "9876543210", emp_mobile_no := "9123456780",
          id_number := "ID42" }
        hostFound := some true, hostName := "Dev" }).2 =
    (CreateVisitorEntry.handleSubmit ⟨some ⟨"S1", "Guard", some "SECURITY"⟩, some "tok"⟩
      { CreateVisitorState.init with
        formData := { VisitorForm.init with
          name := "Asha Rao", mobile := "9876543210", emp_mobile_no := "9123456780",
          id_number := "ID42" }
        hostFound := some false, hostName := "" }).2 :=
  (host_lookup_not_in_submit (fun _ => true)
    ⟨some ⟨"S1", "Guard", some "SECURITY"⟩, some "tok"⟩
    { CreateVisitorState.init with
      formData := { VisitorForm.init with
        name := "Asha Rao", mobile := "9876543210", emp_mobile_no := "9123456780",
        id_number := "ID42" }
      hostFound := some true, hostName := "Dev" }
    { CreateVisitorState.init with
      formData := { VisitorForm.init with
        name := "Asha Rao", mobile := "9876543210", emp_mobile_no := "9123456780",
        id_number := "ID42" }
      hostFound := some false, hostName := "" }
    none "" rfl).1

/-- C15: a visitor name whose first character is an ASCII digit is not
accepted by the name input's pattern `^[^\d][\w\s]*$`, so the browser
delivers no submit event and `handleSubmit` does not run for it; and from
mount on, whatever the events, every create-entry request carries a name
whose first character is not a digit. -/
theorem name_starting_with_digit_rejected (emailTypeValid : String → Bool) (auth : AuthCtx)
    (s : CreateVisitorState) (c : Char) (rest : List Char)
    (hname : s.formData.name.toList = c :: rest) (hc : c.isDigit = true) :
    namePattern.test s.formData.name = false ∧
    CreateVisitorEntry.submitAvailable emailTypeValid s = false ∧
    CreateVisitorEntry.step emailTypeValid auth s .submit = none ∧
    (∀ es s1 reqs, CreateVisitorEntry.mountAndRun emailTypeValid auth es = some (s1, reqs) →
      ∀ r ∈ reqs, ∀ body, r.body = some body →
        ∃ c0 rest0, body.name.toList = c0 :: rest0 ∧ c0.isDigit = false) := by
  have hpat : namePattern.test s.formData.name = false := by
    cases h : namePattern.test s.formData.name with
    | false => rfl
    | true =>
      obtain ⟨c0, rest0, h0, hd⟩ := namePattern_first_not_digit _ h
      rw [hname] at h0
      simp only [List.cons.injEq] at h0
      rw [h0.1, hd] at hc
      cases hc
  have hav : CreateVisitorEntry.submitAvailable emailTypeValid s = false := by
    cases h : CreateVisitorEntry.submitAvailable emailTypeValid s with
    | false => rfl
    | true =>
      rw [CreateVisitorEntry.submitAvailable_name emailTypeValid s h] at hpat
      cases hpat
  refine ⟨hpat, hav, by simp [CreateVisitorEntry.step, hav], ?_⟩
  intro es s1 reqs hrun r hr body hb
  simp only [CreateVisitorEntry.mountAndRun, Option.map_eq_some'] at hrun
  obtain ⟨⟨s2, r2⟩, hrun, h⟩ := hrun
  simp only [Prod.mk.injEq] at h
  obtain ⟨rfl, rfl⟩ := h
  rcases List.mem_append.1 hr with hr | hr
  · simp only [CreateVisitorEntry.fetchMasterData, List.mem_cons, List.mem_singleton,
      List.not_mem_nil, or_false] at hr
    rcases hr with rfl | rfl | rfl <;> cases hb
  · exact namePattern_first_not_digit _
      ((CreateVisitorEntry.run_inv emailTypeValid auth es _ s2 r2 hrun).2 r hr body hb)

/-- An instance of C15: an otherwise valid form whose visitor name is
7 Asha. -/
theorem name_starting_with_digit_rejected_witness :
    CreateVisitorEntry.step (fun _ => true)
      ⟨some ⟨"S1", "Guard", some "SECURITY"⟩, some "tok"⟩
      { CreateVisitorState.init with
        formData := { VisitorForm.init with
          name := "7 Asha", mobile := "9876543210", emp_mobile_no := "9123456780",
          id_number := "ID42" } } .submit = none :=
  (name_starting_with_digit_rejected (fun _ => true)
    ⟨some ⟨"S1", "Guard", some "SECURITY"⟩, some "tok"⟩
    { CreateVisitorState.init with
      formData := { VisitorForm.init with
        name := "7 Asha", mobile := "9876543210", emp_mobile_no := "9123456780",
        id_number := "ID42" } }
    '7' [' ', 'A', 's', 'h', 'a'] rfl (by decide)).2.2.1

/-- C16: the number of fellow-visitor detail entries never exceeds the
declared count.  The bound holds in the initial form; changing the count
sets it to `max(0, parsed integer or 0)` and the details to the first
`count` existing entries, unchanged and in order, which re-establishes the
bound; editing the name or mobile of a rendered index keeps it; and it
holds after every sequence of events from mount on. -/
theorem fellow_details_within_count (emailTypeValid : String → Bool) (auth : AuthCtx)
    (s : CreateVisitorState) (parsed : ParseIntResult) (k : Int) (index n : Nat)
    (value : String)
    (hinv : s.formData.fellow_visitors.geNat s.formData.fellow_visitors_details.length)
    (hn : fellowBlocks s.formData.fellow_visitors = some n) (hi : index < n) :
    VisitorForm.init.fellow_visitors.geNat VisitorForm.init.fellow_visitors_details.length ∧
    fellowCount (.int k) = .fin (max 0 k).toNat ∧ fellowCount .nan = .fin 0 ∧
    (CreateVisitorEntry.setFellowVisitors s parsed).formData.fellow_visitors =
      fellowCount parsed ∧
    (CreateVisitorEntry.setFellowVisitors s parsed).formData.fellow_visitors_details <+:
      s.formData.fellow_visitors_details ∧
    (∀ m, fellowCount parsed = .fin m →
      (CreateVisitorEntry.setFellowVisitors s parsed).formData.fellow_visitors_details =
        s.formData.fellow_visitors_details.take m) ∧
    (CreateVisitorEntry.setFellowVisitors s parsed).formData.fellow_visitors.geNat
      (CreateVisitorEntry.setFellowVisitors s parsed).formData.fellow_visitors_details.length ∧
    (CreateVisitorEntry.setFellowName s index value).formData.fellow_visitors.geNat
      (CreateVisitorEntry.setFellowName s index value).formData.fellow_visitors_details.length ∧
    (CreateVisitorEntry.setFellowMobile s index value).formData.fellow_visitors.geNat
      (CreateVisitorEntry.setFellowMobile s index value).formData.fellow_visitors_details.length ∧
    (∀ es s1 reqs, CreateVisitorEntry.mountAndRun emailTypeValid auth es = some (s1, reqs) →
      s1.formData.fellow_visitors.geNat s1.formData.fellow_visitors_details.length) := by
  refine ⟨?_, ?_, rfl, rfl, ?_, ?_, ?_, ?_, ?_, ?_⟩
  · simp [VisitorForm.init, JSCount.geNat]
  · simp only [fellowCount, JSCount.fin.injEq]
    omega
  · exact JSCount.slice_prefix _ _
  · intro m hm
    simp only [CreateVisitorEntry.setFellowVisitors, hm, JSCount.slice]
  · exact JSCount.geNat_slice _ _
  · simp only [CreateVisitorEntry.setFellowName]
    exact setFellowAt_within _ _ index n _ hinv hn hi
  · simp only [CreateVisitorEntry.setFellowMobile]
    exact setFellowAt_within _ _ index n _ hinv hn hi
  · intro es s1 reqs hrun
    simp only [CreateVisitorEntry.mountAndRun, Option.map_eq_some'] at hrun
    obtain ⟨⟨s2, r2⟩, hrun, h⟩ := hrun
    simp only [Prod.mk.injEq] at h
    obtain ⟨rfl, rfl⟩ := h
    exact (CreateVisitorEntry.run_inv emailTypeValid auth es _ s2 r2 hrun).1
      (by simp [CreateVisitorState.init, VisitorForm.init, JSCount.geNat])

/-- An instance of C16: a form declaring three fellow visitors with one
detail entry; the third name is edited, then the count is set to 1. -/
theorem fellow_details_within_count_witness :
    (CreateVisitorEntry.setFellowName
      { CreateVisitorState.init with
        formData := { VisitorForm.init with
          fellow_visitors := .fin 3
          fellow_visitors_details := [some ⟨some "Bina", some "9000000001"⟩] } }
      2 "Chand").formData.fellow_visitors_details =
      [some ⟨some "Bina", some "9000000001"⟩, none, some ⟨some "Chand", none⟩] ∧
    (CreateVisitorEntry.setFellowName
      { CreateVisitorState.init with
        formData := { VisitorForm.init with
          fellow_visitors := .fin 3
          fellow_visitors_details := [some ⟨some "Bina", some "9000000001"⟩] } }
      2 "Chand").formData.fellow_visitors.geNat 3 ∧
    (CreateVisitorEntry.setFellowVisitors
      { CreateVisitorState.init with
        formData := { VisitorForm.init with
          fellow_visitors := .fin 3
          fellow_visitors_details := [some ⟨some "Bina", some "9000000001"⟩] } }
      (.int 1)).formData.fellow_visitors = .fin 1 :=
  ⟨rfl,
   (fellow_details_within_count (fun _ => true)
      ⟨some ⟨"S1", "Guard", some "SECURITY"⟩, some "tok"⟩
      { CreateVisitorState.init with
        formData := { VisitorForm.init with
          fellow_visitors := .fin 3
          fellow_visitors_details := [some ⟨some "Bina", some "9000000001"⟩] } }
      (.int 1) 1 2 3 "Chand" (by show 1 ≤ 3; decide) rfl (by decide)).2.2.2.2.2.2.2.1,
   (fellow_details_within_count (fun _ => true)
      ⟨some ⟨"S1", "Guard", some "SECURITY"⟩, some "tok"⟩
      { CreateVisitorState.init with
        formData := { VisitorForm.init with
          fellow_visitors := .fin 3
          fellow_visitors_details := [some ⟨some "Bina", some "9000000001"⟩] } }
      (.int 1) 1 2 3 "Chand" (by show 1 ≤ 3; decide) rfl (by decide)).2.2.2.1⟩

/-! ## Approval and checkout of visitors -/

/-- C18: for an identity whose role is one of the four declared roles, the
Approve and Reject controls of `ApproveVisitor` are offered (the test
`user_role !== "SECURITY"`) exactly when
`checkPermission(identity, "APPROVE_VISITOR")` is `true`. -/
theorem approve_controls_iff_permission (u : User) (role : String)
    (hrole : role ∈ declaredRoles) (hu : u.user_role = some role) :
    ApproveVisitor.controlsOffered u = true ↔
      checkPermission (some u) "APPROVE_VISITOR" = .ok (.bool true) := by
  simp only [declaredRoles, List.mem_cons, List.mem_singleton, List.not_mem_nil,
    or_false] at hrole
  have hcp : ∀ r : String, u.user_role = some r →
      checkPermission (some u) "APPROVE_VISITOR" =
        checkPermission (some ⟨"", "", some r⟩) "APPROVE_VISITOR" := by
    intro r hr
    simp only [checkPermission, hr]
  rcases hrole with rfl | rfl | rfl | rfl <;>
    simp only [ApproveVisitor.controlsOffered, hu, hcp _ hu] <;> decide

/-- An instance of C18: a USER identity is offered the controls and holds
APPROVE_VISITOR. -/
theorem approve_controls_iff_permission_witness :
    ApproveVisitor.controlsOffered ⟨"E2", "Bina", some "USER"⟩ = true ↔
      checkPermission (some ⟨"E2", "Bina", some "USER"⟩) "APPROVE_VISITOR" =
        .ok (.bool true) :=
  approve_controls_iff_permission ⟨"E2", "Bina", some "USER"⟩ "USER" (by decide) rfl

/-- C19: with an empty `rejectionReason`, `handleAction(card_no, "R")`
passes the local check, sets no error and sends the payload
`{card_no, action: "R", rejection_reason: ""}`; and for action "A" the
payload's `rejection_reason` is `null` whatever the reason text is. -/
theorem reject_without_reason_sent (auth : AuthCtx) (s other : ApproveVisitorState)
    (card_no : String) (h : s.rejectionReason = "") :
    (ApproveVisitor.handleAction auth s card_no "R").2 =
      [{ endpoint := "/api/visitors/approve", method := "POST",
         body := some { card_no := card_no, action := "R", rejection_reason := some "" },
         token := auth.token }] ∧
    (ApproveVisitor.handleAction auth s card_no "R").1.actionError = "" ∧
    (ApproveVisitor.handleAction auth other card_no "A").2 =
      [{ endpoint := "/api/visitors/approve", method := "POST",
         body := some { card_no := card_no, action := "A", rejection_reason := none },
         token := auth.token }] ∧
    (ApproveVisitor.handleAction auth other card_no "A").1.actionError = "" := by
  have h0 : jsStringGt300 "" = false := by decide
  have hA : ¬ ("A" = "R") := by decide
  refine ⟨?_, ?_, ?_, ?_⟩
  · simp [ApproveVisitor.handleAction, h, h0]
  · simp [ApproveVisitor.handleAction, h, h0]
  · simp [ApproveVisitor.handleAction, hA]
  · simp [ApproveVisitor.handleAction, hA]

/-- An instance of C19: the card C1001 rejected with no reason, and approved
while a reason text is in the box. -/
theorem reject_without_reason_sent_witness :
    (ApproveVisitor.handleAction ⟨some ⟨"E2", "Bina", some "USER"⟩, some "tok"⟩
      { ApproveVisitorState.init with loading := false } "C1001" "R").2 =
      [{ endpoint := "/api/visitors/approve", method := "POST",
         body := some { card_no := "C1001", action := "R", rejection_reason := some "" },
         token := some "tok" }] ∧
    (ApproveVisitor.handleAction ⟨some ⟨"E2", "Bina", some "USER"⟩, some "tok"⟩
      { ApproveVisitorState.init with loading := false, rejectionReason := "no badge" }
      "C1001" "A").2 =
      [{ endpoint := "/api/visitors/approve", method := "POST",
         body := some { card_no := "C1001", action := "A", rejection_reason := none },
         token := some "tok" }] :=
  ⟨(reject_without_reason_sent ⟨some ⟨"E2", "Bina", some "USER"⟩, some "tok"⟩
      { ApproveVisitorState.init with loading := false }
      { ApproveVisitorState.init with loading := false, rejectionReason := "no badge" }
      "C1001" rfl).1,
   (reject_without_reason_sent ⟨some ⟨"E2", "Bina", some "USER"⟩, some "tok"⟩
      { ApproveVisitorState.init with loading := false }
      { ApproveVisitorState.init with loading := false, rejectionReason := "no badge" }
      "C1001" rfl).2.2.1⟩

/-- C20 (against the workflow modelled from the spec): a checkout is
accepted only for an entry that is Approved and has no checkout timestamp,
and then sets the timestamp; a second checkout of the same card number is
answered with an error and changes no entry, so no second timestamp is
produced.  On the client, `handleCheckout` issues the request without a
local check; after an accepted checkout a second click sends the request
again, shows the server's error and triggers no refresh. -/
theorem checkout_exactly_once (auth : AuthCtx) (s : CheckoutVisitorState)
    (entries : List VisitorEntry) (entry checkedOut : VisitorEntry)
    (card_no message : String) (now later : Nat)
    (h : VisitorWorkflow.checkout entry auth.user now = .ok checkedOut)
    (hs : (VisitorWorkflow.checkoutVisitor entries card_no auth.user now).1 = .ok message) :
    entry.approvalStatus = .Approved ∧ entry.checkoutTimestamp = none ∧
    checkedOut.checkoutTimestamp = some now ∧
    (∃ msg, VisitorWorkflow.checkout checkedOut auth.user later = .error msg) ∧
    (CheckoutVisitor.handleCheckout auth s card_no).2 =
      [{ endpoint := "/api/visitors/" ++ card_no ++ "/checkout", method := "POST",
         body := none, token := auth.token }] ∧
    (∃ msg,
      CheckoutVisitor.checkoutExchange auth
          (CheckoutVisitor.checkoutExchange auth (s, entries) card_no now).1 card_no later =
        ((({ (CheckoutVisitor.checkoutExchange auth (s, entries) card_no now).1.1 with
              actionError := msg, actionSuccess := "" },
           (CheckoutVisitor.checkoutExchange auth (s, entries) card_no now).1.2)),
         [{ endpoint := "/api/visitors/" ++ card_no ++ "/checkout", method := "POST",
            body := none, token := auth.token }])) := by
  obtain ⟨_, h1, h2, h3⟩ := VisitorWorkflow.checkout_ok entry checkedOut auth.user now h
  have hts : checkedOut.checkoutTimestamp = some now := by rw [h3]
  refine ⟨h1, h2, hts, VisitorWorkflow.checkout_again checkedOut auth.user now later hts,
    rfl, ?_⟩
  obtain ⟨msg, hmsg⟩ :=
    VisitorWorkflow.checkoutVisitor_twice entries card_no auth.user now later message hs
  refine ⟨msg, ?_⟩
  simp only [CheckoutVisitor.checkoutExchange, hmsg, CheckoutVisitor.handleCheckoutSettle,
    CheckoutVisitor.handleCheckout, List.append_nil]

/-- An instance of C20: the approved entry C1001 checked out at time 100 by
a SECURITY requester. -/
theorem checkout_exactly_once_witness :
    (⟨"C1001", .Approved, none, some 100⟩ : VisitorEntry).checkoutTimestamp = some 100 ∧
    ∃ msg, VisitorWorkflow.checkout ⟨"C1001", .Approved, none, some 100⟩
      (some ⟨"S1", "Guard", some "SECURITY"⟩) 250 = .error msg :=
  ⟨(checkout_exactly_once ⟨some ⟨"S1", "Guard", some "SECURITY"⟩, some "tok"⟩
      CheckoutVisitorState.init [⟨"C1001", .Approved, none, none⟩]
      ⟨"C1001", .Approved, none, none⟩ ⟨"C1001", .Approved, none, some 100⟩
      "C1001" "Visitor checked out." 100 250 (by decide) (by decide)).2.2.1,
   (checkout_exactly_once ⟨some ⟨"S1", "Guard", some "SECURITY"⟩, some "tok"⟩
      CheckoutVisitorState.init [⟨"C1001", .Approved, none, none⟩]
      ⟨"C1001", .Approved, none, none⟩ ⟨"C1001", .Approved, none, some 100⟩
      "C1001" "Visitor checked out." 100 250 (by decide) (by decide)).2.2.2.1⟩

/-! ## Persisted credentials and the rendered view -/

/-- C21: the predicate "`vms_token` is present in `localStorage` iff
`vms_user` is present" holds in the empty store and is preserved by a
successful login (which leaves both present), by logout, by inactivity
expiry, by unload handling and by restore, its parse-failure branch
included. -/
theorem credentials_paired {J : Type} (parse : String → Option (Option J))
    (stringify : Option J → String) (s : AppState J) (l : LoginState) (data : LoginData J)
    (sessionStorage : Storage)
    (hinv : (s.localStorage.getItem "vms_token").isSome =
      (s.localStorage.getItem "vms_user").isSome) :
    (Storage.getItem [] "vms_token").isSome = (Storage.getItem [] "vms_user").isSome ∧
    ((Login.handleSubmitSettle stringify l s (.ok data)).2.localStorage.getItem
        "vms_token").isSome = true ∧
    ((Login.handleSubmitSettle stringify l s (.ok data)).2.localStorage.getItem
        "vms_user").isSome = true ∧
    ((handleLogout s).localStorage.getItem "vms_token").isSome =
      ((handleLogout s).localStorage.getItem "vms_user").isSome ∧
    ((Dashboard.timerCallback s).1.localStorage.getItem "vms_token").isSome =
      ((Dashboard.timerCallback s).1.localStorage.getItem "vms_user").isSome ∧
    ((Dashboard.handleUnload sessionStorage s.localStorage).2.getItem "vms_token").isSome =
      ((Dashboard.handleUnload sessionStorage s.localStorage).2.getItem "vms_user").isSome ∧
    ((restore parse s).localStorage.getItem "vms_token").isSome =
      ((restore parse s).localStorage.getItem "vms_user").isSome := by
  have hrm : ∀ ls : Storage,
      (((ls.removeItem "vms_token").removeItem "vms_user").getItem "vms_token").isSome =
      (((ls.removeItem "vms_token").removeItem "vms_user").getItem "vms_user").isSome := by
    intro ls
    rw [getItem_removeItem_other _ _ _ (by decide), getItem_removeItem_self,
      getItem_removeItem_self]
  refine ⟨rfl, ?_, ?_, hrm _, hrm _, ?_, ?_⟩
  · simp only [Login.handleSubmitSettle]
    rw [getItem_setItem_other _ _ _ _ (by decide), getItem_setItem_self]
    rfl
  · simp only [Login.handleSubmitSettle]
    rw [getItem_setItem_self]
    rfl
  · simp only [Dashboard.handleUnload]
    cases optTruthy (sessionStorage.getItem "reloading")
    · exact hrm _
    · exact hinv
  · simp only [restore]
    split
    · split
      · exact hinv
      · rfl
    · exact hinv

/-- An instance of C21: a store holding both credentials, through a
successful login of E7. -/
theorem credentials_paired_witness :
    ((Login.handleSubmitSettle (fun _ : Option User => "null") LoginState.init
        (AppState.init [("vms_token", "abc"), ("vms_user", "null")])
        (.ok ⟨some "tok", some ⟨"E7", "Asha", some "HR"⟩⟩)).2.localStorage.getItem
        "vms_token").isSome = true ∧
    ((handleLogout (AppState.init [("vms_token", "abc"), ("vms_user", "null")] :
        AppState User)).localStorage.getItem "vms_token").isSome =
      ((handleLogout (AppState.init [("vms_token", "abc"), ("vms_user", "null")] :
        AppState User)).localStorage.getItem "vms_user").isSome :=
  ⟨(credentials_paired sampleParse (fun _ : Option User => "null")
      (AppState.init [("vms_token", "abc"), ("vms_user", "null")]) LoginState.init
      ⟨some "tok", some ⟨"E7", "Asha", some "HR"⟩⟩ [] rfl).2.1,
   (credentials_paired sampleParse (fun _ : Option User => "null")
      (AppState.init [("vms_token", "abc"), ("vms_user", "null")]) LoginState.init
      ⟨some "tok", some ⟨"E7", "Asha", some "HR"⟩⟩ [] rfl).2.2.2.1⟩

/-- C22: once loading has finished, `App` renders `Dashboard` exactly when
`auth.token` and `auth.user` are both truthy, and `Login` otherwise; after
logout and after inactivity expiry it renders `Login`. -/
theorem dashboard_iff_live_session {J : Type} (truthy : J → Bool) (s : AppState J)
    (h : s.loading = false) :
    (App.render truthy s = .Dashboard ↔
      (∃ t, s.auth.token = some t ∧ t ≠ "") ∧ (∃ u, s.auth.user = some u ∧ truthy u = true)) ∧
    (App.render truthy s = .Login ↔
      ¬ ((∃ t, s.auth.token = some t ∧ t ≠ "") ∧
         (∃ u, s.auth.user = some u ∧ truthy u = true))) ∧
    App.render truthy (handleLogout s) = .Login ∧
    App.render truthy (Dashboard.timerCallback s).1 = .Login := by
  have key : ∀ a : AppState J, a.loading = false →
      (App.render truthy a = .Dashboard ↔
        (∃ t, a.auth.token = some t ∧ t ≠ "") ∧
        (∃ u, a.auth.user = some u ∧ truthy u = true)) ∧
      (App.render truthy a = .Login ↔
        ¬ ((∃ t, a.auth.token = some t ∧ t ≠ "") ∧
           (∃ u, a.auth.user = some u ∧ truthy u = true))) := by
    intro a ha
    obtain ⟨ls, ⟨tok, usr⟩, ld⟩ := a
    simp only at ha
    subst ha
    cases tok with
    | none => simp [App.render, optTruthy]
    | some t =>
      by_cases ht : t = ""
      · simp [App.render, optTruthy, strTruthy, ht]
      · cases usr with
        | none => simp [App.render, optTruthy, strTruthy, ht]
        | some u =>
          cases hu : truthy u <;> simp [App.render, optTruthy, strTruthy, ht, hu]
  refine ⟨(key s h).1, (key s h).2, ?_, ?_⟩
  · simp [App.render, handleLogout, h, optTruthy]
  · simp [App.render, Dashboard.timerCallback, h, optTruthy]

/-- An instance of C22: the session of E7 after restore. -/
theorem dashboard_iff_live_session_witness :
    App.render (fun _ : User => true)
        { localStorage := [], auth := { token := some "abc", user := some ⟨"E7", "Asha", some "HR"⟩ },
          loading := false } = .Dashboard ↔
      (∃ t, (some "abc" : Option String) = some t ∧ t ≠ "") ∧
      (∃ u, (some ⟨"E7", "Asha", some "HR"⟩ : Option User) = some u ∧
        (fun _ : User => true) u = true) :=
  (dashboard_iff_live_session (fun _ : User => true)
    { localStorage := [], auth := { token := some "abc", user := some ⟨"E7", "Asha", some "HR"⟩ },
      loading := false } rfl).1

/-- C28: for every state of `sessionStorage` and `localStorage`, running
`markReload` and then `handleUnload` leaves `localStorage` unchanged and the
"reloading" flag absent; `handleUnload` removes the credentials exactly when
its test `!isReloading` holds, which it never does right after
`markReload`. -/
theorem markReload_then_handleUnload (sessionStorage localStorage : Storage) :
    (Dashboard.handleUnload (Dashboard.markReload sessionStorage) localStorage).2 =
      localStorage ∧
    (Dashboard.handleUnload (Dashboard.markReload sessionStorage) localStorage).1.getItem
      "reloading" = none ∧
    Dashboard.clearsCredentials (Dashboard.markReload sessionStorage) = false ∧
    (Dashboard.handleUnload sessionStorage localStorage).2 =
      (if Dashboard.clearsCredentials sessionStorage then
        (localStorage.removeItem "vms_token").removeItem "vms_user"
      else localStorage) := by
  have hflag := Dashboard.markReload_flag sessionStorage
  have ht : optTruthy ((Dashboard.markReload sessionStorage).getItem "reloading") = true := by
    rw [hflag]; decide
  refine ⟨?_, ?_, ?_, ?_⟩
  · simp [Dashboard.handleUnload, ht]
  · simp only [Dashboard.handleUnload, ht]
    exact getItem_removeItem_self _ _
  · simp [Dashboard.clearsCredentials, ht]
  · cases hc : optTruthy (sessionStorage.getItem "reloading") <;>
      simp [Dashboard.handleUnload, Dashboard.clearsCredentials, hc]

/-! ## Errors shown to the user -/

/-- C23 (counterexample): a create-user request rejected with the detail
"Employee ID already exists" is not shown verbatim: `CreateUser` shows
"This employee ID is already registered." -/
theorem createUser_error_not_verbatim :
    (apiRequest (.notOk 400 (.object (some "Employee ID already exists"))) :
      Except String String) = .error "Employee ID already exists" ∧
    (CreateUser.handleSubmitSettle CreateUserState.init
      (.error "Employee ID already exists")).error =
      "This employee ID is already registered." ∧
    (CreateUser.handleSubmitSettle CreateUserState.init
      (.error "Employee ID already exists")).error ≠ "Employee ID already exists" := by
  decide

/-- C23 (amended): a non-success response whose body is a JSON object with a
non-empty string `detail` makes `apiRequest` throw an error with exactly
that message (and a rejected `fetch` its own message); for login, the user
list, lock / unlock, create visitor entry, the visitor list, the pending
list, approve / reject, the active list, checkout and the report fetch, a
failure with message `m` is shown as exactly `m`.  Create user shows one of
three fixed messages, the master-data fetch a fixed message, and a failed
host lookup shows "Host not found". -/
theorem failure_messages_shown {J ρ δ α : Type} (stringify : Option J → String)
    (auth : AuthCtx) (m d : String) (status : Nat) (login : LoginState) (app : AppState J)
    (vu : ViewUsersState) (cv : CreateVisitorState) (captured : MasterData)
    (vv : ViewVisitorsState ρ) (av : ApproveVisitorState) (co : CheckoutVisitorState)
    (vr : ViewReportsState δ) (cu : CreateUserState) :
    (apiRequest (.notOk status (.object (some d))) : Except String α) =
      .error (if d = "" then "HTTP error! status: " ++ toString status else d) ∧
    (apiRequest (.rejected m) : Except String α) = .error m ∧
    (Login.handleSubmitSettle stringify login app (.error m)).1.error = m ∧
    (ViewUsers.fetchUsersSettle vu (.error m)).error = m ∧
    (ViewUsers.handleActionSettle auth vu (.error m)).1.actionError = m ∧
    (CreateVisitorEntry.handleSubmitSettle cv captured (.error m)).error = m ∧
    (ViewVisitors.fetchVisitorsSettle vv (.error m)).error = m ∧
    (ApproveVisitor.fetchPendingSettle av (.error m)).error = m ∧
    (ApproveVisitor.handleActionSettle auth av (.error m)).1.actionError = m ∧
    (CheckoutVisitor.fetchActiveVisitorsSettle co (.error m)).error = m ∧
    (CheckoutVisitor.handleCheckoutSettle auth co (.error m)).1.actionError = m ∧
    (ViewReports.fetchReportSettle vr (.error m)).error = m ∧
    (CreateUser.handleSubmitSettle cu (.error m)).error ∈
      ["This mobile number is already registered.",
       "This employee ID is already registered.",
       "Failed to create user. Please try again."] ∧
    (CreateVisitorEntry.fetchMasterDataSettle cv (.error m)).error =
      "Failed to load master data. Please try again." ∧
    (CreateVisitorEntry.lookupHostSettle cv (.error m)).hostFound = some false := by
  refine ⟨?_, rfl, rfl, rfl, rfl, rfl, rfl, rfl, rfl, rfl, rfl, rfl, ?_, rfl, rfl⟩
  · by_cases hd : d = ""
    · subst hd
      simp [apiRequest, optTruthy, strTruthy]
    · simp [apiRequest, optTruthy, strTruthy, hd]
  · simp only [CreateUser.handleSubmitSettle]
    split
    · simp
    · split <;> simp

/-- C24: `handleAction(card_no, "R")` is blocked with "Rejection reason is
too long." exactly when the reason, converted to a number, is greater than
300; a reason of 301 letters is accepted and sent, and the reason "301" is
blocked. -/
theorem rejection_check_compares_number (auth : AuthCtx) (s : ApproveVisitorState)
    (card_no : String) :
    (((ApproveVisitor.handleAction auth s card_no "R").2 = [] ∧
      (ApproveVisitor.handleAction auth s card_no "R").1.actionError =
        "Rejection reason is too long.") ↔
      (stringToNumber s.rejectionReason).gt300 = true) ∧
    ((ApproveVisitor.handleAction auth s card_no "R").2 =
        [{ endpoint := "/api/visitors/approve", method := "POST",
           body := some { card_no := card_no, action := "R",
                          rejection_reason := some s.rejectionReason },
           token := auth.token }] ↔
      (stringToNumber s.rejectionReason).gt300 = false) ∧
    (String.mk (List.replicate 301 'a')).length = 301 ∧
    (ApproveVisitor.handleAction auth
        { s with rejectionReason := String.mk (List.replicate 301 'a') } card_no "R").2 =
      [{ endpoint := "/api/visitors/approve", method := "POST",
         body := some { card_no := card_no, action := "R",
                        rejection_reason := some (String.mk (List.replicate 301 'a')) },
         token := auth.token }] ∧
    ("301" : String).length = 3 ∧
    (ApproveVisitor.handleAction auth { s with rejectionReason := "301" } card_no "R").2 =
      [] ∧
    (ApproveVisitor.handleAction auth { s with rejectionReason := "301" }
      card_no "R").1.actionError = "Rejection reason is too long." := by
  have hletters : jsStringGt300 (String.mk (List.replicate 301 'a')) = false := by decide
  have h301 : jsStringGt300 "301" = true := by decide
  refine ⟨?_, ?_, List.length_replicate _ _, ?_, by decide, ?_, ?_⟩
  · cases hg : (stringToNumber s.rejectionReason).gt300 <;>
      simp [ApproveVisitor.handleAction, jsStringGt300, hg]
  · cases hg : (stringToNumber s.rejectionReason).gt300 <;>
      simp [ApproveVisitor.handleAction, jsStringGt300, hg]
  · simp only [ApproveVisitor.handleAction, hletters, Bool.false_eq_true, and_false,
      if_false, if_true]
  · simp [ApproveVisitor.handleAction, h301]
  · simp [ApproveVisitor.handleAction, h301]

/-! ## Account states and actions in `ViewUsers` -/

/-- C25: for every requester and every account, `ViewUsers` offers at most
one of Lock and Unlock; for a status other than "A" and "L", which the badge
shows as "Inactive", it offers neither, and no click on such a row is
possible. -/
theorem no_action_on_inactive (auth : AuthCtx) (s : ViewUsersState) (user : ManagedUser)
    (confirmed : Bool) :
    ¬ (ViewUsers.lockOffered auth user = .ok true ∧
       ViewUsers.unlockOffered auth user = .ok true) ∧
    (user.status ≠ "A" → user.status ≠ "L" →
      ViewUsers.lockOffered auth user = .ok false ∧
      ViewUsers.unlockOffered auth user = .ok false ∧
      ViewUsers.statusLabel user = "Inactive" ∧
      ViewUsers.step auth s (.clickLock user confirmed) = none ∧
      ViewUsers.step auth s (.clickUnlock user confirmed) = none) := by
  refine ⟨?_, ?_⟩
  · rintro ⟨hl, hu⟩
    have h1 := ((lockOffered_eq_true_iff auth user).1 hl).1
    have h2 := ((unlockOffered_eq_true_iff auth user).1 hu).1
    rw [h1] at h2
    exact absurd h2 (by decide)
  · intro hA hL
    have hl : ViewUsers.lockOffered auth user = .ok false := by
      simp [ViewUsers.lockOffered, hA]
    have hu : ViewUsers.unlockOffered auth user = .ok false := by
      simp [ViewUsers.unlockOffered, hL]
    refine ⟨hl, hu, by simp [ViewUsers.statusLabel, hA, hL], ?_, ?_⟩
    · simp [ViewUsers.step, hl]
    · simp [ViewUsers.step, hu]

/-- An instance of C25: an account with status "I" seen by an HR requester. -/
theorem no_action_on_inactive_witness :
    ViewUsers.lockOffered ⟨some ⟨"E7", "Asha", some "HR"⟩, some "tok"⟩
      ⟨"E4", "Esha", "USER", "I"⟩ = .ok false ∧
    ViewUsers.unlockOffered ⟨some ⟨"E7", "Asha", some "HR"⟩, some "tok"⟩
      ⟨"E4", "Esha", "USER", "I"⟩ = .ok false ∧
    ViewUsers.statusLabel ⟨"E4", "Esha", "USER", "I"⟩ = "Inactive" :=
  ⟨((no_action_on_inactive ⟨some ⟨"E7", "Asha", some "HR"⟩, some "tok"⟩
      { ViewUsersState.init with users := [⟨"E4", "Esha", "USER", "I"⟩], loading := false }
      ⟨"E4", "Esha", "USER", "I"⟩ true).2 (by decide) (by decide)).1,
   ((no_action_on_inactive ⟨some ⟨"E7", "Asha", some "HR"⟩, some "tok"⟩
      { ViewUsersState.init with users := [⟨"E4", "Esha", "USER", "I"⟩], loading := false }
      ⟨"E4", "Esha", "USER", "I"⟩ true).2 (by decide) (by decide)).2.1,
   ((no_action_on_inactive ⟨some ⟨"E7", "Asha", some "HR"⟩, some "tok"⟩
      { ViewUsersState.init with users := [⟨"E4", "Esha", "USER", "I"⟩], loading := false }
      ⟨"E4", "Esha", "USER", "I"⟩ true).2 (by decide) (by decide)).2.2.1⟩

/-- C26: when the request of `ViewUsers.handleAction` fails with message
`m`, `actionError` becomes `m`, `actionSuccess` stays empty, the users list
is unchanged and no request is issued; when it succeeds, `actionSuccess` is
the response message and exactly one request, the refresh of the account
listing, is issued. -/
theorem action_outcome_reported (auth : AuthCtx) (s : ViewUsersState)
    (endpoint empid m message : String) (masterPassword : Option String) :
    (ViewUsers.handleActionSettle auth
      (ViewUsers.handleAction auth s endpoint empid masterPassword).1 (.error m)).1.actionError
      = m ∧
    (ViewUsers.handleActionSettle auth
      (ViewUsers.handleAction auth s endpoint empid masterPassword).1
      (.error m)).1.actionSuccess = "" ∧
    (ViewUsers.handleActionSettle auth
      (ViewUsers.handleAction auth s endpoint empid masterPassword).1 (.error m)).1.users
      = s.users ∧
    (ViewUsers.handleActionSettle auth
      (ViewUsers.handleAction auth s endpoint empid masterPassword).1 (.error m)).2 = [] ∧
    (ViewUsers.handleActionSettle auth
      (ViewUsers.handleAction auth s endpoint empid masterPassword).1
      (.ok message)).1.actionSuccess = message ∧
    (ViewUsers.handleActionSettle auth
      (ViewUsers.handleAction auth s endpoint empid masterPassword).1
      (.ok message)).1.actionError = "" ∧
    (ViewUsers.handleActionSettle auth
      (ViewUsers.handleAction auth s endpoint empid masterPassword).1 (.ok message)).2 =
      [{ endpoint := "/api/users", method := "GET", body := none, token := auth.token }] ∧
    (ViewUsers.handleActionSettle auth
      (ViewUsers.handleAction auth s endpoint empid masterPassword).1 (.ok message)).2 =
      (ViewUsers.fetchUsersStart auth s).2 :=
  ⟨rfl, rfl, rfl, rfl, rfl, rfl, rfl, rfl⟩

/-! ## The host lookup -/

/-- C27 (counterexample): `lookupHost` issues a lookup request for the
argument "abcdefghij", ten characters none of which is a digit. -/
theorem lookupHost_checks_length_only :
    tenDigitsPattern.test "abcdefghij" = false ∧
    (CreateVisitorEntry.lookupHost ⟨some ⟨"S1", "Guard", some "SECURITY"⟩, some "tok"⟩
      CreateVisitorState.init "abcdefghij").2 =
      [{ endpoint := "/api/users/host_lookup?number=abcdefghij", method := "GET",
         body := none, token := some "tok" }] := by
  decide

/-- C27 (amended): `lookupHost` issues a lookup request exactly when its
argument is not empty and has length 10 (in UTF-16 code units), hence for
every argument of ten decimal digits; for every other argument (empty or of
another length) it issues no request and resets the display state to
`hostFound = null`, `hostName = ""`. -/
theorem lookupHost_by_length (auth : AuthCtx) (s : CreateVisitorState) (number : String) :
    ((CreateVisitorEntry.lookupHost auth s number).2 =
        [{ endpoint := "/api/users/host_lookup?number=" ++ number, method := "GET",
           body := none, token := auth.token }] ↔
      (number ≠ "" ∧ utf16Length number = 10)) ∧
    (tenDigitsPattern.test number = true →
      CreateVisitorEntry.lookupHost auth s number =
        (s, [{ endpoint := "/api/users/host_lookup?number=" ++ number, method := "GET",
               body := none, token := auth.token }])) ∧
    (¬ (number ≠ "" ∧ utf16Length number = 10) →
      CreateVisitorEntry.lookupHost auth s number =
        ({ s with hostFound := none, hostName := "" }, [])) := by
  have key : (!strTruthy number || utf16Length number != 10) = false ↔
      (number ≠ "" ∧ utf16Length number = 10) := by
    simp [strTruthy]
  refine ⟨?_, ?_, ?_⟩
  · rw [← key]
    unfold CreateVisitorEntry.lookupHost
    cases hc : (!strTruthy number || utf16Length number != 10) <;> simp
  · intro h
    obtain ⟨h1, h2⟩ := tenDigits_utf16Length number h
    simp [CreateVisitorEntry.lookupHost, h1, h2]
  · intro h
    have hc : (!strTruthy number || utf16Length number != 10) = true := by
      cases hb : (!strTruthy number || utf16Length number != 10) with
      | true => rfl
      | false => exact absurd (key.1 hb) h
    simp only [CreateVisitorEntry.lookupHost, hc, if_true]

/-- An instance of the amended C27: a ten-digit number and a five-digit
number. -/
theorem lookupHost_by_length_witness :
    CreateVisitorEntry.lookupHost ⟨some ⟨"S1", "Guard", some "SECURITY"⟩, some "tok"⟩
        CreateVisitorState.init "9123456780" =
      (CreateVisitorState.init,
       [{ endpoint := "/api/users/host_lookup?number=" ++ "9123456780", method := "GET",
          body := none, token := some "tok" }]) ∧
    CreateVisitorEntry.lookupHost ⟨some ⟨"S1", "Guard", some "SECURITY"⟩, some "tok"⟩
        { CreateVisitorState.init with hostFound := some true, hostName := "Dev" } "12345" =
      ({ CreateVisitorState.init with hostFound := none, hostName := "" }, []) :=
  ⟨(lookupHost_by_length ⟨some ⟨"S1", "Guard", some "SECURITY"⟩, some "tok"⟩
      CreateVisitorState.init "9123456780").2.1 (by decide),
   (lookupHost_by_length ⟨some ⟨"S1", "Guard", some "SECURITY"⟩, some "tok"⟩
      { CreateVisitorState.init with hostFound := some true, hostName := "Dev" }
      "12345").2.2 (by decide)⟩

/-! ## View routing -/

/-- C29: for a role of the `PERMISSIONS` table, the sidebar entries are that
role's capabilities minus LOCK_USER, UNLOCK_USER, UNACTIVE_USER and
MANAGE_MASTER_DATA, in table order and without duplicates; each has a button
label, so none is dropped, and selects a view other than the welcome page;
hence, starting from `activeView = ""`, every reachable `activeView` is ""
or a capability `c` with `checkPermission(identity, c)` true. -/
theorem routing_within_capabilities (u : User) (role : String)
    (hrole : role ∈ declaredRoles) (hu : u.user_role = some role) :
    ∃ caps, (role, caps) ∈ PERMISSIONS ∧
      sidebarPermissions u = .ok (caps.filter (fun p => !hiddenPermissions.contains p)) ∧
      sidebarButtons u = .ok (caps.filter (fun p => !hiddenPermissions.contains p)) ∧
      (caps.filter (fun p => !hiddenPermissions.contains p)).Nodup ∧
      (∀ p ∈ caps.filter (fun p => !hiddenPermissions.contains p),
        (getButtonLabel p).isSome = true ∧ renderView p ≠ .Welcome ∧
        checkPermission (some u) p = .ok (.bool true)) ∧
      (∀ es v, Dashboard.navRun u "" es = some v →
        v = "" ∨ checkPermission (some u) v = .ok (.bool true)) := by
  obtain ⟨caps, hmem, hget, _⟩ := permissionsGet_declared role hrole
  have ht := strTruthy_declared role hrole
  obtain ⟨hside, hcp⟩ := sidebar_of_role u role caps hu ht hget
  obtain ⟨hnodup, hkeep, hfacts⟩ := sidebar_entries_facts role caps hmem
  have hbuttons : sidebarButtons u =
      .ok (caps.filter (fun p => !hiddenPermissions.contains p)) := by
    simp only [sidebarButtons, hside, Except.map, hkeep]
  have hperm : ∀ p ∈ caps.filter (fun p => !hiddenPermissions.contains p),
      checkPermission (some u) p = .ok (.bool true) := by
    intro p hp
    rw [hcp p]
    have : p ∈ caps := (List.mem_filter.1 hp).1
    simp [this]
  refine ⟨caps, hmem, hside, hbuttons, hnodup, ?_, ?_⟩
  · intro p hp
    exact ⟨(hfacts p hp).1, (hfacts p hp).2, hperm p hp⟩
  · intro es v hrun
    rcases Dashboard.navRun_within u _ hbuttons es "" v (Or.inl rfl) hrun with h | h
    · exact Or.inl h
    · exact Or.inr (hperm v h)

/-- An instance of C29: an HR identity, whose sidebar has four entries. -/
theorem routing_within_capabilities_witness :
    ∃ caps, ("HR", caps) ∈ PERMISSIONS ∧
      sidebarPermissions ⟨"E7", "Asha", some "HR"⟩ =
        .ok (caps.filter (fun p => !hiddenPermissions.contains p)) ∧
      sidebarButtons ⟨"E7", "Asha", some "HR"⟩ =
        .ok (caps.filter (fun p => !hiddenPermissions.contains p)) ∧
      (caps.filter (fun p => !hiddenPermissions.contains p)).Nodup ∧
      (∀ p ∈ caps.filter (fun p => !hiddenPermissions.contains p),
        (getButtonLabel p).isSome = true ∧ renderView p ≠ .Welcome ∧
        checkPermission (some ⟨"E7", "Asha", some "HR"⟩) p = .ok (.bool true)) ∧
      (∀ es v, Dashboard.navRun ⟨"E7", "Asha", some "HR"⟩ "" es = some v →
        v = "" ∨ checkPermission (some ⟨"E7", "Asha", some "HR"⟩) v = .ok (.bool true)) :=
  routing_within_capabilities ⟨"E7", "Asha", some "HR"⟩ "HR" (by decide) rfl

end VMS
